import Mathlib

/-!
# TriCore peripheral models

A shallow embedding of the interrupt router (hw/intc/tricore_irbus.c), the
ASCLIN UART (hw/char/tricore_asclin.c), the clock control unit
(hw/tricore/tricore_scu.c) and the system timer (hw/timer/tricore_stm.c),
followed by theorems about them.

Conventions: a C `uint32_t` is a natural number, arithmetic that can wrap is
written with an explicit `% 2 ^ 32`; a C array is a function from the index;
an interrupt line is the Boolean level last driven on it; a function whose C
code can divide by zero returns an `Option`, with no result in that case.
-/

namespace TriCore

/-! ## Machine words -/

/-- The C operator `~` on a 32-bit operand. -/
def not32 (x : Nat) : Nat := (2 ^ 32 - 1) ^^^ (x % 2 ^ 32)

/-- Subtraction of two `uint32_t` values, wrapping modulo 2^32. -/
def sub32 (a b : Nat) : Nat := (a % 2 ^ 32 + 2 ^ 32 - b % 2 ^ 32) % 2 ^ 32

/-! ## Interrupt router: include/hw/intc/tricore_irbus.h -/

def IR_SRC_COUNT : Nat := 256

def IR_SRC_SRPN : Nat := 0xFF

def IR_SRC_SRE : Nat := 1 <<< 10

def IR_SRC_SRR : Nat := 1 <<< 24

def IR_SRC_RESET : Nat := 254

/-- Modelled from the spec: the mask of the pending-interrupt priority field of
the CPU register ICR (bits 16 to 23); it is declared in target/tricore/cpu.h,
which is not among the sources. -/
def MASK_ICR_PIPN : Nat := 0x00FF0000

/-- The router state `TriCoreIRBUSState`, together with the two things the
router drives: the register `ICR` of the linked CPU and the level of the
output line `parent_irq`. -/
structure TriCoreIRBUSState where
  src_control_reg : Nat → Nat
  ICR : Nat
  parent_irq : Bool

/-- The test of `irq_evaluate` on one source: request bit set, and enabled or
the reset source. -/
def irq_triggered (pv : TriCoreIRBUSState) (srcnum : Nat) : Prop :=
  pv.src_control_reg srcnum &&& IR_SRC_SRR ≠ 0 ∧
    (pv.src_control_reg srcnum &&& IR_SRC_SRE ≠ 0 ∨ srcnum = IR_SRC_RESET)

instance (pv : TriCoreIRBUSState) (srcnum : Nat) : Decidable (irq_triggered pv srcnum) := by
  unfold irq_triggered; infer_instance

/-- The body of the `if` in `irq_evaluate`: write the register back, copy the
priority number into ICR.PIPN, raise the line. -/
def irq_trigger (pv : TriCoreIRBUSState) (srcnum : Nat) : TriCoreIRBUSState :=
  let src_reg := pv.src_control_reg srcnum
  { pv with
    src_control_reg := Function.update pv.src_control_reg srcnum src_reg
    ICR := (pv.ICR &&& not32 MASK_ICR_PIPN) ||| ((src_reg &&& IR_SRC_SRPN) <<< 16)
    parent_irq := true }

/-- The `for` loop of `irq_evaluate` from index `srcnum` on, with `count`
indices left to visit; when the loop ends the line is lowered. -/
def irq_evaluate_from (pv : TriCoreIRBUSState) : Nat → Nat → TriCoreIRBUSState
  | 0, _ => { pv with parent_irq := false }
  | count + 1, srcnum =>
    if irq_triggered pv srcnum then irq_trigger pv srcnum
    else irq_evaluate_from pv count (srcnum + 1)

/-- The function `irq_evaluate`. -/
def irq_evaluate (pv : TriCoreIRBUSState) : TriCoreIRBUSState :=
  irq_evaluate_from pv IR_SRC_COUNT 0

/-- The function `irq_handler`: the `setLevel` of the specification. -/
def irq_handler (pv : TriCoreIRBUSState) (srcnum : Nat) (level : Int) : TriCoreIRBUSState :=
  let src_reg := pv.src_control_reg srcnum
  if level ≠ 0 then
    if src_reg &&& IR_SRC_SRR ≠ 0 then pv
    else irq_evaluate
      { pv with src_control_reg := Function.update pv.src_control_reg srcnum (src_reg ||| IR_SRC_SRR) }
  else
    if ¬ (src_reg &&& IR_SRC_SRR ≠ 0) then pv
    else irq_evaluate
      { pv with
        src_control_reg := Function.update pv.src_control_reg srcnum (src_reg &&& not32 IR_SRC_SRR) }

/-- A sequence of `irq_handler` calls, oldest first. -/
def irq_handler_seq (pv : TriCoreIRBUSState) : List (Nat × Int) → TriCoreIRBUSState
  | [] => pv
  | (srcnum, level) :: calls => irq_handler_seq (irq_handler pv srcnum level) calls

/-- Source `i` is pending: its service request bit (bit 24) is set. -/
def src_pending (pv : TriCoreIRBUSState) (i : Nat) : Prop :=
  (pv.src_control_reg i).testBit 24 = true

/-- Source `i` is enabled: its service request enable bit (bit 10) is set. -/
def src_enabled (pv : TriCoreIRBUSState) (i : Nat) : Prop :=
  (pv.src_control_reg i).testBit 10 = true

/-- Source `i` qualifies: pending, and enabled or the reset source 254. -/
def src_qualifies (pv : TriCoreIRBUSState) (i : Nat) : Prop :=
  src_pending pv i ∧ (src_enabled pv i ∨ i = 254)

/-- Index `w` is the least index below 256 that qualifies. -/
def src_winner (pv : TriCoreIRBUSState) (w : Nat) : Prop :=
  w < 256 ∧ src_qualifies pv w ∧ ∀ j, j < w → ¬ src_qualifies pv j

/-- The priority field of `icr` (bits 16 to 23) holds the low 8 bits of `r`. -/
def pipn_is (icr r : Nat) : Prop :=
  ∀ i, i < 8 → icr.testBit (16 + i) = r.testBit i

/-- The bits of `icr2` outside the priority field equal those of `icr1`. -/
def icr_rest_eq (icr1 icr2 : Nat) : Prop :=
  ∀ i, (i < 16 ∨ 24 ≤ i) → icr2.testBit i = icr1.testBit i

/-- The line and the priority field agree with the source registers: the line
is raised exactly when some source qualifies, and then the priority field is
that of the least qualifying source. -/
def line_agrees (pv : TriCoreIRBUSState) : Prop :=
  (pv.parent_irq = true ↔ ∃ i, i < 256 ∧ src_qualifies pv i) ∧
    ∀ w, src_winner pv w → pipn_is pv.ICR (pv.src_control_reg w)

/-! ## ASCLIN UART: include/hw/char/tricore_asclin.h -/

def MASK_FLAGS_TC : Nat := 0x00020000

def MASK_FLAGS_RFL : Nat := 0x10000000

def MASK_FLAGS_TFL : Nat := 0x80000000

def MASK_RXFIFOCON_FLUSH : Nat := 0x1

def MASK_RXFIFOCON_ENI : Nat := 0x2

def MASK_FLAGSENABLE_RFLE : Nat := 0x10000000

def MASK_FLAGSENABLE_TFLE : Nat := 0x80000000

def ASCLIN_R_MAX : Nat := 27

def ASCLIN_RX_BUFFER : Nat := 8192

/-! The register indices: the anonymous `enum` of hw/char/tricore_asclin.c. -/

def CLC : Nat := 0

def IOCR : Nat := 1

def ID : Nat := 2

def TXFIFOCON : Nat := 3

def RXFIFOCON : Nat := 4

def BITCON : Nat := 5

def FRAMECON : Nat := 6

def DATCON : Nat := 7

def BRG : Nat := 8

def BRD : Nat := 9

def LINCON : Nat := 10

def LINBTIMER : Nat := 11

def LINHTIMER : Nat := 12

def FLAGS : Nat := 13

def FLAGSSET : Nat := 14

def FLAGSCLEAR : Nat := 15

def FLAGSENABLE : Nat := 16

def TXDATA : Nat := 17

def RXDATA : Nat := 18

def CSR : Nat := 19

def RXDATAD : Nat := 20

/-- The diagnostics the UART model emits through `error_report` and
`qemu_log`. -/
inductive AsclinReport where
  | rx_overflow (dropped : Nat)
  | txdata_read (offset : Nat)
  | rxdata_empty
  | read_unknown (addr : Nat)
  | write_unknown (addr : Nat)
  deriving DecidableEq, Repr

/-- The device state `TriCoreASCLINState`: the register file, the pending
transmit byte, the receive ring buffer with its two cursors, the levels of the
three interrupt lines, the watch tag, and the diagnostics emitted so far
(oldest first). -/
structure TriCoreASCLINState where
  regs : Nat → Nat
  txbuf : Nat
  rxbuf : Nat → Nat
  rxbufwriteidx : Nat
  rxbufreadidx : Nat
  RXSR : Bool
  TXSR : Bool
  EXSR : Bool
  watch_tag : Nat
  reports : List AsclinReport

/-- The function `uart_update_irq`. -/
def uart_update_irq (s : TriCoreASCLINState) : TriCoreASCLINState :=
  let rfe := s.regs FLAGSENABLE &&& MASK_FLAGSENABLE_RFLE
  let tfe := s.regs FLAGSENABLE &&& MASK_FLAGSENABLE_TFLE
  let rfl := s.regs FLAGS &&& MASK_FLAGS_RFL
  let tfl := s.regs FLAGS &&& MASK_FLAGS_TFL
  let s1 := if rfe ≠ 0 ∧ rfl ≠ 0 then { s with RXSR := true } else { s with RXSR := false }
  if tfe ≠ 0 ∧ tfl ≠ 0 then { s1 with TXSR := true } else { s1 with TXSR := false }

/-- The function `uart_update_flags`. -/
def uart_update_flags (s : TriCoreASCLINState) : TriCoreASCLINState :=
  let s1 :=
    if s.rxbufreadidx ≠ s.rxbufwriteidx then
      { s with regs := Function.update s.regs FLAGS (s.regs FLAGS ||| MASK_FLAGS_RFL) }
    else
      { s with regs := Function.update s.regs FLAGS (s.regs FLAGS &&& not32 MASK_FLAGS_RFL) }
  let s2 := { s1 with regs := Function.update s1.regs FLAGS (s1.regs FLAGS ||| MASK_FLAGS_TFL) }
  uart_update_irq s2

/-- The function `asclin_buffer_reset`. -/
def asclin_buffer_reset (s : TriCoreASCLINState) : TriCoreASCLINState :=
  uart_update_flags
    { s with
      rxbuf := fun i => if i < ASCLIN_RX_BUFFER then 0 else s.rxbuf i
      rxbufreadidx := 0
      rxbufwriteidx := 0 }

/-- The function `asclin_buffer_used`, in `uint32_t` arithmetic. -/
def asclin_buffer_used (s : TriCoreASCLINState) : Nat :=
  sub32 ((s.rxbufwriteidx + ASCLIN_RX_BUFFER) % 2 ^ 32) s.rxbufreadidx % ASCLIN_RX_BUFFER

/-- The function `asclin_buffer_free`: `used - (ASCLIN_RX_BUFFER - 1)` in
`uint32_t` arithmetic. -/
def asclin_buffer_free (s : TriCoreASCLINState) : Nat :=
  sub32 (asclin_buffer_used s) (ASCLIN_RX_BUFFER - 1)

/-- The function `uart_read`: the new state and the value returned. -/
def uart_read (s : TriCoreASCLINState) (offset _size : Nat) : TriCoreASCLINState × Nat :=
  let reg_addr := offset >>> 2
  let sr : TriCoreASCLINState × Nat :=
    if reg_addr = CLC ∨ reg_addr = IOCR ∨ reg_addr = ID ∨ reg_addr = TXFIFOCON ∨
        reg_addr = RXFIFOCON ∨ reg_addr = BITCON ∨ reg_addr = FRAMECON ∨ reg_addr = DATCON ∨
        reg_addr = BRG ∨ reg_addr = BRD ∨ reg_addr = LINCON ∨ reg_addr = LINBTIMER ∨
        reg_addr = LINHTIMER ∨ reg_addr = FLAGSENABLE ∨ reg_addr = FLAGS then
      (s, s.regs reg_addr >>> ((offset &&& 0x3) * 0x8))
    else if reg_addr = FLAGSSET ∨ reg_addr = FLAGSCLEAR then
      (s, 0x0)
    else if reg_addr = TXDATA then
      ({ s with reports := s.reports ++ [AsclinReport.txdata_read offset] }, 0x0)
    else if reg_addr = RXDATA then
      let r := s.rxbuf s.rxbufreadidx
      if s.rxbufreadidx ≠ s.rxbufwriteidx then
        let s1 := { s with rxbufreadidx := (s.rxbufreadidx + 1) % 2 ^ 32 }
        ({ s1 with rxbufreadidx := s1.rxbufreadidx % ASCLIN_RX_BUFFER }, r)
      else
        ({ s with reports := s.reports ++ [AsclinReport.rxdata_empty] }, r)
    else if reg_addr = CSR then
      let csr := s.regs reg_addr
      let csr := csr ||| (if csr &&& 0x0F ≠ 0 then 1 <<< 31 else 0)
      (s, csr >>> ((offset &&& 0x3) * 0x8))
    else if reg_addr = RXDATAD then
      (s, s.rxbuf s.rxbufreadidx)
    else
      ({ s with reports := s.reports ++ [AsclinReport.read_unknown (reg_addr <<< 2)] }, 0)
  (uart_update_flags sr.1, sr.2)

/-- The `while` loop of `uart_rx` with `size` bytes left. The pointer `buf` is
never advanced in the source, so every iteration stores `*buf`, the first
byte of the burst. -/
def uart_rx_loop (s : TriCoreASCLINState) (buf : List Nat) : Nat → TriCoreASCLINState
  | 0 => s
  | size + 1 =>
    let s1 := { s with rxbuf := Function.update s.rxbuf s.rxbufwriteidx (buf.headD 0) }
    let s2 := { s1 with rxbufwriteidx := (s1.rxbufwriteidx + 1) % 2 ^ 32 }
    let s3 := { s2 with rxbufwriteidx := s2.rxbufwriteidx % ASCLIN_RX_BUFFER }
    if asclin_buffer_free s3 = 0 then
      { s3 with reports := s3.reports ++ [AsclinReport.rx_overflow (size + 1)] }
    else
      uart_rx_loop s3 buf size

/-- The function `uart_rx`; the burst is the list `buf`, its length is the
argument `size` of the source. -/
def uart_rx (s : TriCoreASCLINState) (buf : List Nat) : TriCoreASCLINState :=
  uart_update_flags (uart_rx_loop s buf buf.length)

/-- The function `uart_can_rx`. -/
def uart_can_rx (s : TriCoreASCLINState) : Nat :=
  if s.regs RXFIFOCON &&& MASK_RXFIFOCON_ENI ≠ 0 ∧ asclin_buffer_free s > 0 then 1 else 0

/-- The state `asclin_uart_init` leaves: both cursors zero; the object is
allocated zeroed. -/
def asclin_uart_init : TriCoreASCLINState where
  regs := fun _ => 0
  txbuf := 0
  rxbuf := fun _ => 0
  rxbufwriteidx := 0
  rxbufreadidx := 0
  RXSR := false
  TXSR := false
  EXSR := false
  watch_tag := 0
  reports := []

/-- Both cursors index the ring buffer. -/
def cursors_ok (s : TriCoreASCLINState) : Prop :=
  s.rxbufreadidx < 8192 ∧ s.rxbufwriteidx < 8192

instance (s : TriCoreASCLINState) : Decidable (cursors_ok s) := by
  unfold cursors_ok; infer_instance

/-- The number of buffered bytes as the specification defines it:
`(write - read) mod capacity`. -/
def used_spec (s : TriCoreASCLINState) : Nat :=
  (((s.rxbufwriteidx : Int) - (s.rxbufreadidx : Int)) % 8192).toNat

/-- The `n` successive reads of RXDATA from state `s`: the final state and the
values read, oldest first. -/
def read_rxdata_n (s : TriCoreASCLINState) : Nat → TriCoreASCLINState × List Nat
  | 0 => (s, [])
  | n + 1 =>
    let sr := uart_read s (RXDATA <<< 2) 4
    let rest := read_rxdata_n sr.1 n
    (rest.1, sr.2 :: rest.2)

/-! ## Clock control unit: include/hw/tricore/tricore_scu.h -/

def MASK_OSCCON_PLLLV : Nat := 0x00000001

def MASK_OSCCON_PLLHV : Nat := 0x00000100

def MASK_PLLCON1_K1DIV : Nat := 0x007F0000

def MASK_PLLCON1_K2DIV : Nat := 0x0000003F

def MASK_CCUCON1_STMDIV : Nat := 0x00000F00

def MASK_CCUCON1_INSEL : Nat := 0x30000000

def MASK_CCUCON1_INSEL_BACKUP : Nat := 0x0

def MASK_CCUCON1_INSEL_OSC0 : Nat := 0x10000000

def MASK_PLLCON0_NDIV : Nat := 0x0000FE00

def MASK_PLLCON0_PDIV : Nat := 0x0F000000

def MASK_CCUCON0_SRIDIV : Nat := 0x00000F00

def MASK_CCUCON0_SPBDIV : Nat := 0x000F0000

def MASK_PLLSTAT_VCOBYST : Nat := 0x1

def MASK_PLLSTAT_VCOLOCK : Nat := 0x00000004

def MASK_PLLSTAT_FINDIS : Nat := 0x00000008

def SCU_FBACKUP : Nat := 100000000

def SCU_XTAL1 : Nat := 20000000

/-- The type `TriCore_SCU_Mode_Type`. -/
inductive TriCore_SCU_Mode_Type where
  | TRICORE_SCU_NORMAL
  | TRICORE_SCU_FREERUNNING
  | TRICORE_SCU_PRESCALER
  deriving DecidableEq, Repr

/-- The diagnostics the clock unit emits through `error_report`. -/
inductive ScuReport where
  | freerunning_not_implemented
  | illegal_configuration
  | stmdiv_undefined
  | sridiv_undefined
  | spbdiv_undefined
  deriving DecidableEq, Repr

/-- The device state `TriCoreSCUState`, with the level of `reset_line` and the
flag `reset_pending` of the linked CPU. -/
structure TriCoreSCUState where
  mode : TriCore_SCU_Mode_Type
  OSCCON : Nat
  PLLSTAT : Nat
  PLLCON : Nat → Nat
  PLLERAYSTAT : Nat
  PLLERAYCON : Nat → Nat
  CCUCON : Nat → Nat
  FDR : Nat
  EXTCON : Nat
  WDTSCON0 : Nat
  WDTSCON1 : Nat
  WDTCPU0CON0 : Nat
  reset_line : Bool
  reset_pending : Nat

/-- Division of two `uint32_t` values; a zero divisor has no result. -/
def div32 (a b : Nat) : Option Nat :=
  if b = 0 then none else some (a / b)

/-- The function `tricore_scu_get_fOsc`. -/
def tricore_scu_get_fOsc (s : TriCoreSCUState) : Nat :=
  if s.CCUCON 1 &&& MASK_CCUCON1_INSEL = MASK_CCUCON1_INSEL_BACKUP then SCU_FBACKUP
  else if s.CCUCON 1 &&& MASK_CCUCON1_INSEL = MASK_CCUCON1_INSEL_OSC0 then SCU_XTAL1
  else 0x0

/-- The function `tricore_scu_get_fPLL`: the value returned (none when a
division has a zero divisor) and the diagnostics emitted. In the first test of
the Normal branch the source shifts the mask, not the masked value. -/
def tricore_scu_get_fPLL (s : TriCoreSCUState) : Option Nat × List ScuReport :=
  let fOsc := tricore_scu_get_fOsc s
  if s.CCUCON 1 &&& MASK_CCUCON1_INSEL = MASK_CCUCON1_INSEL_BACKUP then
    (some fOsc, [])
  else if s.PLLSTAT &&& (MASK_PLLSTAT_FINDIS >>> 3) = 0x0
      ∧ s.PLLSTAT &&& MASK_PLLSTAT_VCOBYST = 0x0
      ∧ (s.PLLSTAT &&& MASK_PLLSTAT_VCOLOCK) >>> 2 = 0x1
      ∧ (s.OSCCON &&& MASK_OSCCON_PLLHV) >>> 8 = 0x1
      ∧ s.OSCCON &&& MASK_OSCCON_PLLLV = 0x1 then
    let pdiv := (((s.PLLCON 0 &&& MASK_PLLCON0_PDIV) >>> 24) + 1) % 2 ^ 32
    let ndiv := (((s.PLLCON 0 &&& MASK_PLLCON0_NDIV) >>> 9) + 1) % 2 ^ 32
    let k2div := ((s.PLLCON 1 &&& MASK_PLLCON1_K2DIV) + 1) % 2 ^ 32
    (div32 ((ndiv * fOsc) % 2 ^ 32) ((pdiv * k2div) % 2 ^ 32), [])
  else if s.PLLSTAT &&& MASK_PLLSTAT_VCOBYST = 0x1 then
    let k1div := (((s.PLLCON 1 &&& MASK_PLLCON1_K1DIV) >>> 16) + 1) % 2 ^ 32
    (div32 fOsc k1div, [])
  else if s.PLLSTAT &&& MASK_PLLSTAT_VCOBYST = 0x0
      ∧ (s.PLLSTAT &&& MASK_PLLSTAT_FINDIS) >>> 3 = 0x1 then
    (some 0x0, [ScuReport.freerunning_not_implemented])
  else
    (some 0x0, [ScuReport.illegal_configuration])

/-- The input check shared by the three divider getters: the values 7, 9,
11, 13 and 14 are reported, every value is returned. -/
def undefined_divider (d : Nat) : Bool :=
  d = 7 ∨ d = 9 ∨ d = 11 ∨ d = 13 ∨ d = 14

/-- The function `tricore_scu_get_stmdiv`; the value is cast to `uint8_t`. -/
def tricore_scu_get_stmdiv (s : TriCoreSCUState) : Nat × List ScuReport :=
  let stmdiv := ((s.CCUCON 1 &&& MASK_CCUCON1_STMDIV) >>> 8) % 2 ^ 8
  (stmdiv, if undefined_divider stmdiv then [ScuReport.stmdiv_undefined] else [])

/-- The function `tricore_scu_get_sridiv`. -/
def tricore_scu_get_sridiv (s : TriCoreSCUState) : Nat × List ScuReport :=
  let sridiv := ((s.CCUCON 0 &&& MASK_CCUCON0_SRIDIV) >>> 8) % 2 ^ 8
  (sridiv, if undefined_divider sridiv then [ScuReport.sridiv_undefined] else [])

/-- The function `tricore_scu_get_spbdiv`. -/
def tricore_scu_get_spbdiv (s : TriCoreSCUState) : Nat × List ScuReport :=
  let spbdiv := ((s.CCUCON 0 &&& MASK_CCUCON0_SPBDIV) >>> 16) % 2 ^ 8
  (spbdiv, if undefined_divider spbdiv then [ScuReport.spbdiv_undefined] else [])

/-- The function `tricore_scu_get_stmclock`. -/
def tricore_scu_get_stmclock (s : TriCoreSCUState) : Option Nat × List ScuReport :=
  let stmdiv := tricore_scu_get_stmdiv s
  let fPLL := tricore_scu_get_fPLL s
  (fPLL.1.bind (fun f => div32 f stmdiv.1), stmdiv.2 ++ fPLL.2)

/-- The function `tricore_scu_get_spbclock`. -/
def tricore_scu_get_spbclock (s : TriCoreSCUState) : Option Nat × List ScuReport :=
  let spbdiv := tricore_scu_get_spbdiv s
  let fPLL := tricore_scu_get_fPLL s
  (fPLL.1.bind (fun f => div32 f spbdiv.1), spbdiv.2 ++ fPLL.2)

/-- The function `tricore_scu_get_sri_clock`. -/
def tricore_scu_get_sri_clock (s : TriCoreSCUState) : Option Nat × List ScuReport :=
  let sridiv := tricore_scu_get_sridiv s
  let fPLL := tricore_scu_get_fPLL s
  (fPLL.1.bind (fun f => div32 f sridiv.1), sridiv.2 ++ fPLL.2)

/-- The field of `width` bits of `r` that starts at bit `lo`. -/
def reg_field (r lo width : Nat) : Nat := r / 2 ^ lo % 2 ^ width

/-! ## Interrupt router: the register window of hw/intc/tricore_irbus.c -/

def IR_SRC_ASCLIN0TX : Nat := 9

def IR_SRC_ASCLIN0RX : Nat := 10

def IR_SRC_ASCLIN0EX : Nat := 11

def IR_SRC_STM0_SR0 : Nat := 103

def IR_SRC_STM0_SR1 : Nat := 104

def IR_SRC_STM1_SR0 : Nat := 105

def IR_SRC_STM1_SR1 : Nat := 106

def IR_SRC_STM2_SR0 : Nat := 107

def IR_SRC_STM2_SR1 : Nat := 108

/-- The call `memcpy(((void *) &word) + byte_off, &value, size)` on a
little-endian host: the low `size` bytes of `value` replace the bytes of the
32-bit `word` from byte `byte_off` on. There is no result when the copy would
run past the word. -/
def memcpy_word (word value byte_off size : Nat) : Option Nat :=
  if byte_off + size > 4 then none
  else
    some ((word &&& not32 ((2 ^ (8 * size) - 1) <<< (8 * byte_off))) |||
      ((value % 2 ^ (8 * size)) <<< (8 * byte_off)))

/-- The first `switch` of `tricore_irbus_srvcontrolregs_write`: the source
index of a register address, none for the `default` case (srcnum stays -1 and
an error is reported). -/
def irbus_srcnum (reg_addr : Nat) : Option Nat :=
  if reg_addr = 0x20 then some IR_SRC_ASCLIN0TX
  else if reg_addr = 0x21 then some IR_SRC_ASCLIN0RX
  else if reg_addr = 0x22 then some IR_SRC_ASCLIN0EX
  else if reg_addr = 0x124 then some IR_SRC_STM0_SR0
  else if reg_addr = 0x125 then some IR_SRC_STM0_SR1
  else if reg_addr = 0x126 then some IR_SRC_STM1_SR1
  else if reg_addr = 0x127 then some IR_SRC_STM1_SR1
  else if reg_addr = 0x128 then some IR_SRC_STM2_SR1
  else if reg_addr = 0x129 then some IR_SRC_STM2_SR1
  else none

/-- The second `switch` of `tricore_irbus_srvcontrolregs_write`, on
`srcc & (3 << 25)` with the case labels 0, 3, 1 and 2 of the source, followed
by the clearing of bits 25 and 26. -/
def irbus_setr_clrr (srcc : Nat) : Nat :=
  let sel := srcc &&& (3 <<< 25)
  let srcc :=
    if sel = 0 ∨ sel = 3 then srcc
    else if sel = 1 then srcc &&& not32 (1 <<< 24)
    else if sel = 2 then srcc ||| (1 <<< 24)
    else srcc
  srcc &&& not32 (3 <<< 25)

/-- The function `tricore_irbus_srvcontrolregs_write`: the new state and
whether an error was reported; none when the `memcpy` leaves the word. -/
def tricore_irbus_srvcontrolregs_write (s : TriCoreIRBUSState) (offset value size : Nat) :
    Option (TriCoreIRBUSState × Bool) :=
  let reg_addr := offset >>> 2
  match irbus_srcnum reg_addr with
  | none => some (s, true)
  | some srcnum =>
    match memcpy_word (s.src_control_reg srcnum) value (offset &&& 0x3) size with
    | none => none
    | some srcc =>
      some ({ s with
        src_control_reg := Function.update s.src_control_reg srcnum (irbus_setr_clrr srcc) },
        false)

/-- The function `tricore_irbus_srvcontrolregs_read`: the element of
`src_control_reg` at the word index of the offset. The array has
`IR_SRC_COUNT` elements; an index past it has no result. -/
def tricore_irbus_srvcontrolregs_read (s : TriCoreIRBUSState) (offset _size : Nat) :
    Option Nat :=
  let reg_addr := offset >>> 2
  if reg_addr < IR_SRC_COUNT then some (s.src_control_reg reg_addr) else none


/-! ## ASCLIN UART: the write path of hw/char/tricore_asclin.c -/

def STAT_RX_EVT : Nat := 1 <<< 1

def STAT_TX_EVT : Nat := 1 <<< 2

/-- The answers of the character backend during one register write, taken as
a parameter: the value `qemu_chr_fe_write_all` returns, the tag
`qemu_chr_fe_add_watch` returns (0 when no watch can be registered), and the
bursts the backend hands to the registered receive handler `uart_rx` inside
`qemu_chr_fe_accept_input`, oldest first (empty when it has nothing waiting
or only wakes the event loop). -/
structure CharBackend where
  write_all : Int
  add_watch : Nat
  accept_input : List (List Nat)

/-- The call `qemu_chr_fe_accept_input(&s->chr)`: the backend calls the
handler `uart_rx`, registered by `asclin_uart_realize`, once for each burst
it has waiting. -/
def uart_accept_input (s : TriCoreASCLINState) (chr : CharBackend) : TriCoreASCLINState :=
  chr.accept_input.foldl uart_rx s

/-- The label `buffer_drained` of `uart_transmit`: set FLAGS.TC and update
the flags. -/
def uart_buffer_drained (s : TriCoreASCLINState) : TriCoreASCLINState :=
  uart_update_flags
    { s with regs := Function.update s.regs FLAGS (s.regs FLAGS ||| MASK_FLAGS_TC) }

/-- The function `uart_transmit`. -/
def uart_transmit (s : TriCoreASCLINState) (chr : CharBackend) : TriCoreASCLINState :=
  let s1 := { s with watch_tag := 0 }
  let ret := chr.write_all
  if ret ≤ 0 then
    let s2 := { s1 with watch_tag := chr.add_watch }
    if s2.watch_tag = 0 then uart_buffer_drained s2
    else s2
  else uart_buffer_drained s1

/-- The function `uart_transmit_block`; the bytes sent are read from guest
memory and do not enter the device state. -/
def uart_transmit_block (s : TriCoreASCLINState) (chr : CharBackend) (_length : Nat) :
    TriCoreASCLINState :=
  let s1 := { s with watch_tag := 0 }
  let ret := chr.write_all
  if ret ≤ 0 then
    let s2 := { s1 with watch_tag := chr.add_watch }
    if s2.watch_tag = 0 then uart_buffer_drained s2
    else s2
  else uart_buffer_drained s1

/-- The value `uart_write` dispatches on: the written value shifted to its
byte lane and, for a 1-byte or 2-byte access, merged with the other lanes of
the addressed word. -/
def uart_write_value (s : TriCoreASCLINState) (offset value size : Nat) : Nat :=
  let reg_addr := offset >>> 2
  let value := (value <<< ((offset &&& 0x3) * 0x8)) % 2 ^ 64
  let value :=
    if size = 1 then
      let old_value := s.regs reg_addr
      let shifter := offset &&& 3
      let old_value := old_value &&& not32 (0xFF <<< (shifter * 8))
      value ||| old_value
    else value
  let value :=
    if size = 2 then
      let old_value := s.regs reg_addr
      let shifter := offset &&& 3
      let old_value := old_value &&& not32 (0xFFFF <<< (shifter * 8))
      value ||| old_value
    else value
  value

/-- The `switch` of `uart_write` on the register address, with the merged
value. The RXFIFOCON case stores the value, flushes when the flush bit is
set, and then calls `qemu_chr_fe_accept_input` when ENI is set. -/
def uart_write_switch (s : TriCoreASCLINState) (chr : CharBackend) (reg_addr value : Nat) :
    TriCoreASCLINState :=
  if reg_addr = CLC ∨ reg_addr = IOCR ∨ reg_addr = ID ∨ reg_addr = TXFIFOCON then
    { s with regs := Function.update s.regs reg_addr (value % 2 ^ 32) }
  else if reg_addr = RXFIFOCON then
    let s1 := { s with regs := Function.update s.regs reg_addr (value % 2 ^ 32) }
    let s2 := if (value &&& MASK_RXFIFOCON_FLUSH) >>> 0 ≠ 0 then asclin_buffer_reset s1 else s1
    if (value &&& MASK_RXFIFOCON_ENI) >>> 1 ≠ 0 then uart_accept_input s2 chr else s2
  else if reg_addr = BITCON then
    { s with
      regs := Function.update s.regs reg_addr
        (s.regs reg_addr &&& not32 (value &&& (STAT_RX_EVT ||| STAT_TX_EVT))) }
  else if reg_addr = FRAMECON ∨ reg_addr = DATCON ∨ reg_addr = BRG ∨ reg_addr = BRD ∨
      reg_addr = LINCON ∨ reg_addr = LINBTIMER then
    s
  else if reg_addr = LINHTIMER then
    s
  else if reg_addr = FLAGS then
    { s with regs := Function.update s.regs FLAGS (value % 2 ^ 32) }
  else if reg_addr = FLAGSSET then
    { s with regs := Function.update s.regs FLAGS (s.regs FLAGS ||| value % 2 ^ 32) }
  else if reg_addr = FLAGSCLEAR then
    { s with regs := Function.update s.regs FLAGS (s.regs FLAGS &&& not32 value) }
  else if reg_addr = FLAGSENABLE then
    { s with regs := Function.update s.regs reg_addr (value % 2 ^ 32) }
  else if reg_addr = TXDATA then
    uart_transmit { s with txbuf := value % 2 ^ 32 } chr
  else if reg_addr = RXDATA ∨ reg_addr = CSR then
    { s with regs := Function.update s.regs reg_addr (value % 2 ^ 32) }
  else if reg_addr = RXDATAD then
    s
  else if reg_addr = 0x60 / 4 then
    { s with regs := Function.update s.regs reg_addr (value % 2 ^ 32) }
  else if reg_addr = 0x64 / 4 then
    let xfer_len := s.regs (0x60 / 4)
    uart_transmit_block s chr xfer_len
  else
    { s with reports := s.reports ++ [AsclinReport.write_unknown (reg_addr <<< 2)] }

/-- The function `uart_write`. -/
def uart_write (s : TriCoreASCLINState) (chr : CharBackend) (offset value size : Nat) :
    TriCoreASCLINState :=
  uart_update_irq (uart_write_switch s chr (offset >>> 2) (uart_write_value s offset value size))

/-- One access to the UART: a register read, a register write with the
backend's answers, or a receive burst. -/
inductive AsclinAccess where
  | read (offset size : Nat)
  | write (chr : CharBackend) (offset value size : Nat)
  | rx (buf : List Nat)

/-- The state after one access. -/
def uart_access (s : TriCoreASCLINState) : AsclinAccess → TriCoreASCLINState
  | AsclinAccess.read offset size => (uart_read s offset size).1
  | AsclinAccess.write chr offset value size => uart_write s chr offset value size
  | AsclinAccess.rx buf => uart_rx s buf

/-- The state after a sequence of accesses, oldest first. -/
def uart_run (s : TriCoreASCLINState) : List AsclinAccess → TriCoreASCLINState
  | [] => s
  | a :: rest => uart_run (uart_access s a) rest

/-- The access is a write to FLAGS, FLAGSSET or FLAGSCLEAR. -/
def writes_flags : AsclinAccess → Prop
  | AsclinAccess.write _ offset _ _ =>
    offset >>> 2 = FLAGS ∨ offset >>> 2 = FLAGSSET ∨ offset >>> 2 = FLAGSCLEAR
  | _ => False

/-- The access is a register read or a receive burst. -/
def reads_or_receives : AsclinAccess → Prop
  | AsclinAccess.read _ _ => True
  | AsclinAccess.rx _ => True
  | _ => False

/-- The word `flags` has RFL (bit 28) set exactly when the cursors of `s`
differ, and has TFL (bit 31) set. -/
def flags_canonical (s : TriCoreASCLINState) (flags : Nat) : Prop :=
  (flags.testBit 28 = true ↔ s.rxbufreadidx ≠ s.rxbufwriteidx) ∧ flags.testBit 31 = true

/-- The levels of the RX and TX lines agree with the registers: RX is raised
exactly when FLAGSENABLE.RFLE (bit 28) and FLAGS.RFL (bit 28) are both set, TX
exactly when FLAGSENABLE.TFLE (bit 31) and FLAGS.TFL (bit 31) are both set. -/
def lines_recomputed (s : TriCoreASCLINState) : Prop :=
  (s.RXSR = true ↔ ((s.regs FLAGSENABLE).testBit 28 = true ∧ (s.regs FLAGS).testBit 28 = true)) ∧
  (s.TXSR = true ↔ ((s.regs FLAGSENABLE).testBit 31 = true ∧ (s.regs FLAGS).testBit 31 = true))


/-! ## System timer: include/hw/timer/tricore_stm.h -/

def MASK_ICR_CMP0EN : Nat := 0x01

def MASK_ICR_CMP0IR : Nat := 0x02

def MASK_ICR_CMP1EN : Nat := 0x10

def MASK_ICR_CMP1IR : Nat := 0x20

def MASK_ISCR_CMP0IRR : Nat := 0x1

def MASK_ISCR_CMP0IRS : Nat := 0x2

def MASK_ISCR_CMP1IRR : Nat := 0x4

def MASK_ISCR_CMP1IRS : Nat := 0x8

def MASK_CMCON_MSIZE0 : Nat := 0x1F

def MASK_CMCON_MSTART0 : Nat := 0x1F00

def STM_R_MAX : Nat := 0x100 / 4

namespace STM

/-! The register indices: the anonymous `enum` of hw/timer/tricore_stm.c. -/

def CLC : Nat := 0

def RESERVED1 : Nat := 1

def ID : Nat := 2

def RESERVED2 : Nat := 3

def TIM0 : Nat := 4

def TIM1 : Nat := 5

def TIM2 : Nat := 6

def TIM3 : Nat := 7

def TIM4 : Nat := 8

def TIM5 : Nat := 9

def TIM6 : Nat := 10

def CAP : Nat := 11

def CMP0 : Nat := 12

def CMP1 : Nat := 13

def CMCON : Nat := 14

def ICR : Nat := 15

def ISCR : Nat := 16

def RESERVED3 : Nat := 17

def TIM0SV : Nat := 0x50 / 4

def CAPSV : Nat := 21

def RESERVED4 : Nat := 22

def OCS : Nat := 0xE8 / 4

def KRSTCLR : Nat := 59

def KRST1 : Nat := 60

def KRST0 : Nat := 61

def ACCEN1 : Nat := 62

def ACCEN0 : Nat := 63

end STM

/-- Modelled from the spec: the one-shot alarm of the timer, which the source
keeps in a `ptimer_state` (hw/core/ptimer.c, not among the sources). The
timer has a single alarm: `enabled` is 0 when none is armed, 2 when a
one-shot alarm is armed and 1 for a periodic one; `delta` is the number of
ticks until it fires, `limit` the reload value and `freq` the tick frequency
in Hz. -/
structure ptimer_state where
  freq : Nat
  limit : Nat
  delta : Nat
  enabled : Nat
  deriving DecidableEq, Repr

/-- Modelled from the spec: `ptimer_stop` cancels the armed alarm. -/
def ptimer_stop (p : ptimer_state) : ptimer_state :=
  { p with enabled := 0 }

/-- Modelled from the spec: `ptimer_set_freq` sets the tick frequency. -/
def ptimer_set_freq (p : ptimer_state) (freq : Nat) : ptimer_state :=
  { p with freq := freq }

/-- Modelled from the spec: `ptimer_set_limit` sets the reload value and,
when `reload` is not zero, the number of ticks until the alarm. -/
def ptimer_set_limit (p : ptimer_state) (limit reload : Nat) : ptimer_state :=
  { p with limit := limit, delta := if reload ≠ 0 then limit else p.delta }

/-- Modelled from the spec: `ptimer_run` arms the alarm, one-shot when
`oneshot` is not zero. -/
def ptimer_run (p : ptimer_state) (oneshot : Nat) : ptimer_state :=
  { p with enabled := if oneshot ≠ 0 then 2 else 1 }

/-- Modelled from the spec: the expiry of the alarm. A one-shot alarm fires
and is disarmed, a periodic one fires and is reloaded, and nothing fires when
no alarm is armed. The result says whether the callback is called. -/
def ptimer_tick (p : ptimer_state) : ptimer_state × Bool :=
  if p.enabled = 2 then ({ p with delta := 0, enabled := 0 }, true)
  else if p.enabled = 1 then ({ p with delta := p.limit }, true)
  else (p, false)

/-- The diagnostics the timer emits through `error_report`. -/
inductive StmReport where
  | read_unknown (offset : Nat)
  deriving DecidableEq, Repr

/-- The fields of the device state `TriCoreSTMState` that the model uses: the
register file, the level of the interrupt line, the frequency snapshot, the
counter snapshot, the alarm, and the diagnostics emitted so far. -/
structure TriCoreSTMState where
  regs : Nat → Nat
  irq : Bool
  freq_hz : Nat
  tim_counter : Nat
  ptimer : ptimer_state
  reports : List StmReport

/-- Subtraction of two `uint64_t` values, wrapping modulo 2^64. -/
def sub64 (a b : Nat) : Nat := (a % 2 ^ 64 + 2 ^ 64 - b % 2 ^ 64) % 2 ^ 64

/-- The expression `(uint64_t) (delta * pow(2, shift))`, computed in `double`
by the source. It is exact for an operand below 2^53 and a product below
2^64; outside this range the value the host produces is the parameter
`inexact`. -/
def scale_ticks (inexact : Nat → Nat → Nat) (delta shift : Nat) : Nat :=
  if delta < 2 ^ 53 ∧ delta * 2 ^ shift < 2 ^ 64 then delta * 2 ^ shift
  else inexact delta shift % 2 ^ 64

/-- The function `tricore_stm_update_irqs`. -/
def tricore_stm_update_irqs (s : TriCoreSTMState) : TriCoreSTMState :=
  if s.regs STM.ICR &&& MASK_ICR_CMP0IR ≠ 0 ∧ s.regs STM.ICR &&& MASK_ICR_CMP0EN ≠ 0 then
    { s with irq := true }
  else
    { s with irq := false }

/-- The function `tricore_stm_update_freq`; `scu` is the linked clock unit.
There is no result when the clock query divides by zero. -/
def tricore_stm_update_freq (s : TriCoreSTMState) (scu : TriCoreSCUState) :
    Option TriCoreSTMState :=
  match (tricore_scu_get_stmclock scu).1 with
  | none => none
  | some freq => some { s with freq_hz := freq, ptimer := ptimer_set_freq s.ptimer freq }

/-- The function `tricore_stm_get_tim_update_regs`; `now` is the value of
`qemu_clock_get_ns(QEMU_CLOCK_HOST)`, a non-negative number of nanoseconds.
There is no result when one of the two divisions has a zero divisor. -/
def tricore_stm_get_tim_update_regs (s : TriCoreSTMState) (now timshift : Nat)
    (bUpdateTIM : Bool) : Option (TriCoreSTMState × Nat) :=
  if s.freq_hz = 0 then none
  else if 1000000000 / s.freq_hz = 0 then none
  else
    let ticks := (now / (1000000000 / s.freq_hz)) % 2 ^ 64
    let r := (ticks >>> timshift) % 2 ^ 32
    if bUpdateTIM then
      let s1 := { s with tim_counter := ticks }
      some ({ s1 with regs := Function.update s1.regs STM.CAP ((s1.tim_counter >>> 32) % 2 ^ 32) },
        r)
    else
      some (s, r)

/-- The function `tricore_stm_timer_start`; there is no result when the
counter query divides by zero. -/
def tricore_stm_timer_start (inexact : Nat → Nat → Nat) (s : TriCoreSTMState) (now : Nat) :
    Option TriCoreSTMState :=
  let s1 := { s with ptimer := ptimer_stop s.ptimer }
  if ¬ (s1.regs STM.ICR &&& MASK_ICR_CMP0EN ≠ 0) then some s1
  else
    let shiftsToRight := ((s1.regs STM.CMCON &&& MASK_CMCON_MSTART0) >>> 8)
      + ((s1.regs STM.CMCON &&& MASK_CMCON_MSIZE0) >>> 8)
    match tricore_stm_get_tim_update_regs s1 now shiftsToRight false with
    | none => none
    | some (s2, tim) =>
      let delta_ticks_2 := sub64 (s2.regs STM.CMP0) tim
      let timeout_ticks := scale_ticks inexact delta_ticks_2 shiftsToRight
      some { s2 with ptimer := ptimer_run (ptimer_set_limit s2.ptimer timeout_ticks 1) 1 }

/-- The value `tricore_stm_write` dispatches on: shifted to its byte lane
and, for a 1-byte or 2-byte access, merged with the other lanes of the
addressed word. -/
def stm_write_value (s : TriCoreSTMState) (offset value size : Nat) : Nat :=
  let reg_addr := offset >>> 2
  let value := (value <<< ((offset &&& 0x3) * 0x8)) % 2 ^ 64
  let value :=
    if size = 1 then
      let old_value := s.regs reg_addr
      let shifter := offset &&& 3
      let old_value := old_value &&& not32 (0xFF <<< (shifter * 8))
      value ||| old_value
    else value
  let value :=
    if size = 2 then
      let old_value := s.regs reg_addr
      let shifter := offset &&& 3
      let old_value := old_value &&& not32 (0xFFFF <<< (shifter * 8))
      value ||| old_value
    else value
  value

/-- The ISCR case of `tricore_stm_write`: the four tests in the order of the
source, each on the request flag of ICR. -/
def stm_write_iscr (s : TriCoreSTMState) (value : Nat) : TriCoreSTMState :=
  let s1 :=
    if value &&& MASK_ISCR_CMP0IRR ≠ 0 then
      { s with regs := Function.update s.regs STM.ICR (s.regs STM.ICR &&& not32 MASK_ICR_CMP0IR) }
    else s
  let s2 :=
    if value &&& MASK_ISCR_CMP0IRS ≠ 0 then
      { s1 with regs := Function.update s1.regs STM.ICR (s1.regs STM.ICR ||| MASK_ICR_CMP0IR) }
    else s1
  let s3 :=
    if value &&& MASK_ISCR_CMP1IRR ≠ 0 then
      { s2 with regs := Function.update s2.regs STM.ICR (s2.regs STM.ICR &&& not32 MASK_ICR_CMP1IR) }
    else s2
  if value &&& MASK_ISCR_CMP1IRS ≠ 0 then
    { s3 with regs := Function.update s3.regs STM.ICR (s3.regs STM.ICR ||| MASK_ICR_CMP1IR) }
  else s3

/-- The `switch` of `tricore_stm_write` on the register address, with the
merged value. -/
def stm_write_switch (inexact : Nat → Nat → Nat) (s : TriCoreSTMState)
    (now reg_addr value : Nat) : Option TriCoreSTMState :=
  if reg_addr = STM.CLC ∨ reg_addr = STM.ID ∨ reg_addr = STM.TIM0 ∨ reg_addr = STM.TIM1 ∨
      reg_addr = STM.TIM2 ∨ reg_addr = STM.TIM3 ∨ reg_addr = STM.TIM4 ∨ reg_addr = STM.TIM5 ∨
      reg_addr = STM.TIM6 ∨ reg_addr = STM.CAP ∨ reg_addr = STM.CMP0 ∨ reg_addr = STM.CMP1 ∨
      reg_addr = STM.ICR ∨ reg_addr = STM.TIM0SV ∨ reg_addr = STM.CAPSV ∨ reg_addr = STM.OCS ∨
      reg_addr = STM.KRSTCLR ∨ reg_addr = STM.KRST1 ∨ reg_addr = STM.KRST0 ∨
      reg_addr = STM.ACCEN1 ∨ reg_addr = STM.ACCEN0 then
    some { s with regs := Function.update s.regs reg_addr (value % 2 ^ 32) }
  else if reg_addr = STM.CMCON then
    tricore_stm_timer_start inexact
      { s with regs := Function.update s.regs reg_addr (value % 2 ^ 32) } now
  else if reg_addr = STM.ISCR then
    some (stm_write_iscr s value)
  else
    some s

/-- The function `tricore_stm_write`; `now` is the host clock in nanoseconds
at the time of the write. -/
def tricore_stm_write (inexact : Nat → Nat → Nat) (s : TriCoreSTMState)
    (now offset value size : Nat) : Option TriCoreSTMState :=
  (stm_write_switch inexact s now (offset >>> 2) (stm_write_value s offset value size)).map
    tricore_stm_update_irqs

/-- The function `tricore_stm_read`: the new state and the value returned. -/
def tricore_stm_read (s : TriCoreSTMState) (scu : TriCoreSCUState) (now offset _size : Nat) :
    Option (TriCoreSTMState × Nat) :=
  let reg_addr := offset >>> 2
  match tricore_stm_update_freq s scu with
  | none => none
  | some s =>
    if reg_addr = STM.CLC ∨ reg_addr = STM.ID ∨ reg_addr = STM.TIM0 then
      tricore_stm_get_tim_update_regs s now 0 true
    else if reg_addr = STM.TIM1 then tricore_stm_get_tim_update_regs s now 4 true
    else if reg_addr = STM.TIM2 then tricore_stm_get_tim_update_regs s now 8 true
    else if reg_addr = STM.TIM3 then tricore_stm_get_tim_update_regs s now 12 true
    else if reg_addr = STM.TIM4 then tricore_stm_get_tim_update_regs s now 16 true
    else if reg_addr = STM.TIM5 then tricore_stm_get_tim_update_regs s now 20 true
    else if reg_addr = STM.TIM6 then tricore_stm_get_tim_update_regs s now 32 true
    else if reg_addr = STM.CAP then some (s, s.regs STM.CAP)
    else if reg_addr = STM.ISCR then some (s, 0)
    else if reg_addr = STM.CMP0 ∨ reg_addr = STM.CMP1 ∨ reg_addr = STM.CMCON ∨
        reg_addr = STM.ICR then
      some (s, 0x0)
    else if reg_addr = STM.TIM0SV then
      some ({ s with regs := Function.update s.regs STM.CAP ((s.tim_counter >>> 32) % 2 ^ 32) },
        0x0)
    else if reg_addr = STM.CAPSV ∨ reg_addr = STM.OCS ∨ reg_addr = STM.KRSTCLR ∨
        reg_addr = STM.KRST1 ∨ reg_addr = STM.KRST0 ∨ reg_addr = STM.ACCEN1 ∨
        reg_addr = STM.ACCEN0 then
      some (s, s.regs reg_addr)
    else
      some ({ s with reports := s.reports ++ [StmReport.read_unknown (offset % 2 ^ 16)] }, 0x0)

/-- The function `tricore_stm_timer_hit`, the callback of the alarm. -/
def tricore_stm_timer_hit (s : TriCoreSTMState) : TriCoreSTMState :=
  if ¬ (s.regs STM.ICR &&& MASK_ICR_CMP0EN ≠ 0) then s
  else
    tricore_stm_update_irqs
      { s with regs := Function.update s.regs STM.ICR (s.regs STM.ICR ||| MASK_ICR_CMP0IR) }

/-- The counter of the timer as the source computes it: the host time in
nanoseconds divided by the tick length `1000000000 / freq` in whole
nanoseconds. -/
def stm_counter (freq now : Nat) : Nat := now / (1000000000 / freq)


/-! ## Clock control unit: the register window of hw/tricore/tricore_scu.c -/

/-- The bypass bit of PLLCON0. -/
def MASK_PLLCON0_VCOBYP : Nat := 0x00000001
/-- The set-free-run command bit of PLLCON0. -/
def MASK_PLLCON0_SETFINDIS : Nat := 0x00000010
/-- The clear-free-run command bit of PLLCON0. -/
def MASK_PLLCON0_CLRFINDIS : Nat := 0x00000020
/-- The update latch of CCUCON0. -/
def MASK_CCUCON0_UP : Nat := 0x40000000
/-- The update latch of CCUCON1. -/
def MASK_CCUCON1_UP : Nat := 0x40000000
/-- The update latch of CCUCON5. -/
def MASK_CCUCON5_UP : Nat := 0x40000000

/-- Reset value of OSCCON. -/
def RESET_TRICORE_OSCCON : Nat := 0x00000112
/-- Reset value of PLLSTAT. -/
def RESET_TRICORE_PLLSTAT : Nat := 0x00000038
/-- Reset value of PLLCON0. -/
def RESET_TRICORE_PLLCON0 : Nat := 0x0001C600
/-- Reset value of PLLCON1. -/
def RESET_TRICORE_PLLCON1 : Nat := 0x0002020F
/-- Reset value of PLLCON2. -/
def RESET_TRICORE_PLLCON2 : Nat := 0x0
/-- Reset value of PLLERAYSTAT. -/
def RESET_TRICORE_PLLERAYSTAT : Nat := 0x00000038
/-- Reset value of PLLERAYCON0. -/
def RESET_TRICORE_PLLERAYCON0 : Nat := 0x00012E00
/-- Reset value of PLLERAYCON1. -/
def RESET_TRICORE_PLLERAYCON1 : Nat := 0x000F020F
/-- Reset value of CCUCON0. -/
def RESET_TRICORE_CCUCON0 : Nat := 0x01120148
/-- Reset value of CCUCON1. -/
def RESET_TRICORE_CCUCON1 : Nat := 0x00002211
/-- Reset value of FDR. -/
def RESET_TRICORE_FDR : Nat := 0x0
/-- Reset value of EXTCON. -/
def RESET_TRICORE_EXTCON : Nat := 0x0
/-- Reset value of CCUCON2. -/
def RESET_TRICORE_CCUCON2 : Nat := 0x00000002
/-- Reset value of CCUCON3. -/
def RESET_TRICORE_CCUCON3 : Nat := 0x0
/-- Reset value of CCUCON4. -/
def RESET_TRICORE_CCUCON4 : Nat := 0x0
/-- Reset value of CCUCON5. -/
def RESET_TRICORE_CCUCON5 : Nat := 0x00000041
/-- Reset value of CCUCON6. -/
def RESET_TRICORE_CCUCON6 : Nat := 0x0
/-- Reset value of CCUCON7. -/
def RESET_TRICORE_CCUCON7 : Nat := 0x0
/-- Reset value of CCUCON8. -/
def RESET_TRICORE_CCUCON8 : Nat := 0x0
/-- Reset value of WDTSCON0. -/
def RESET_TRICORE_WDTSCON0 : Nat := 0xFFFC000E
/-- Reset value of WDTSCON1. -/
def RESET_TRICORE_WDTSCON1 : Nat := 0x0
/-- Reset value of WDTCPU0CON0. -/
def RESET_TRICORE_WDTCPU0CON0 : Nat := 0xFFFC000E

/-- The function `tricore_scu_update_mode`: the new state and the diagnostics
emitted. The Normal test reads PLLSTAT through the PLLCON0 mask
`MASK_PLLCON0_CLRFINDIS`, as the source does. -/
def tricore_scu_update_mode (s : TriCoreSCUState) : TriCoreSCUState × List ScuReport :=
  if s.PLLCON 0 &&& MASK_PLLCON0_VCOBYP = 0x0
      ∧ (s.PLLSTAT &&& MASK_PLLCON0_CLRFINDIS) >>> 5 = 0x1 then
    ({ s with
        mode := TriCore_SCU_Mode_Type.TRICORE_SCU_NORMAL
        PLLSTAT := s.PLLSTAT &&& not32 MASK_PLLSTAT_VCOBYST }, [])
  else if s.PLLCON 0 &&& MASK_PLLCON0_VCOBYP = 0x1 then
    ({ s with
        mode := TriCore_SCU_Mode_Type.TRICORE_SCU_PRESCALER
        PLLSTAT := s.PLLSTAT ||| MASK_PLLSTAT_VCOBYST }, [])
  else if s.PLLCON 0 &&& MASK_PLLCON0_VCOBYP = 0x0
      ∧ (s.PLLCON 0 &&& MASK_PLLCON0_SETFINDIS) >>> 4 = 0x1 then
    ({ s with
        mode := TriCore_SCU_Mode_Type.TRICORE_SCU_FREERUNNING
        PLLSTAT := s.PLLSTAT &&& not32 MASK_PLLSTAT_VCOBYST },
      [ScuReport.freerunning_not_implemented])
  else
    (s, [ScuReport.illegal_configuration])

/-- The function `tricore_scu_establish_configuration`. -/
def tricore_scu_establish_configuration (s : TriCoreSCUState) : TriCoreSCUState :=
  if s.CCUCON 0 &&& MASK_CCUCON0_UP ≠ 0 ∨ s.CCUCON 1 &&& MASK_CCUCON1_UP ≠ 0
      ∨ s.CCUCON 5 &&& MASK_CCUCON5_UP ≠ 0 then
    let s1 := { s with CCUCON := Function.update s.CCUCON 0 (s.CCUCON 0 &&& not32 MASK_CCUCON0_UP) }
    let s2 :=
      { s1 with CCUCON := Function.update s1.CCUCON 1 (s1.CCUCON 1 &&& not32 MASK_CCUCON1_UP) }
    { s2 with CCUCON := Function.update s2.CCUCON 5 (s2.CCUCON 5 &&& not32 MASK_CCUCON5_UP) }
  else s

/-- Word `k` of the register block of `TriCoreSCUState`, counted from OSCCON:
the `uint32_t` fields OSCCON, PLLSTAT, PLLCON[3], PLLERAYSTAT, PLLERAYCON[2],
CCUCON[9], FDR, EXTCON, WDTSCON0, WDTSCON1, WDTCPU0CON0 are laid out one after
the other; there is no word past WDTCPU0CON0, the last field. -/
def scu_block_get (s : TriCoreSCUState) (k : Nat) : Option Nat :=
  if k = 0 then some s.OSCCON
  else if k = 1 then some s.PLLSTAT
  else if k < 5 then some (s.PLLCON (k - 2))
  else if k = 5 then some s.PLLERAYSTAT
  else if k < 8 then some (s.PLLERAYCON (k - 6))
  else if k < 17 then some (s.CCUCON (k - 8))
  else if k = 17 then some s.FDR
  else if k = 18 then some s.EXTCON
  else if k = 19 then some s.WDTSCON0
  else if k = 20 then some s.WDTSCON1
  else if k = 21 then some s.WDTCPU0CON0
  else none

/-- The state with word `k` of the register block replaced by `v`. -/
def scu_block_set (s : TriCoreSCUState) (k v : Nat) : Option TriCoreSCUState :=
  if k = 0 then some { s with OSCCON := v }
  else if k = 1 then some { s with PLLSTAT := v }
  else if k < 5 then some { s with PLLCON := Function.update s.PLLCON (k - 2) v }
  else if k = 5 then some { s with PLLERAYSTAT := v }
  else if k < 8 then some { s with PLLERAYCON := Function.update s.PLLERAYCON (k - 6) v }
  else if k < 17 then some { s with CCUCON := Function.update s.CCUCON (k - 8) v }
  else if k = 17 then some { s with FDR := v }
  else if k = 18 then some { s with EXTCON := v }
  else if k = 19 then some { s with WDTSCON0 := v }
  else if k = 20 then some { s with WDTSCON1 := v }
  else if k = 21 then some { s with WDTCPU0CON0 := v }
  else none

/-- The call `memcpy(&X + j, &value, size)` of `tricore_scu_write`, where `&X`
is a `uint32_t *` and `k` is the block index of `X` plus `j`: the low `size`
bytes of `value` (little-endian host) replace the low bytes of word `k`. There
is no result when the destination lies past the structure. -/
def scu_memcpy (s : TriCoreSCUState) (k value size : Nat) : Option TriCoreSCUState :=
  match scu_block_get s k with
  | none => none
  | some old =>
    match memcpy_word old value 0 size with
    | none => none
    | some w => scu_block_set s k w

/-- The statement `s->PLLSTAT |= MASK_PLLSTAT_VCOLOCK`. -/
def scu_raise_lock (s : TriCoreSCUState) : TriCoreSCUState :=
  { s with PLLSTAT := s.PLLSTAT ||| MASK_PLLSTAT_VCOLOCK }

/-- The `switch` of `tricore_scu_write`, before the final mode update. The
PLLCON0 case copies at a byte offset inside the word (no result when the copy
would leave the word: the memory core delivers naturally aligned accesses of
at most four bytes); every other case adds `offset & 3` to a word pointer. -/
def scu_write_switch (s : TriCoreSCUState) (offset value size : Nat) : Option TriCoreSCUState :=
  let reg_addr := (offset >>> 2) <<< 2
  let j := offset &&& 0x3
  if reg_addr = 0x18 then
    match memcpy_word (s.PLLCON 0) value j size with
    | none => none
    | some w =>
      let s1 := { s with PLLCON := Function.update s.PLLCON 0 w }
      let s2 :=
        if s1.PLLCON 0 &&& MASK_PLLCON0_SETFINDIS ≠ 0 then
          { s1 with PLLSTAT := s1.PLLSTAT ||| MASK_PLLSTAT_FINDIS }
        else s1
      let s3 :=
        if s2.PLLCON 0 &&& MASK_PLLCON0_CLRFINDIS ≠ 0 then
          { s2 with PLLSTAT := s2.PLLSTAT &&& not32 MASK_PLLSTAT_FINDIS }
        else s2
      some (scu_raise_lock s3)
  else if reg_addr = 0x1C then (scu_memcpy s (3 + j) value size).map scu_raise_lock
  else if reg_addr = 0x20 then (scu_memcpy s (4 + j) value size).map scu_raise_lock
  else if reg_addr = 0x30 then
    (scu_memcpy s (8 + j) value size).map
      (fun t => scu_raise_lock (tricore_scu_establish_configuration t))
  else if reg_addr = 0x34 then
    (scu_memcpy s (9 + j) value size).map
      (fun t => scu_raise_lock (tricore_scu_establish_configuration t))
  else if reg_addr = 0x40 then (scu_memcpy s (10 + j) value size).map scu_raise_lock
  else if reg_addr = 0x44 then (scu_memcpy s (11 + j) value size).map scu_raise_lock
  else if reg_addr = 0x48 then (scu_memcpy s (12 + j) value size).map scu_raise_lock
  else if reg_addr = 0x4c then
    (scu_memcpy s (13 + j) value size).map
      (fun t => scu_raise_lock (tricore_scu_establish_configuration t))
  else if reg_addr = 0x60 then
    if value &&& 2 ≠ 0 then some { s with reset_pending := 1, reset_line := true }
    else some s
  else if reg_addr = 0x80 then (scu_memcpy s (14 + j) value size).map scu_raise_lock
  else if reg_addr = 0x84 then (scu_memcpy s (15 + j) value size).map scu_raise_lock
  else if reg_addr = 0x88 then (scu_memcpy s (16 + j) value size).map scu_raise_lock
  else if reg_addr = 0xf0 then scu_memcpy s (20 + j) value size
  else if reg_addr = 0x100 then scu_memcpy s (21 + j) value size
  else some s

/-- The function `tricore_scu_write`: the new state and the diagnostics of the
final `tricore_scu_update_mode`. -/
def tricore_scu_write (s : TriCoreSCUState) (offset value size : Nat) :
    Option (TriCoreSCUState × List ScuReport) :=
  (scu_write_switch s offset value size).map tricore_scu_update_mode

/-- The function `tricore_scu_reset`; the mode and the reset line are not
touched. -/
def tricore_scu_reset (s : TriCoreSCUState) : TriCoreSCUState :=
  { s with
    CCUCON := fun i =>
      if i = 0 then RESET_TRICORE_CCUCON0 else if i = 1 then RESET_TRICORE_CCUCON1
      else if i = 2 then RESET_TRICORE_CCUCON2 else if i = 3 then RESET_TRICORE_CCUCON3
      else if i = 4 then RESET_TRICORE_CCUCON4 else if i = 5 then RESET_TRICORE_CCUCON5
      else if i = 6 then RESET_TRICORE_CCUCON6 else if i = 7 then RESET_TRICORE_CCUCON7
      else if i = 8 then RESET_TRICORE_CCUCON8 else s.CCUCON i
    EXTCON := RESET_TRICORE_EXTCON
    FDR := RESET_TRICORE_FDR
    OSCCON := (RESET_TRICORE_OSCCON ||| MASK_OSCCON_PLLHV) ||| MASK_OSCCON_PLLLV
    PLLCON := fun i =>
      if i = 0 then RESET_TRICORE_PLLCON0 else if i = 1 then RESET_TRICORE_PLLCON1
      else if i = 2 then RESET_TRICORE_PLLCON2 else s.PLLCON i
    PLLERAYCON := fun i =>
      if i = 0 then RESET_TRICORE_PLLERAYCON0 else if i = 1 then RESET_TRICORE_PLLERAYCON1
      else s.PLLERAYCON i
    PLLERAYSTAT := RESET_TRICORE_PLLERAYSTAT
    PLLSTAT :=
      (((RESET_TRICORE_PLLSTAT &&& not32 MASK_PLLSTAT_VCOLOCK) ||| MASK_PLLSTAT_VCOLOCK)
        &&& not32 MASK_PLLSTAT_FINDIS) ||| 0x0
    WDTCPU0CON0 := RESET_TRICORE_WDTCPU0CON0
    WDTSCON0 := RESET_TRICORE_WDTSCON0
    WDTSCON1 := RESET_TRICORE_WDTSCON1 }

/-- The state after `tricore_scu_init`: the zero-filled object after
`tricore_scu_reset`. -/
def tricore_scu_init : TriCoreSCUState :=
  tricore_scu_reset
    { mode := TriCore_SCU_Mode_Type.TRICORE_SCU_NORMAL
      OSCCON := 0, PLLSTAT := 0, PLLCON := fun _ => 0, PLLERAYSTAT := 0
      PLLERAYCON := fun _ => 0, CCUCON := fun _ => 0, FDR := 0, EXTCON := 0
      WDTSCON0 := 0, WDTSCON1 := 0, WDTCPU0CON0 := 0
      reset_line := false, reset_pending := 0 }

/-- A sequence of guest writes `(offset, value, size)`, applied in order;
the diagnostics are dropped. -/
def scu_writes (s : TriCoreSCUState) : List (Nat × Nat × Nat) → Option TriCoreSCUState
  | [] => some s
  | (offset, value, size) :: ws =>
    match tricore_scu_write s offset value size with
    | none => none
    | some (t, _) => scu_writes t ws


/-! ## Generic register file: hw/tricore/tricore_sfr.c -/

/-- The device state `TriCoreSFRState`: the array `regs` of `uint32_t`
words. -/
structure TriCoreSFRState where
  regs : Nat → Nat

/-- The function `tricore_sfr_write`. The written value is shifted left to its
byte lane and, for a 1-byte or 2-byte access, merged with the other lanes of
the addressed word; the word is stored unless it already holds the value. -/
def tricore_sfr_write (s : TriCoreSFRState) (offset value size : Nat) : TriCoreSFRState :=
  let reg_addr := offset >>> 2
  let value := (value <<< ((offset &&& 0x3) * 0x8)) % 2 ^ 64
  let value :=
    if size = 1 then
      let old_value := s.regs reg_addr
      let shifter := offset &&& 3
      let old_value := old_value &&& not32 (0xFF <<< (shifter * 8))
      value ||| old_value
    else value
  let value :=
    if size = 2 then
      let old_value := s.regs reg_addr
      let shifter := offset &&& 3
      let old_value := old_value &&& not32 (0xFFFF <<< (shifter * 8))
      value ||| old_value
    else value
  if s.regs reg_addr = value then s
  else { s with regs := Function.update s.regs reg_addr (value % 2 ^ 32) }

/-- The function `tricore_sfr_read`. The stored word is shifted left by the
byte lane of the offset, as in the source, and then masked to the access
size. -/
def tricore_sfr_read (s : TriCoreSFRState) (offset size : Nat) : Nat :=
  let reg_addr := offset >>> 2
  let value := s.regs reg_addr
  let value := (value <<< ((offset &&& 0x3) * 0x8)) % 2 ^ 64
  let value := if size = 1 then value &&& 0xFF else value
  let value := if size = 2 then value &&& 0xFFFF else value
  value


/-- A guest write `(offset, value, size)` at a word-aligned offset with an
access size of 1, 2 or 4 bytes. -/
def scu_aligned (w : Nat × Nat × Nat) : Prop :=
  w.1 % 4 = 0 ∧ (w.2.2 = 1 ∨ w.2.2 = 2 ∨ w.2.2 = 4)

instance (w : Nat × Nat × Nat) : Decidable (scu_aligned w) := by
  unfold scu_aligned; infer_instance

/-- The status bits PLLSTAT.VCOLOCK (bit 2) and PLLSTAT bit 5 are set. -/
def scu_status_ok (s : TriCoreSCUState) : Prop :=
  s.PLLSTAT.testBit 2 = true ∧ s.PLLSTAT.testBit 5 = true


/-! ## Concrete states used to evaluate the models -/

/-- A router state in which sources 10 and 103 are pending and enabled, with
priority numbers 5 and 7, and source 3 is pending but not enabled. -/
def irbus_two_pending : TriCoreIRBUSState where
  src_control_reg := fun i =>
    if i = 3 then 0x01000009 else if i = 10 then 0x01000405 else if i = 103 then 0x01000407 else 0
  ICR := 0x80001234
  parent_irq := false

/-- The router state after reset: every source register zero, line lowered. -/
def irbus_reset : TriCoreIRBUSState where
  src_control_reg := fun _ => 0
  ICR := 0
  parent_irq := false

/-- A router configuration with source 10 enabled (priority 5) and nothing
pending. -/
def irbus_configured : TriCoreIRBUSState where
  src_control_reg := fun i => if i = 10 then 0x00000405 else 0
  ICR := 0
  parent_irq := false

/-- A UART state with three buffered bytes at indices 8190, 8191 and 0 (the
cursors wrap) and receive enabled. -/
def asclin_three_buffered : TriCoreASCLINState :=
  { asclin_uart_init with
    regs := fun i => if i = RXFIFOCON then 0x2 else if i = FLAGS then 0x90000000 else 0
    rxbuf := fun i => if i = 8190 then 0x61 else if i = 8191 then 0x62 else if i = 0 then 0x63 else 0
    rxbufreadidx := 8190
    rxbufwriteidx := 1 }

/-- The UART state reached from `asclin_uart_init` by three bursts of one
byte: 0x61, 0x62 and 0x63 are buffered. -/
def asclin_abc : TriCoreASCLINState :=
  uart_rx (uart_rx (uart_rx asclin_uart_init [0x61]) [0x62]) [0x63]

/-- A UART state whose ring buffer is full: 8191 bytes buffered. -/
def asclin_full : TriCoreASCLINState :=
  { asclin_uart_init with
    regs := fun i => if i = RXFIFOCON then 0x2 else if i = FLAGS then 0x90000000 else 0
    rxbuf := fun i => if i < 8191 then 0x61 else 0
    rxbufreadidx := 0
    rxbufwriteidx := 8191 }

/-- A UART state with 8190 bytes buffered: free capacity 1. -/
def asclin_one_free : TriCoreASCLINState :=
  { asclin_uart_init with
    regs := fun i => if i = RXFIFOCON then 0x2 else if i = FLAGS then 0x90000000 else 0
    rxbuf := fun i => if i < 8190 then 0x61 else 0
    rxbufreadidx := 0
    rxbufwriteidx := 8190 }

/-- The register values of a clock unit; the mode, the reset line and the
remaining registers are zero. -/
def scu_state (osccon pllstat pllcon0 pllcon1 ccucon0 ccucon1 : Nat) : TriCoreSCUState where
  mode := TriCore_SCU_Mode_Type.TRICORE_SCU_NORMAL
  OSCCON := osccon
  PLLSTAT := pllstat
  PLLCON := fun i => if i = 0 then pllcon0 else if i = 1 then pllcon1 else 0
  PLLERAYSTAT := 0
  PLLERAYCON := fun _ => 0
  CCUCON := fun i => if i = 0 then ccucon0 else if i = 1 then ccucon1 else 0
  FDR := 0
  EXTCON := 0
  WDTSCON0 := 0
  WDTSCON1 := 0
  WDTCPU0CON0 := 0
  reset_line := false
  reset_pending := 0

/-- Normal mode on the external oscillator with NDIV = 1, PDIV = 0, K2DIV = 0
(N = 2, P = 1, K2 = 1); STMDIV = 7, SPBDIV = 2, SRIDIV = 9. -/
def scu_normal : TriCoreSCUState :=
  scu_state 0x00000101 0x00000004 0x00000200 0x00000000 0x00020900 0x10000700

/-- Prescaler mode on the external oscillator with K1DIV = 3 (K1 = 4). -/
def scu_prescaler : TriCoreSCUState :=
  scu_state 0x00000101 0x00000005 0x00000201 0x00030000 0x00020900 0x10000700

/-- A timer state given by ICR, CMCON, CMP0, the frequency snapshot and the
alarm; every other register is zero and the interrupt line is lowered. -/
def stm_state (icr cmcon cmp0 freq : Nat) (p : ptimer_state) : TriCoreSTMState where
  regs := fun i =>
    if i = STM.ICR then icr else if i = STM.CMCON then cmcon else if i = STM.CMP0 then cmp0 else 0
  irq := false
  freq_hz := freq
  tim_counter := 0
  ptimer := p
  reports := []

/-- A timer at 50 MHz with compare-enable set, CMP0 = 6000 and a one-shot
alarm armed with 1000 ticks to go. -/
def stm_armed : TriCoreSTMState :=
  stm_state 0x01 0x0 6000 50000000 { freq := 50000000, limit := 1000, delta := 1000, enabled := 2 }

/-- A timer at 50 MHz with compare-enable clear and the periodic alarm that
`tricore_stm_realize` starts. -/
def stm_disabled : TriCoreSTMState :=
  stm_state 0x20 0x0 0 50000000 { freq := 50000000, limit := 1, delta := 0, enabled := 1 }


/-- A timer at 50 MHz with compare-enable set, tap shift 0 and CMP0 = 5100;
at host time 2000 ns the counter is 100, so the compare value is 5000 ticks
ahead. The alarm is the periodic one that `tricore_stm_realize` starts. -/
def stm_compare_ahead : TriCoreSTMState :=
  stm_state 0x01 0x0 5100 50000000 { freq := 50000000, limit := 1, delta := 0, enabled := 1 }


/-- Guest writes after `tricore_scu_init` that request free-running mode on
the external oscillator: the word 0x0001C610 to PLLCON0 (the reset value with
SETFINDIS, bit 4, set; offset 0x18), then the word 0x10002211 to CCUCON1 (the
reset value with INSEL = 1, external oscillator; offset 0x34). -/
def scu_freerun_writes : List (Nat × Nat × Nat) :=
  [(0x18, 0x0001C610, 4), (0x34, 0x10002211, 4)]

/-- Guest writes after `tricore_scu_init` that clear every divider field: the
word 0 to CCUCON0 (offset 0x30) and the word 0 to CCUCON1 (offset 0x34). -/
def scu_zero_divider_writes : List (Nat × Nat × Nat) :=
  [(0x30, 0x0, 4), (0x34, 0x0, 4)]

/-- A guest write after `tricore_scu_init` that selects the reserved clock
input INSEL = 2 with STMDIV = 1: the word 0x20000100 to CCUCON1. -/
def scu_unknown_input_writes : List (Nat × Nat × Nat) :=
  [(0x34, 0x20000100, 4)]

/-- Guest writes after `tricore_scu_init` that program the PLL to 2.56 GHz on
the external oscillator: NDIV = 127 and PDIV = 0 in PLLCON0 (0x0000FE00 at
offset 0x18), K2DIV = 0 in PLLCON1 (0 at offset 0x1C), INSEL = 1 and
STMDIV = 1 in CCUCON1 (0x10000100 at offset 0x34). -/
def scu_fast_pll_writes : List (Nat × Nat × Nat) :=
  [(0x18, 0x0000FE00, 4), (0x1C, 0x0, 4), (0x34, 0x10000100, 4)]


/-- A router state in which source 10 (ASCLIN0 RX) is pending with priority
number 5 but not enabled; the line is lowered. -/
def irbus_pending_disabled : TriCoreIRBUSState where
  src_control_reg := fun i => if i = 10 then 0x01000005 else 0
  ICR := 0
  parent_irq := false

/-- A register file with every word zero. -/
def sfr_zero : TriCoreSFRState where
  regs := fun _ => 0


/-- Prescaler mode with the back-up clock selected (INSEL = 0): the state
`scu_prescaler` with CCUCON1 = 0x00000700. -/
def scu_prescaler_backup : TriCoreSCUState :=
  scu_state 0x00000101 0x00000005 0x00000201 0x00030000 0x00020900 0x00000700


/-! ## Theorems: machine words -/

theorem and_one_shiftLeft_ne_zero (r k : Nat) :
    r &&& (1 <<< k) ≠ 0 ↔ r.testBit k = true := by
  rw [Nat.one_shiftLeft]
  constructor
  · intro h
    by_contra hb
    apply h
    apply Nat.eq_of_testBit_eq
    intro i
    simp only [Nat.testBit_and, Nat.testBit_two_pow, Nat.zero_testBit]
    by_cases hik : k = i
    · subst hik; simp [hb]
    · simp [hik]
  · intro hb h
    have := congrArg (fun x => x.testBit k) h
    simp [Nat.testBit_two_pow, hb] at this

theorem testBit_not32 (x i : Nat) :
    (not32 x).testBit i = (decide (i < 32) && !x.testBit i) := by
  unfold not32
  rw [Nat.testBit_xor, Nat.testBit_two_pow_sub_one, Nat.testBit_mod_two_pow]
  by_cases h : i < 32 <;> simp [h]

theorem testBit_MASK_ICR_PIPN (i : Nat) :
    MASK_ICR_PIPN.testBit i = (decide (16 ≤ i) && decide (i < 24)) := by
  have h : MASK_ICR_PIPN = (2 ^ 8 - 1) <<< 16 := by decide
  rw [h, Nat.testBit_shiftLeft, Nat.testBit_two_pow_sub_one]
  by_cases h1 : 16 ≤ i <;> by_cases h2 : i < 24 <;> simp [h1, h2] <;> omega

/-! ## Theorems: interrupt router -/

theorem irq_triggered_iff (pv : TriCoreIRBUSState) (i : Nat) :
    irq_triggered pv i ↔ src_qualifies pv i := by
  unfold irq_triggered src_qualifies src_pending src_enabled IR_SRC_SRR IR_SRC_SRE IR_SRC_RESET
  rw [and_one_shiftLeft_ne_zero, and_one_shiftLeft_ne_zero]

theorem irq_evaluate_from_hit (pv : TriCoreIRBUSState) (count start w : Nat)
    (h1 : start ≤ w) (h2 : w < start + count) (hw : irq_triggered pv w)
    (hmin : ∀ j, start ≤ j → j < w → ¬ irq_triggered pv j) :
    irq_evaluate_from pv count start = irq_trigger pv w := by
  induction count generalizing start with
  | zero => omega
  | succ n ih =>
    unfold irq_evaluate_from
    by_cases hs : start = w
    · subst hs; simp [hw]
    · have hlt : start < w := by omega
      rw [if_neg (hmin start (le_refl _) hlt)]
      exact ih (start + 1) (by omega) (by omega) (fun j hj => hmin j (by omega))

theorem irq_evaluate_from_miss (pv : TriCoreIRBUSState) (count start : Nat)
    (hnone : ∀ j, start ≤ j → j < start + count → ¬ irq_triggered pv j) :
    irq_evaluate_from pv count start = { pv with parent_irq := false } := by
  induction count generalizing start with
  | zero => rfl
  | succ n ih =>
    unfold irq_evaluate_from
    rw [if_neg (hnone start (le_refl _) (by omega))]
    exact ih (start + 1) (fun j hj hj2 => hnone j (by omega) (by omega))

theorem irq_trigger_regs (pv : TriCoreIRBUSState) (w : Nat) :
    (irq_trigger pv w).src_control_reg = pv.src_control_reg := by
  simp [irq_trigger]

theorem irq_trigger_pipn (pv : TriCoreIRBUSState) (w : Nat) :
    pipn_is (irq_trigger pv w).ICR (pv.src_control_reg w) := by
  intro i hi
  have h8 : IR_SRC_SRPN = 2 ^ 8 - 1 := by decide
  simp only [irq_trigger, Nat.testBit_or, Nat.testBit_and, testBit_not32,
    testBit_MASK_ICR_PIPN, Nat.testBit_shiftLeft, h8, Nat.testBit_two_pow_sub_one]
  have e : 16 + i - 16 = i := by omega
  have a1 : 16 ≤ 16 + i := by omega
  have a2 : 16 + i < 24 := by omega
  have a3 : 16 + i < 32 := by omega
  simp [e, a1, a2, a3, hi]

theorem irq_trigger_rest (pv : TriCoreIRBUSState) (w : Nat) (hICR : pv.ICR < 2 ^ 32) :
    icr_rest_eq pv.ICR (irq_trigger pv w).ICR := by
  intro i hi
  have h8 : IR_SRC_SRPN = 2 ^ 8 - 1 := by decide
  simp only [irq_trigger, Nat.testBit_or, Nat.testBit_and, testBit_not32,
    testBit_MASK_ICR_PIPN, Nat.testBit_shiftLeft, h8, Nat.testBit_two_pow_sub_one]
  by_cases h32 : i < 32
  · rcases hi with hi | hi
    · have a1 : ¬ 16 ≤ i := by omega
      simp [a1, h32]
    · have a1 : 16 ≤ i := by omega
      have a2 : ¬ i < 24 := by omega
      have a3 : ¬ i - 16 < 8 := by omega
      simp [a1, a2, a3, h32]
  · have hz : pv.ICR.testBit i = false :=
      Nat.testBit_lt_two_pow (lt_of_lt_of_le hICR (Nat.pow_le_pow_right (by omega) (by omega)))
    have a3 : ¬ i - 16 < 8 := by omega
    simp [hz, h32, a3]

theorem src_winner_unique (pv : TriCoreIRBUSState) (w v : Nat)
    (hw : src_winner pv w) (hv : src_winner pv v) : w = v := by
  rcases Nat.lt_trichotomy w v with h | h | h
  · exact absurd hw.2.1 (hv.2.2 w h)
  · exact h
  · exact absurd hv.2.1 (hw.2.2 v h)

theorem exists_src_winner (pv : TriCoreIRBUSState)
    (h : ∃ i, i < 256 ∧ src_qualifies pv i) : ∃ w, src_winner pv w := by
  classical
  refine ⟨Nat.find h, (Nat.find_spec h).1, (Nat.find_spec h).2, ?_⟩
  intro j hj hq
  exact Nat.find_min h hj ⟨lt_trans hj (Nat.find_spec h).1, hq⟩

theorem irq_evaluate_winner (pv : TriCoreIRBUSState) (w : Nat) (hw : src_winner pv w) :
    irq_evaluate pv = irq_trigger pv w := by
  unfold irq_evaluate IR_SRC_COUNT
  apply irq_evaluate_from_hit pv 256 0 w (Nat.zero_le _) (by have := hw.1; omega)
  · exact (irq_triggered_iff pv w).2 hw.2.1
  · intro j _ hj hq
    exact hw.2.2 j hj ((irq_triggered_iff pv j).1 hq)

theorem irq_evaluate_none (pv : TriCoreIRBUSState)
    (h : ∀ j, j < 256 → ¬ src_qualifies pv j) :
    irq_evaluate pv = { pv with parent_irq := false } := by
  unfold irq_evaluate IR_SRC_COUNT
  apply irq_evaluate_from_miss
  intro j _ hj hq
  exact h j (by omega) ((irq_triggered_iff pv j).1 hq)

theorem line_agrees_irq_evaluate (pv : TriCoreIRBUSState) : line_agrees (irq_evaluate pv) := by
  by_cases h : ∃ i, i < 256 ∧ src_qualifies pv i
  · obtain ⟨w, hw⟩ := exists_src_winner pv h
    rw [irq_evaluate_winner pv w hw]
    have hq : ∀ j, src_qualifies (irq_trigger pv w) j ↔ src_qualifies pv j := by
      intro j; simp [src_qualifies, src_pending, src_enabled, irq_trigger_regs]
    refine ⟨⟨fun _ => ⟨w, hw.1, (hq w).2 hw.2.1⟩, fun _ => rfl⟩, ?_⟩
    intro v hv
    have hv2 : src_winner pv v :=
      ⟨hv.1, (hq v).1 hv.2.1, fun j hj hqj => hv.2.2 j hj ((hq j).2 hqj)⟩
    rw [← src_winner_unique pv w v hw hv2, irq_trigger_regs]
    exact irq_trigger_pipn pv w
  · have hn : ∀ j, j < 256 → ¬ src_qualifies pv j := fun j hj hq => h ⟨j, hj, hq⟩
    rw [irq_evaluate_none pv hn]
    refine ⟨⟨fun hc => by simp at hc, fun ⟨i, hi, hq⟩ => absurd hq (hn i hi)⟩, ?_⟩
    intro v hv
    exact absurd hv.2.1 (hn v hv.1)

theorem line_agrees_irq_handler (pv : TriCoreIRBUSState) (srcnum : Nat) (level : Int)
    (h : line_agrees pv) : line_agrees (irq_handler pv srcnum level) := by
  unfold irq_handler
  dsimp only
  split_ifs
  · exact h
  · exact line_agrees_irq_evaluate _
  · exact line_agrees_irq_evaluate _
  · exact h

theorem line_agrees_irq_handler_seq (calls : List (Nat × Int)) (pv : TriCoreIRBUSState)
    (h : line_agrees pv) : line_agrees (irq_handler_seq pv calls) := by
  induction calls generalizing pv with
  | nil => exact h
  | cons c cs ih =>
    obtain ⟨srcnum, level⟩ := c
    exact ih _ (line_agrees_irq_handler pv srcnum level h)

/-- C1: `irq_evaluate` picks the least index in 0..255 whose register has the
request bit (bit 24) set and the enable bit (bit 10) set or which is the reset
source 254. If there is one, the line is raised, ICR bits 16-23 become the low
8 bits of that register and all other ICR bits and all source registers are
unchanged; if there is none, the line is lowered. -/
theorem irq_evaluate_first_qualifying (pv : TriCoreIRBUSState) (hICR : pv.ICR < 2 ^ 32) :
    (∀ w, src_winner pv w →
      (irq_evaluate pv).parent_irq = true ∧
      pipn_is (irq_evaluate pv).ICR (pv.src_control_reg w) ∧
      icr_rest_eq pv.ICR (irq_evaluate pv).ICR ∧
      (irq_evaluate pv).src_control_reg = pv.src_control_reg) ∧
    ((∀ j, j < 256 → ¬ src_qualifies pv j) →
      (irq_evaluate pv).parent_irq = false ∧
      (irq_evaluate pv).ICR = pv.ICR ∧
      (irq_evaluate pv).src_control_reg = pv.src_control_reg) := by
  constructor
  · intro w hw
    rw [irq_evaluate_winner pv w hw]
    exact ⟨rfl, irq_trigger_pipn pv w, irq_trigger_rest pv w hICR, irq_trigger_regs pv w⟩
  · intro hn
    rw [irq_evaluate_none pv hn]
    exact ⟨rfl, rfl, rfl⟩

theorem irq_evaluate_first_qualifying_witness :
    (irq_evaluate irbus_two_pending).parent_irq = true ∧
    pipn_is (irq_evaluate irbus_two_pending).ICR 0x01000405 ∧
    icr_rest_eq 0x80001234 (irq_evaluate irbus_two_pending).ICR ∧
    (irq_evaluate irbus_two_pending).ICR = 0x80051234 :=
  have hw : src_winner irbus_two_pending 10 := by
    refine ⟨by decide, ?_, ?_⟩
    · simp only [src_qualifies, src_pending, src_enabled, irbus_two_pending]; decide
    · intro j hj
      interval_cases j <;>
        simp only [src_qualifies, src_pending, src_enabled, irbus_two_pending] <;> decide
  have h := (irq_evaluate_first_qualifying irbus_two_pending (by decide)).1 10 hw
  ⟨h.1, h.2.1, h.2.2.1, by decide⟩

/-- C2 as stated fails: from the reset state (nothing pending, nothing
enabled, line lowered) the single call `irq_handler 254 1` raises the line
although no index has pending and enabled both set. -/
theorem irq_handler_seq_reset_source_counterexample :
    (∀ i, i < 256 → ¬ src_pending irbus_reset i) ∧
    irbus_reset.parent_irq = false ∧
    (irq_handler_seq irbus_reset [(254, 1)]).parent_irq = true ∧
    ¬ ∃ i, i < 256 ∧ src_pending (irq_handler_seq irbus_reset [(254, 1)]) i ∧
      src_enabled (irq_handler_seq irbus_reset [(254, 1)]) i := by
  have hw : src_winner
      { irbus_reset with
        src_control_reg := Function.update irbus_reset.src_control_reg 254
          (irbus_reset.src_control_reg 254 ||| IR_SRC_SRR) } 254 := by
    refine ⟨by decide, ?_, ?_⟩
    · simp only [src_qualifies, src_pending, irbus_reset, Function.update_same]
      exact ⟨by decide, Or.inr trivial⟩
    · intro j hj
      have hne : j ≠ 254 := by omega
      simp [src_qualifies, src_pending, irbus_reset, Function.update, hne]
  have hst : irq_handler_seq irbus_reset [(254, 1)] =
      irq_trigger
        { irbus_reset with
          src_control_reg := Function.update irbus_reset.src_control_reg 254
            (irbus_reset.src_control_reg 254 ||| IR_SRC_SRR) } 254 := by
    have h0 : irbus_reset.src_control_reg 254 &&& IR_SRC_SRR = 0 := by decide
    simp only [irq_handler_seq, irq_handler, h0]
    simp only [ne_eq, one_ne_zero, not_false_eq_true, if_true, not_true_eq_false, if_false]
    rw [irq_evaluate_winner _ 254 hw]
  refine ⟨fun i _ => by simp [src_pending, irbus_reset], rfl, by rw [hst]; rfl, ?_⟩
  rintro ⟨i, _, _, he⟩
  unfold src_enabled at he
  rw [hst, irq_trigger_regs] at he
  by_cases hi : i = 254
  · subst hi
    simp only [irbus_reset, Function.update_same] at he
    revert he; decide
  · simp [Function.update, hi, irbus_reset] at he

/-- C2, amended: for every enable and priority configuration with no source
pending and the line lowered, and every sequence of `irq_handler` calls over
indices 0..255, after the last call the line is raised if and only if some
index has pending set and is enabled or is the reset source 254, and the
priority field of ICR then holds the priority number of the least such
index. -/
theorem irq_handler_seq_line (pv : TriCoreIRBUSState) (calls : List (Nat × Int))
    (hpend : ∀ i, i < 256 → ¬ src_pending pv i) (hline : pv.parent_irq = false)
    (_hidx : ∀ c, c ∈ calls → c.1 < 256) :
    ((irq_handler_seq pv calls).parent_irq = true ↔
      ∃ i, i < 256 ∧ src_pending (irq_handler_seq pv calls) i ∧
        (src_enabled (irq_handler_seq pv calls) i ∨ i = 254)) ∧
    ∀ w, w < 256 →
      (src_pending (irq_handler_seq pv calls) w ∧
        (src_enabled (irq_handler_seq pv calls) w ∨ w = 254)) →
      (∀ j, j < w → ¬ (src_pending (irq_handler_seq pv calls) j ∧
        (src_enabled (irq_handler_seq pv calls) j ∨ j = 254))) →
      pipn_is (irq_handler_seq pv calls).ICR ((irq_handler_seq pv calls).src_control_reg w) := by
  have h0 : line_agrees pv := by
    refine ⟨⟨fun hc => by simp [hline] at hc, fun ⟨i, hi, hq⟩ => absurd hq.1 (hpend i hi)⟩, ?_⟩
    intro w hw
    exact absurd hw.2.1.1 (hpend w hw.1)
  have h := line_agrees_irq_handler_seq calls pv h0
  exact ⟨h.1, fun w hw hq hmin => h.2 w ⟨hw, hq, hmin⟩⟩

set_option maxRecDepth 100000 in
theorem irq_handler_seq_line_witness :
    (irq_handler_seq irbus_configured [(10, 1), (254, 1), (10, 0)]).parent_irq = true ∧
    ∃ i, i < 256 ∧ src_pending (irq_handler_seq irbus_configured [(10, 1), (254, 1), (10, 0)]) i ∧
      (src_enabled (irq_handler_seq irbus_configured [(10, 1), (254, 1), (10, 0)]) i ∨ i = 254) :=
  have h := irq_handler_seq_line irbus_configured [(10, 1), (254, 1), (10, 0)]
    (fun i _ => by
      by_cases hi : i = 10
      · subst hi; simp only [src_pending, irbus_configured]; decide
      · simp [src_pending, irbus_configured, hi])
    rfl (by decide)
  have hl : (irq_handler_seq irbus_configured [(10, 1), (254, 1), (10, 0)]).parent_irq = true := by
    decide
  ⟨hl, h.1.1 hl⟩

/-! ## Theorems: UART ring buffer -/

theorem asclin_buffer_used_eq (s : TriCoreASCLINState) (h : cursors_ok s) :
    asclin_buffer_used s = used_spec s := by
  obtain ⟨h1, h2⟩ := h
  simp only [asclin_buffer_used, used_spec, sub32, ASCLIN_RX_BUFFER]
  omega

theorem asclin_buffer_used_lt (s : TriCoreASCLINState) : asclin_buffer_used s < 8192 := by
  simp only [asclin_buffer_used, ASCLIN_RX_BUFFER]
  omega

theorem asclin_buffer_free_eq_zero (s : TriCoreASCLINState) :
    asclin_buffer_free s = 0 ↔ asclin_buffer_used s = 8191 := by
  have := asclin_buffer_used_lt s
  simp only [asclin_buffer_free, sub32, ASCLIN_RX_BUFFER]
  omega

theorem uart_update_flags_cursors (s : TriCoreASCLINState) :
    (uart_update_flags s).rxbufreadidx = s.rxbufreadidx ∧
    (uart_update_flags s).rxbufwriteidx = s.rxbufwriteidx ∧
    (uart_update_flags s).rxbuf = s.rxbuf ∧
    (uart_update_flags s).reports = s.reports := by
  simp only [uart_update_flags, uart_update_irq]
  split_ifs <;> exact ⟨rfl, rfl, rfl, rfl⟩

theorem used_spec_eq (s : TriCoreASCLINState) (h : cursors_ok s) :
    used_spec s = (s.rxbufwriteidx + 8192 - s.rxbufreadidx) % 8192 := by
  obtain ⟨h1, h2⟩ := h
  simp only [used_spec]
  omega

theorem uart_rx_loop_fits (buf : List Nat) (n : Nat) (s : TriCoreASCLINState)
    (h : cursors_ok s) (hn : n ≤ 8191 - used_spec s) :
    (uart_rx_loop s buf n).rxbufreadidx = s.rxbufreadidx ∧
    (uart_rx_loop s buf n).rxbufwriteidx = (s.rxbufwriteidx + n) % 8192 := by
  induction n generalizing s with
  | zero =>
    obtain ⟨h1, h2⟩ := h
    refine ⟨rfl, ?_⟩
    show s.rxbufwriteidx = (s.rxbufwriteidx + 0) % 8192
    omega
  | succ k ih =>
    have hu := used_spec_eq s h
    obtain ⟨h1, h2⟩ := h
    simp only [uart_rx_loop, ASCLIN_RX_BUFFER]
    have hc3 : cursors_ok
        { s with
          rxbuf := Function.update s.rxbuf s.rxbufwriteidx (buf.headD 0)
          rxbufwriteidx := (s.rxbufwriteidx + 1) % 2 ^ 32 % 8192 } := by
      constructor
      · exact h1
      · show (s.rxbufwriteidx + 1) % 2 ^ 32 % 8192 < 8192
        omega
    have hu3 := used_spec_eq _ hc3
    simp only at hu3
    split_ifs with hfree
    · refine ⟨rfl, ?_⟩
      show (s.rxbufwriteidx + 1) % 2 ^ 32 % 8192 = (s.rxbufwriteidx + (k + 1)) % 8192
      rw [asclin_buffer_free_eq_zero, asclin_buffer_used_eq _ hc3, hu3] at hfree
      omega
    · have := ih _ hc3 (by rw [hu3]; omega)
      refine ⟨this.1, ?_⟩
      rw [this.2]
      show ((s.rxbufwriteidx + 1) % 2 ^ 32 % 8192 + k) % 8192 = (s.rxbufwriteidx + (k + 1)) % 8192
      omega

/-- C4: for a state with both cursors below 8192 and a burst of n bytes with
n at most the free capacity 8191 - used, `uart_rx` increases used(), both as
`asclin_buffer_used` computes it and as (write - read) mod 8192, by exactly n
and leaves the read cursor unchanged. -/
theorem uart_rx_used_increases (s : TriCoreASCLINState) (buf : List Nat)
    (h : cursors_ok s) (hn : buf.length ≤ 8191 - used_spec s) :
    asclin_buffer_used (uart_rx s buf) = asclin_buffer_used s + buf.length ∧
    used_spec (uart_rx s buf) = used_spec s + buf.length ∧
    (uart_rx s buf).rxbufreadidx = s.rxbufreadidx := by
  have hl := uart_rx_loop_fits buf buf.length s h hn
  have hf := uart_update_flags_cursors (uart_rx_loop s buf buf.length)
  have hr : (uart_rx s buf).rxbufreadidx = s.rxbufreadidx := by
    unfold uart_rx; rw [hf.1, hl.1]
  have hw : (uart_rx s buf).rxbufwriteidx = (s.rxbufwriteidx + buf.length) % 8192 := by
    unfold uart_rx; rw [hf.2.1, hl.2]
  have hc : cursors_ok (uart_rx s buf) := by
    constructor
    · rw [hr]; exact h.1
    · rw [hw]; omega
  have hu := used_spec_eq s h
  have hu2 := used_spec_eq _ hc
  rw [hr, hw] at hu2
  obtain ⟨h1, h2⟩ := h
  have key : used_spec (uart_rx s buf) = used_spec s + buf.length := by omega
  rw [asclin_buffer_used_eq _ hc, asclin_buffer_used_eq s ⟨h1, h2⟩]
  exact ⟨key, key, hr⟩

theorem uart_rx_used_increases_witness :
    asclin_buffer_used (uart_rx asclin_three_buffered [0x41, 0x42]) = 3 + 2 ∧
    (uart_rx asclin_three_buffered [0x41, 0x42]).rxbufreadidx = 8190 :=
  have h := uart_rx_used_increases asclin_three_buffered [0x41, 0x42]
    (by decide) (by decide)
  ⟨h.1, h.2.2⟩

theorem uart_read_at_rxdata (s : TriCoreASCLINState) (offset size : Nat)
    (hoff : offset / 4 = 18) :
    uart_read s offset size =
      if s.rxbufreadidx ≠ s.rxbufwriteidx then
        (uart_update_flags { s with rxbufreadidx := (s.rxbufreadidx + 1) % 2 ^ 32 % 8192 },
          s.rxbuf s.rxbufreadidx)
      else
        (uart_update_flags { s with reports := s.reports ++ [AsclinReport.rxdata_empty] },
          s.rxbuf s.rxbufreadidx) := by
  have haddr : offset >>> 2 = 18 := by
    rw [Nat.shiftRight_eq_div_pow]; exact hoff
  simp only [uart_read, haddr, CLC, IOCR, ID, TXFIFOCON, RXFIFOCON, BITCON, FRAMECON, DATCON,
    BRG, BRD, LINCON, LINBTIMER, LINHTIMER, FLAGSENABLE, FLAGS, FLAGSSET, FLAGSCLEAR, TXDATA,
    RXDATA, ASCLIN_RX_BUFFER]
  norm_num
  split_ifs <;> rfl

/-- C6: a read of RXDATA (any offset in the word at index 18, any access
size) in a state with both cursors below 8192. If the ring buffer is not empty
the read returns the oldest buffered byte `rxbuf[read]`, used() decreases by
exactly 1, the read cursor advances by one modulo 8192 and the write cursor is
unchanged; if it is empty both cursors are unchanged. -/
theorem uart_read_rxdata (s : TriCoreASCLINState) (offset size : Nat)
    (h : cursors_ok s) (hoff : offset / 4 = 18) :
    (s.rxbufreadidx ≠ s.rxbufwriteidx →
      (uart_read s offset size).2 = s.rxbuf s.rxbufreadidx ∧
      asclin_buffer_used (uart_read s offset size).1 + 1 = asclin_buffer_used s ∧
      used_spec (uart_read s offset size).1 + 1 = used_spec s ∧
      (uart_read s offset size).1.rxbufreadidx = (s.rxbufreadidx + 1) % 8192 ∧
      (uart_read s offset size).1.rxbufwriteidx = s.rxbufwriteidx) ∧
    (s.rxbufreadidx = s.rxbufwriteidx →
      (uart_read s offset size).1.rxbufreadidx = s.rxbufreadidx ∧
      (uart_read s offset size).1.rxbufwriteidx = s.rxbufwriteidx) := by
  rw [uart_read_at_rxdata s offset size hoff]
  constructor
  · intro hne
    rw [if_pos hne]
    have hf := uart_update_flags_cursors
      { s with rxbufreadidx := (s.rxbufreadidx + 1) % 2 ^ 32 % 8192 }
    have hr : (uart_update_flags
        { s with rxbufreadidx := (s.rxbufreadidx + 1) % 2 ^ 32 % 8192 }).rxbufreadidx
        = (s.rxbufreadidx + 1) % 8192 := by
      rw [hf.1]
      show (s.rxbufreadidx + 1) % 2 ^ 32 % 8192 = (s.rxbufreadidx + 1) % 8192
      have := h.1
      omega
    have hw : (uart_update_flags
        { s with rxbufreadidx := (s.rxbufreadidx + 1) % 2 ^ 32 % 8192 }).rxbufwriteidx
        = s.rxbufwriteidx := hf.2.1
    have hc : cursors_ok (uart_update_flags
        { s with rxbufreadidx := (s.rxbufreadidx + 1) % 2 ^ 32 % 8192 }) := by
      constructor
      · rw [hr]; omega
      · rw [hw]; exact h.2
    have hu := used_spec_eq s h
    have hu2 := used_spec_eq _ hc
    rw [hr, hw] at hu2
    obtain ⟨h1, h2⟩ := h
    have key : used_spec (uart_update_flags
        { s with rxbufreadidx := (s.rxbufreadidx + 1) % 2 ^ 32 % 8192 }) + 1 = used_spec s := by
      omega
    refine ⟨rfl, ?_, key, hr, hw⟩
    rw [asclin_buffer_used_eq _ hc, asclin_buffer_used_eq s ⟨h1, h2⟩]
    exact key
  · intro heq
    rw [if_neg (not_not.mpr heq)]
    have hf := uart_update_flags_cursors
      { s with reports := s.reports ++ [AsclinReport.rxdata_empty] }
    exact ⟨hf.1, hf.2.1⟩

theorem uart_read_rxdata_witness :
    (uart_read asclin_three_buffered 72 1).2 = 0x61 ∧
    (uart_read asclin_three_buffered 72 1).1.rxbufreadidx = 8191 ∧
    used_spec (uart_read asclin_three_buffered 72 1).1 + 1 = 3 :=
  have h := (uart_read_rxdata asclin_three_buffered 72 1 (by decide) (by decide)).1 (by decide)
  ⟨h.1, h.2.2.2.1, h.2.2.1⟩

/-- C7: for a state with both cursors below 8192, `uart_can_rx` returns 1 if
and only if the receive-enable bit (RXFIFOCON bit 1) is set and the free
capacity 8191 - used() is greater than 0, and returns 0 otherwise; the
unsigned difference computed by `asclin_buffer_free` is zero exactly when the
buffer is full. -/
theorem uart_can_rx_iff (s : TriCoreASCLINState) (h : cursors_ok s) :
    (uart_can_rx s = 1 ↔
      ((s.regs RXFIFOCON).testBit 1 = true ∧ 0 < 8191 - used_spec s)) ∧
    (¬ ((s.regs RXFIFOCON).testBit 1 = true ∧ 0 < 8191 - used_spec s) → uart_can_rx s = 0) := by
  have heni : s.regs RXFIFOCON &&& MASK_RXFIFOCON_ENI ≠ 0 ↔ (s.regs RXFIFOCON).testBit 1 = true :=
    and_one_shiftLeft_ne_zero (s.regs RXFIFOCON) 1
  have hfree : asclin_buffer_free s > 0 ↔ 0 < 8191 - used_spec s := by
    have h0 := asclin_buffer_free_eq_zero s
    have hlt := asclin_buffer_used_lt s
    rw [asclin_buffer_used_eq s h] at h0 hlt
    omega
  have hcond : (s.regs RXFIFOCON &&& MASK_RXFIFOCON_ENI ≠ 0 ∧ asclin_buffer_free s > 0) ↔
      ((s.regs RXFIFOCON).testBit 1 = true ∧ 0 < 8191 - used_spec s) := and_congr heni hfree
  unfold uart_can_rx
  constructor
  · constructor
    · intro hc
      by_contra hn
      rw [if_neg (fun hx => hn (hcond.1 hx))] at hc
      exact absurd hc (by decide)
    · intro hc
      rw [if_pos (hcond.2 hc)]
  · intro hn
    rw [if_neg (fun hx => hn (hcond.1 hx))]

theorem uart_can_rx_iff_witness :
    uart_can_rx asclin_three_buffered = 1 ∧ uart_can_rx asclin_full = 0 :=
  ⟨(uart_can_rx_iff asclin_three_buffered (by decide)).1.2 ⟨by decide, by decide⟩,
    (uart_can_rx_iff asclin_full (by decide)).2 (by decide)⟩

/-- C3 fails on the code: `uart_rx` never advances `buf`, so a burst is stored
as copies of its first byte. With the bytes 0x61, 0x62, 0x63 buffered
(free capacity 8188) and the burst 0x41, 0x42, the next five reads of RXDATA
return 0x61, 0x62, 0x63, 0x41, 0x41: the last one is not 0x42. -/
theorem uart_rx_repeats_first_byte :
    cursors_ok asclin_abc ∧
    used_spec asclin_abc = 3 ∧
    (read_rxdata_n asclin_abc 3).2 = [0x61, 0x62, 0x63] ∧
    (read_rxdata_n (uart_rx asclin_abc [0x41, 0x42]) 5).2 = [0x61, 0x62, 0x63, 0x41, 0x41] ∧
    (read_rxdata_n (uart_rx asclin_abc [0x41, 0x42]) 5).2 ≠ [0x61, 0x62, 0x63, 0x41, 0x42] := by
  decide

/-- C5 fails on the code: `uart_rx` stores the byte first and tests the free
capacity afterwards. On a full buffer (used = 8191) a burst of one byte moves
the write cursor onto the read cursor: used() becomes 0, the 8191 buffered
bytes are no longer readable and nothing is reported. With free capacity 1 a
burst of one byte, which fits, is stored and reported as an overflow. -/
theorem uart_rx_full_buffer_wraps :
    asclin_buffer_used asclin_full = 8191 ∧
    asclin_buffer_used (uart_rx asclin_full [0x41]) = 0 ∧
    (uart_rx asclin_full [0x41]).rxbufreadidx = (uart_rx asclin_full [0x41]).rxbufwriteidx ∧
    (uart_rx asclin_full [0x41]).reports = [] ∧
    asclin_buffer_used asclin_one_free = 8190 ∧
    asclin_buffer_used (uart_rx asclin_one_free [0x41]) = 8191 ∧
    (uart_rx asclin_one_free [0x41]).reports = [AsclinReport.rx_overflow 1] := by
  decide

/-! ## Theorems: clock control unit -/

theorem reg_field_lt (r lo width : Nat) : reg_field r lo width < 2 ^ width :=
  Nat.mod_lt _ (Nat.pos_pow_of_pos _ (by decide))

theorem and_mask_shiftRight (x lo w : Nat) :
    (x &&& ((2 ^ w - 1) <<< lo)) >>> lo = reg_field x lo w := by
  apply Nat.eq_of_testBit_eq
  intro i
  unfold reg_field
  rw [← Nat.shiftRight_eq_div_pow]
  simp only [Nat.testBit_shiftRight, Nat.testBit_and, Nat.testBit_shiftLeft,
    Nat.testBit_two_pow_sub_one, Nat.testBit_mod_two_pow]
  have e : lo + i - lo = i := by omega
  have a : lo + i ≥ lo := by omega
  rw [e]
  by_cases hi : i < w <;> simp [hi, a]

theorem and_mask_eq (x lo w : Nat) :
    x &&& ((2 ^ w - 1) <<< lo) = reg_field x lo w <<< lo := by
  apply Nat.eq_of_testBit_eq
  intro i
  unfold reg_field
  rw [← Nat.shiftRight_eq_div_pow]
  simp only [Nat.testBit_shiftRight, Nat.testBit_and, Nat.testBit_shiftLeft,
    Nat.testBit_two_pow_sub_one, Nat.testBit_mod_two_pow]
  by_cases hi : i ≥ lo
  · have e : lo + (i - lo) = i := by omega
    rw [e]
    by_cases hw : i - lo < w <;> simp [hi, hw]
  · simp [hi]

theorem and_mask_low (x w : Nat) : x &&& (2 ^ w - 1) = reg_field x 0 w := by
  have h := and_mask_eq x 0 w
  simpa using h

theorem reg_field_one_bit (x k : Nat) :
    reg_field x k 1 = if x.testBit k = true then 1 else 0 := by
  unfold reg_field
  rw [Nat.testBit_to_div_mod]
  have : x / 2 ^ k % 2 < 2 := Nat.mod_lt _ (by decide)
  by_cases h : x / 2 ^ k % 2 = 1
  · simp [h]
  · have h0 : x / 2 ^ k % 2 = 0 := by omega
    simp [h0]

theorem insel_osc0 (x : Nat) (hsel : reg_field x 28 2 = 1) :
    x &&& MASK_CCUCON1_INSEL = MASK_CCUCON1_INSEL_OSC0 ∧
    x &&& MASK_CCUCON1_INSEL ≠ MASK_CCUCON1_INSEL_BACKUP := by
  have hm : MASK_CCUCON1_INSEL = (2 ^ 2 - 1) <<< 28 := by decide
  rw [hm, and_mask_eq, hsel]
  exact ⟨by decide, by decide⟩

theorem tricore_scu_get_fOsc_osc0 (s : TriCoreSCUState) (hsel : reg_field (s.CCUCON 1) 28 2 = 1) :
    tricore_scu_get_fOsc s = 20000000 := by
  have h := insel_osc0 (s.CCUCON 1) hsel
  unfold tricore_scu_get_fOsc
  rw [if_neg h.2, if_pos h.1]
  rfl

/-- C8: with the external oscillator selected (INSEL = 1, fOsc = 20,000,000),
PLLSTAT bypass status clear, lock set and OSCCON PLLHV and PLLLV set,
`tricore_scu_get_fPLL` returns floor(fOsc * N / (P * K2)) for every value of
the divider fields, with N, P, K2 the fields NDIV (bits 9-15 of PLLCON0),
PDIV (bits 24-27 of PLLCON0) and K2DIV (bits 0-5 of PLLCON1) each plus 1; the
product fOsc * N stays below 2^32 and the divisor P * K2 is not zero, and
nothing is reported. -/
theorem tricore_scu_get_fPLL_normal (s : TriCoreSCUState)
    (hsel : reg_field (s.CCUCON 1) 28 2 = 1)
    (hbyp : s.PLLSTAT.testBit 0 = false)
    (hlock : s.PLLSTAT.testBit 2 = true)
    (hhv : s.OSCCON.testBit 8 = true)
    (hlv : s.OSCCON.testBit 0 = true) :
    tricore_scu_get_fPLL s =
      (some (20000000 * (reg_field (s.PLLCON 0) 9 7 + 1) /
        ((reg_field (s.PLLCON 0) 24 4 + 1) * (reg_field (s.PLLCON 1) 0 6 + 1))), []) ∧
    20000000 * (reg_field (s.PLLCON 0) 9 7 + 1) < 2 ^ 32 ∧
    0 < (reg_field (s.PLLCON 0) 24 4 + 1) * (reg_field (s.PLLCON 1) 0 6 + 1) := by
  have hN := reg_field_lt (s.PLLCON 0) 9 7
  have hP := reg_field_lt (s.PLLCON 0) 24 4
  have hK := reg_field_lt (s.PLLCON 1) 0 6
  have hi := insel_osc0 (s.CCUCON 1) hsel
  have hf := tricore_scu_get_fOsc_osc0 s hsel
  have c1 : s.PLLSTAT &&& (MASK_PLLSTAT_FINDIS >>> 3) = 0x0 := by
    have hm : MASK_PLLSTAT_FINDIS >>> 3 = 2 ^ 1 - 1 := by decide
    rw [hm, and_mask_low, reg_field_one_bit, hbyp]; rfl
  have c2 : s.PLLSTAT &&& MASK_PLLSTAT_VCOBYST = 0x0 := by
    have hm : MASK_PLLSTAT_VCOBYST = 2 ^ 1 - 1 := by decide
    rw [hm, and_mask_low, reg_field_one_bit, hbyp]; rfl
  have c3 : (s.PLLSTAT &&& MASK_PLLSTAT_VCOLOCK) >>> 2 = 0x1 := by
    have hm : MASK_PLLSTAT_VCOLOCK = (2 ^ 1 - 1) <<< 2 := by decide
    rw [hm, and_mask_shiftRight, reg_field_one_bit, hlock]; rfl
  have c4 : (s.OSCCON &&& MASK_OSCCON_PLLHV) >>> 8 = 0x1 := by
    have hm : MASK_OSCCON_PLLHV = (2 ^ 1 - 1) <<< 8 := by decide
    rw [hm, and_mask_shiftRight, reg_field_one_bit, hhv]; rfl
  have c5 : s.OSCCON &&& MASK_OSCCON_PLLLV = 0x1 := by
    have hm : MASK_OSCCON_PLLLV = 2 ^ 1 - 1 := by decide
    rw [hm, and_mask_low, reg_field_one_bit, hlv]; rfl
  have mP : MASK_PLLCON0_PDIV = (2 ^ 4 - 1) <<< 24 := by decide
  have mN : MASK_PLLCON0_NDIV = (2 ^ 7 - 1) <<< 9 := by decide
  have mK : MASK_PLLCON1_K2DIV = 2 ^ 6 - 1 := by decide
  have hpos : 0 < (reg_field (s.PLLCON 0) 24 4 + 1) * (reg_field (s.PLLCON 1) 0 6 + 1) :=
    Nat.mul_pos (Nat.succ_pos _) (Nat.succ_pos _)
  have hle : (reg_field (s.PLLCON 0) 24 4 + 1) * (reg_field (s.PLLCON 1) 0 6 + 1) ≤ 16 * 64 :=
    Nat.mul_le_mul (by omega) (by omega)
  refine ⟨?_, by omega, hpos⟩
  unfold tricore_scu_get_fPLL
  rw [if_neg hi.2, if_pos ⟨c1, c2, c3, c4, c5⟩]
  simp only [hf, mP, mN, mK, and_mask_shiftRight, and_mask_low]
  rw [Nat.mod_eq_of_lt (show reg_field (s.PLLCON 0) 24 4 + 1 < 2 ^ 32 by omega),
    Nat.mod_eq_of_lt (show reg_field (s.PLLCON 0) 9 7 + 1 < 2 ^ 32 by omega),
    Nat.mod_eq_of_lt (show reg_field (s.PLLCON 1) 0 6 + 1 < 2 ^ 32 by omega),
    Nat.mod_eq_of_lt (show (reg_field (s.PLLCON 0) 9 7 + 1) * 20000000 < 2 ^ 32 by omega),
    Nat.mod_eq_of_lt (show (reg_field (s.PLLCON 0) 24 4 + 1) * (reg_field (s.PLLCON 1) 0 6 + 1)
      < 2 ^ 32 by omega)]
  unfold div32
  rw [if_neg (by omega), Nat.mul_comm 20000000]

theorem tricore_scu_get_fPLL_normal_witness :
    tricore_scu_get_fPLL scu_normal = (some 40000000, []) :=
  (tricore_scu_get_fPLL_normal scu_normal (by decide) (by decide) (by decide) (by decide)
    (by decide)).1

/-- C9: with the external oscillator selected (INSEL = 1, fOsc = 20,000,000)
and the PLLSTAT bypass status bit set, `tricore_scu_get_fPLL` returns
floor(fOsc / K1) for every field value, with K1 the field K1DIV (bits 16-22
of PLLCON1) plus 1, and reports nothing. -/
theorem tricore_scu_get_fPLL_prescaler (s : TriCoreSCUState)
    (hsel : reg_field (s.CCUCON 1) 28 2 = 1)
    (hbyp : s.PLLSTAT.testBit 0 = true) :
    tricore_scu_get_fPLL s = (some (20000000 / (reg_field (s.PLLCON 1) 16 7 + 1)), []) := by
  have hK := reg_field_lt (s.PLLCON 1) 16 7
  have hi := insel_osc0 (s.CCUCON 1) hsel
  have hf := tricore_scu_get_fOsc_osc0 s hsel
  have c1 : ¬ s.PLLSTAT &&& (MASK_PLLSTAT_FINDIS >>> 3) = 0x0 := by
    have hm : MASK_PLLSTAT_FINDIS >>> 3 = 2 ^ 1 - 1 := by decide
    rw [hm, and_mask_low, reg_field_one_bit, hbyp]; decide
  have c2 : s.PLLSTAT &&& MASK_PLLSTAT_VCOBYST = 0x1 := by
    have hm : MASK_PLLSTAT_VCOBYST = 2 ^ 1 - 1 := by decide
    rw [hm, and_mask_low, reg_field_one_bit, hbyp]; rfl
  have mK : MASK_PLLCON1_K1DIV = (2 ^ 7 - 1) <<< 16 := by decide
  unfold tricore_scu_get_fPLL
  rw [if_neg hi.2, if_neg (fun hc => c1 hc.1), if_pos c2]
  simp only [hf, mK, and_mask_shiftRight]
  rw [Nat.mod_eq_of_lt (show reg_field (s.PLLCON 1) 16 7 + 1 < 2 ^ 32 by omega)]
  unfold div32
  rw [if_neg (by omega)]

theorem tricore_scu_get_fPLL_prescaler_witness :
    tricore_scu_get_fPLL scu_prescaler = (some 5000000, []) :=
  tricore_scu_get_fPLL_prescaler scu_prescaler (by decide) (by decide)

theorem tricore_scu_get_fPLL_some (s : TriCoreSCUState) :
    ∃ f, (tricore_scu_get_fPLL s).1 = some f := by
  have hP := reg_field_lt (s.PLLCON 0) 24 4
  have hK := reg_field_lt (s.PLLCON 1) 0 6
  have hK1 := reg_field_lt (s.PLLCON 1) 16 7
  have mP : MASK_PLLCON0_PDIV = (2 ^ 4 - 1) <<< 24 := by decide
  have mK : MASK_PLLCON1_K2DIV = 2 ^ 6 - 1 := by decide
  have mK1 : MASK_PLLCON1_K1DIV = (2 ^ 7 - 1) <<< 16 := by decide
  unfold tricore_scu_get_fPLL
  split_ifs
  · exact ⟨_, rfl⟩
  · have hpos : 0 < (reg_field (s.PLLCON 0) 24 4 + 1) * (reg_field (s.PLLCON 1) 0 6 + 1) :=
      Nat.mul_pos (Nat.succ_pos _) (Nat.succ_pos _)
    have hle : (reg_field (s.PLLCON 0) 24 4 + 1) * (reg_field (s.PLLCON 1) 0 6 + 1) ≤ 16 * 64 :=
      Nat.mul_le_mul (by omega) (by omega)
    simp only [mP, mK, and_mask_shiftRight, and_mask_low]
    rw [Nat.mod_eq_of_lt (show reg_field (s.PLLCON 0) 24 4 + 1 < 2 ^ 32 by omega),
      Nat.mod_eq_of_lt (show reg_field (s.PLLCON 1) 0 6 + 1 < 2 ^ 32 by omega),
      Nat.mod_eq_of_lt (show (reg_field (s.PLLCON 0) 24 4 + 1) * (reg_field (s.PLLCON 1) 0 6 + 1)
        < 2 ^ 32 by omega)]
    unfold div32
    rw [if_neg (by omega)]
    exact ⟨_, rfl⟩
  · simp only [mK1, and_mask_shiftRight]
    rw [Nat.mod_eq_of_lt (show reg_field (s.PLLCON 1) 16 7 + 1 < 2 ^ 32 by omega)]
    unfold div32
    rw [if_neg (by omega)]
    exact ⟨_, rfl⟩
  · exact ⟨_, rfl⟩
  · exact ⟨_, rfl⟩

theorem divider_field (x lo : Nat) (m : Nat) (hm : m = (2 ^ 4 - 1) <<< lo) :
    ((x &&& m) >>> lo) % 2 ^ 8 = reg_field x lo 4 := by
  have h := reg_field_lt x lo 4
  rw [hm, and_mask_shiftRight, Nat.mod_eq_of_lt (by omega)]

/-- C10: the PLL frequency is always defined, and for every clock state whose
divider field d is not zero each derived clock is floor(pllFrequency / d) with
d the raw 4-bit field: STMDIV (bits 8-11 of CCUCON1) for
`tricore_scu_get_stmclock`, SPBDIV (bits 16-19 of CCUCON0) for
`tricore_scu_get_spbclock`, SRIDIV (bits 8-11 of CCUCON0) for
`tricore_scu_get_sri_clock`. No value of d other than 0 is treated apart, the
reserved values 7, 9, 11, 13 and 14 included. -/
theorem tricore_scu_derived_clocks (s : TriCoreSCUState) :
    ∃ f, (tricore_scu_get_fPLL s).1 = some f ∧
      (reg_field (s.CCUCON 1) 8 4 ≠ 0 →
        (tricore_scu_get_stmclock s).1 = some (f / reg_field (s.CCUCON 1) 8 4)) ∧
      (reg_field (s.CCUCON 0) 16 4 ≠ 0 →
        (tricore_scu_get_spbclock s).1 = some (f / reg_field (s.CCUCON 0) 16 4)) ∧
      (reg_field (s.CCUCON 0) 8 4 ≠ 0 →
        (tricore_scu_get_sri_clock s).1 = some (f / reg_field (s.CCUCON 0) 8 4)) := by
  obtain ⟨f, hf⟩ := tricore_scu_get_fPLL_some s
  refine ⟨f, hf, ?_, ?_, ?_⟩
  · intro hd
    simp only [tricore_scu_get_stmclock, tricore_scu_get_stmdiv, hf, Option.some_bind,
      divider_field (s.CCUCON 1) 8 MASK_CCUCON1_STMDIV (by decide), div32, if_neg hd]
  · intro hd
    simp only [tricore_scu_get_spbclock, tricore_scu_get_spbdiv, hf, Option.some_bind,
      divider_field (s.CCUCON 0) 16 MASK_CCUCON0_SPBDIV (by decide), div32, if_neg hd]
  · intro hd
    simp only [tricore_scu_get_sri_clock, tricore_scu_get_sridiv, hf, Option.some_bind,
      divider_field (s.CCUCON 0) 8 MASK_CCUCON0_SRIDIV (by decide), div32, if_neg hd]

theorem tricore_scu_derived_clocks_witness :
    (tricore_scu_get_stmclock scu_normal).1 = some (40000000 / 7) ∧
    (tricore_scu_get_spbclock scu_normal).1 = some (40000000 / 2) ∧
    (tricore_scu_get_sri_clock scu_normal).1 = some (40000000 / 9) :=
  Exists.elim (tricore_scu_derived_clocks scu_normal) (fun f h =>
    have hf : f = 40000000 := Option.some.inj (h.1.symm.trans (by decide))
    ⟨hf ▸ h.2.1 (by decide), hf ▸ h.2.2.1 (by decide), hf ▸ h.2.2.2 (by decide)⟩)


/-! ## Theorems: router idempotence and register window -/

theorem irq_evaluate_regs (pv : TriCoreIRBUSState) :
    (irq_evaluate pv).src_control_reg = pv.src_control_reg := by
  by_cases h : ∃ i, i < 256 ∧ src_qualifies pv i
  · obtain ⟨w, hw⟩ := exists_src_winner pv h
    rw [irq_evaluate_winner pv w hw, irq_trigger_regs]
  · rw [irq_evaluate_none pv (fun j hj hq => h ⟨j, hj, hq⟩)]

theorem srr_ne_zero_iff (pv : TriCoreIRBUSState) (i : Nat) :
    pv.src_control_reg i &&& IR_SRC_SRR ≠ 0 ↔ src_pending pv i :=
  and_one_shiftLeft_ne_zero (pv.src_control_reg i) 24

theorem irq_handler_noop (pv : TriCoreIRBUSState) (srcnum : Nat) (level : Int)
    (h : level ≠ 0 ↔ src_pending pv srcnum) : irq_handler pv srcnum level = pv := by
  have hs := srr_ne_zero_iff pv srcnum
  unfold irq_handler
  dsimp only
  by_cases hl : level ≠ 0
  · rw [if_pos hl, if_pos (hs.2 (h.1 hl))]
  · rw [if_neg hl, if_pos (fun hc => hl (h.2 (hs.1 hc)))]

theorem irq_handler_pending (pv : TriCoreIRBUSState) (srcnum : Nat) (level : Int) :
    level ≠ 0 ↔ src_pending (irq_handler pv srcnum level) srcnum := by
  have hs := srr_ne_zero_iff pv srcnum
  unfold irq_handler
  dsimp only
  by_cases hl : level ≠ 0
  · rw [if_pos hl]
    by_cases hp : pv.src_control_reg srcnum &&& IR_SRC_SRR ≠ 0
    · rw [if_pos hp]
      exact ⟨fun _ => hs.1 hp, fun _ => hl⟩
    · rw [if_neg hp]
      refine ⟨fun _ => ?_, fun _ => hl⟩
      unfold src_pending
      rw [irq_evaluate_regs]
      simp only [Function.update_same, Nat.testBit_or, IR_SRC_SRR, Nat.one_shiftLeft,
        Nat.testBit_two_pow_self, Bool.or_true]
  · rw [if_neg hl]
    by_cases hp : pv.src_control_reg srcnum &&& IR_SRC_SRR ≠ 0
    · rw [if_neg (not_not.mpr hp)]
      refine ⟨fun hc => absurd hc hl, fun hc => ?_⟩
      exfalso
      unfold src_pending at hc
      rw [irq_evaluate_regs] at hc
      simp only [Function.update_same, Nat.testBit_and, testBit_not32, IR_SRC_SRR,
        Nat.one_shiftLeft, Nat.testBit_two_pow_self] at hc
      simp at hc
    · rw [if_pos hp]
      exact ⟨fun hc => absurd hc hl, fun hc => absurd (hs.2 hc) hp⟩

/-- C17: `irq_handler` is idempotent. If the pending bit (bit 24) of the
source already equals the level (level not zero means raise), the call
returns the state unchanged: source registers, ICR and output line. Hence two
consecutive calls with the same index and level leave the state that one call
leaves. -/
theorem irq_handler_idempotent (pv : TriCoreIRBUSState) (srcnum : Nat) (level : Int) :
    ((level ≠ 0 ↔ src_pending pv srcnum) → irq_handler pv srcnum level = pv) ∧
    irq_handler (irq_handler pv srcnum level) srcnum level = irq_handler pv srcnum level :=
  ⟨irq_handler_noop pv srcnum level,
    irq_handler_noop _ srcnum level (irq_handler_pending pv srcnum level)⟩

theorem irq_handler_idempotent_witness :
    irq_handler irbus_two_pending 10 1 = irbus_two_pending ∧
    irq_handler (irq_handler irbus_reset 9 1) 9 1 = irq_handler irbus_reset 9 1 :=
  ⟨(irq_handler_idempotent irbus_two_pending 10 1).1
      ⟨fun _ => by simp only [src_pending, irbus_two_pending]; decide, fun _ => by decide⟩,
    (irq_handler_idempotent irbus_reset 9 1).2⟩


/-- C18 fails on the code: the `switch` compares `srcc & (3 << 25)` with 1, 2
and 3, values it never takes, so no command acts. A word write of the set
command (bit 26) to the register of source 9 in the reset state leaves the
register 0, with bit 10 and bit 24 clear; a word write of the clear command
(bit 25) together with bits 24 and 10 to the register of source 10 leaves
bits 24 and 10 set. -/
theorem irbus_write_command_ignored :
    (tricore_irbus_srvcontrolregs_write irbus_reset 0x80 0x04000000 4).map
      (fun r => (r.1.src_control_reg 9, r.2)) = some (0, false) ∧
    (tricore_irbus_srvcontrolregs_write irbus_two_pending 0x84 0x03000405 4).map
      (fun r => (r.1.src_control_reg 10, r.2)) = some (0x01000405, false) ∧
    Nat.testBit 0x01000405 24 = true ∧ Nat.testBit 0x01000405 10 = true := by
  decide


/-! ## Theorems: system timer -/

theorem testBit_set_bit (r k i : Nat) :
    (r ||| (1 <<< k)).testBit i = (r.testBit i || decide (k = i)) := by
  rw [Nat.testBit_or, Nat.one_shiftLeft, Nat.testBit_two_pow]

theorem testBit_clear_bit (r k i : Nat) :
    (r &&& not32 (1 <<< k)).testBit i =
      (r.testBit i && (decide (i < 32) && !decide (k = i))) := by
  rw [Nat.testBit_and, testBit_not32, Nat.one_shiftLeft, Nat.testBit_two_pow]

theorem testBit_of_lt_two_pow_32 (r i : Nat) (hr : r < 2 ^ 32) (hi : ¬ i < 32) :
    r.testBit i = false :=
  Nat.testBit_lt_two_pow (lt_of_lt_of_le hr (Nat.pow_le_pow_right (by decide) (by omega)))

theorem stm_cmp0en_iff (r : Nat) : r &&& MASK_ICR_CMP0EN ≠ 0 ↔ r.testBit 0 = true :=
  and_one_shiftLeft_ne_zero r 0

theorem stm_cmp0ir_iff (r : Nat) : r &&& MASK_ICR_CMP0IR ≠ 0 ↔ r.testBit 1 = true :=
  and_one_shiftLeft_ne_zero r 1

/-- C15: the alarm handler `tricore_stm_timer_hit`. If ICR.CMP0EN (bit 0) is
set, afterwards ICR.CMP0IR (bit 1) is set, every other bit of ICR and every
other register is unchanged, and the interrupt line is raised; if CMP0EN is
clear the state, with the register file and the interrupt line, is
unchanged. -/
theorem tricore_stm_timer_hit_sets_request (s : TriCoreSTMState) :
    ((s.regs STM.ICR).testBit 0 = true →
      ((tricore_stm_timer_hit s).regs STM.ICR).testBit 1 = true ∧
      (∀ i, i ≠ 1 →
        ((tricore_stm_timer_hit s).regs STM.ICR).testBit i = (s.regs STM.ICR).testBit i) ∧
      (∀ r, r ≠ STM.ICR → (tricore_stm_timer_hit s).regs r = s.regs r) ∧
      (tricore_stm_timer_hit s).irq = true) ∧
    ((s.regs STM.ICR).testBit 0 = false → tricore_stm_timer_hit s = s) := by
  constructor
  · intro hen
    have hen2 : s.regs STM.ICR &&& MASK_ICR_CMP0EN ≠ 0 := (stm_cmp0en_iff _).2 hen
    have hir : MASK_ICR_CMP0IR = 1 <<< 1 := rfl
    have hregs : (tricore_stm_timer_hit s).regs =
        Function.update s.regs STM.ICR (s.regs STM.ICR ||| MASK_ICR_CMP0IR) := by
      unfold tricore_stm_timer_hit tricore_stm_update_irqs
      rw [if_neg (not_not.mpr hen2)]
      split_ifs <;> rfl
    have hirq : (tricore_stm_timer_hit s).irq = true := by
      unfold tricore_stm_timer_hit tricore_stm_update_irqs
      rw [if_neg (not_not.mpr hen2)]
      have c1 : (s.regs STM.ICR ||| MASK_ICR_CMP0IR) &&& MASK_ICR_CMP0IR ≠ 0 := by
        rw [stm_cmp0ir_iff, hir, testBit_set_bit]; simp
      have c2 : (s.regs STM.ICR ||| MASK_ICR_CMP0IR) &&& MASK_ICR_CMP0EN ≠ 0 := by
        rw [stm_cmp0en_iff, hir, testBit_set_bit, hen]; rfl
      simp only [Function.update_same]
      rw [if_pos ⟨c1, c2⟩]
    refine ⟨?_, ?_, ?_, hirq⟩
    · rw [hregs, Function.update_same, hir, testBit_set_bit]; simp
    · intro i hi
      rw [hregs, Function.update_same, hir, testBit_set_bit]
      have : ¬ 1 = i := fun h => hi h.symm
      simp [this]
    · intro r hr
      rw [hregs, Function.update_noteq hr]
  · intro hen
    have hen2 : ¬ s.regs STM.ICR &&& MASK_ICR_CMP0EN ≠ 0 := by
      rw [stm_cmp0en_iff, hen]; decide
    unfold tricore_stm_timer_hit
    rw [if_pos hen2]


theorem tricore_stm_timer_hit_sets_request_witness :
    (tricore_stm_timer_hit stm_armed).irq = true ∧
    (tricore_stm_timer_hit stm_armed).regs STM.ICR = 0x03 ∧
    tricore_stm_timer_hit stm_disabled = stm_disabled :=
  ⟨((tricore_stm_timer_hit_sets_request stm_armed).1 (by decide)).2.2.2, by decide,
    (tricore_stm_timer_hit_sets_request stm_disabled).2 (by decide)⟩

theorem stm_write_value_word (s : TriCoreSTMState) (offset v : Nat) (h : offset % 4 = 0) :
    stm_write_value s offset v 4 = v % 2 ^ 64 := by
  have h3 : offset &&& 0x3 = 0 := by
    have := Nat.and_pow_two_sub_one_eq_mod offset 2
    simpa [h] using this
  simp [stm_write_value, h3]

theorem stm_write_iscr_regs (s : TriCoreSTMState) (value r : Nat) (hr : r ≠ STM.ICR) :
    (stm_write_iscr s value).regs r = s.regs r := by
  unfold stm_write_iscr
  dsimp only
  split_ifs <;> simp [Function.update_noteq hr]

theorem stm_write_iscr_other (s : TriCoreSTMState) (value : Nat) :
    (stm_write_iscr s value).irq = s.irq ∧ (stm_write_iscr s value).ptimer = s.ptimer ∧
    (stm_write_iscr s value).freq_hz = s.freq_hz := by
  unfold stm_write_iscr
  dsimp only
  split_ifs <;> exact ⟨rfl, rfl, rfl⟩

theorem stm_write_iscr_bits (s : TriCoreSTMState) (value i : Nat)
    (hICR : s.regs STM.ICR < 2 ^ 32) :
    ((stm_write_iscr s value).regs STM.ICR).testBit i =
      if i = 1 then
        (if value.testBit 1 = true then true
          else if value.testBit 0 = true then false else (s.regs STM.ICR).testBit 1)
      else if i = 5 then
        (if value.testBit 3 = true then true
          else if value.testBit 2 = true then false else (s.regs STM.ICR).testBit 5)
      else (s.regs STM.ICR).testBit i := by
  have s0 : ∀ r j, (r ||| MASK_ICR_CMP0IR).testBit j = (r.testBit j || decide (1 = j)) :=
    fun r j => testBit_set_bit r 1 j
  have s1 : ∀ r j, (r ||| MASK_ICR_CMP1IR).testBit j = (r.testBit j || decide (5 = j)) :=
    fun r j => testBit_set_bit r 5 j
  have k0 : ∀ r j, (r &&& not32 MASK_ICR_CMP0IR).testBit j =
      (r.testBit j && (decide (j < 32) && !decide (1 = j))) :=
    fun r j => testBit_clear_bit r 1 j
  have k1 : ∀ r j, (r &&& not32 MASK_ICR_CMP1IR).testBit j =
      (r.testBit j && (decide (j < 32) && !decide (5 = j))) :=
    fun r j => testBit_clear_bit r 5 j
  have c0 : value &&& MASK_ISCR_CMP0IRR ≠ 0 ↔ value.testBit 0 = true :=
    and_one_shiftLeft_ne_zero value 0
  have c1 : value &&& MASK_ISCR_CMP0IRS ≠ 0 ↔ value.testBit 1 = true :=
    and_one_shiftLeft_ne_zero value 1
  have c2 : value &&& MASK_ISCR_CMP1IRR ≠ 0 ↔ value.testBit 2 = true :=
    and_one_shiftLeft_ne_zero value 2
  have c3 : value &&& MASK_ISCR_CMP1IRS ≠ 0 ↔ value.testBit 3 = true :=
    and_one_shiftLeft_ne_zero value 3
  have hhi : ¬ i < 32 → (s.regs STM.ICR).testBit i = false :=
    testBit_of_lt_two_pow_32 _ i hICR
  unfold stm_write_iscr
  simp only [c0, c1, c2, c3]
  by_cases i1 : i = 1
  · subst i1
    by_cases b0 : value.testBit 0 = true <;> by_cases b1 : value.testBit 1 = true <;>
      by_cases b2 : value.testBit 2 = true <;> by_cases b3 : value.testBit 3 = true <;>
      simp [b0, b1, b2, b3, s0, s1, k0, k1, Function.update_same]
  · by_cases i5 : i = 5
    · subst i5
      by_cases b0 : value.testBit 0 = true <;> by_cases b1 : value.testBit 1 = true <;>
        by_cases b2 : value.testBit 2 = true <;> by_cases b3 : value.testBit 3 = true <;>
        simp [b0, b1, b2, b3, s0, s1, k0, k1, Function.update_same]
    · have n1 : ¬ 1 = i := fun h => i1 h.symm
      have n5 : ¬ 5 = i := fun h => i5 h.symm
      by_cases h32 : i < 32
      · by_cases b0 : value.testBit 0 = true <;> by_cases b1 : value.testBit 1 = true <;>
          by_cases b2 : value.testBit 2 = true <;> by_cases b3 : value.testBit 3 = true <;>
          simp [b0, b1, b2, b3, i1, i5, n1, n5, h32, s0, s1, k0, k1,
            Function.update_same]
      · have hz := hhi h32
        by_cases b0 : value.testBit 0 = true <;> by_cases b1 : value.testBit 1 = true <;>
          by_cases b2 : value.testBit 2 = true <;> by_cases b3 : value.testBit 3 = true <;>
          simp [b0, b1, b2, b3, i1, i5, n1, n5, h32, hz, s0, s1, k0, k1,
            Function.update_same]


theorem tricore_stm_update_irqs_regs (s : TriCoreSTMState) :
    (tricore_stm_update_irqs s).regs = s.regs ∧
    (tricore_stm_update_irqs s).ptimer = s.ptimer ∧
    (tricore_stm_update_irqs s).freq_hz = s.freq_hz := by
  unfold tricore_stm_update_irqs
  split_ifs <;> exact ⟨rfl, rfl, rfl⟩

theorem tricore_stm_write_at_iscr (inexact : Nat → Nat → Nat) (s : TriCoreSTMState)
    (now v : Nat) :
    tricore_stm_write inexact s now 0x40 v 4 =
      some (tricore_stm_update_irqs (stm_write_iscr s (v % 2 ^ 64))) := by
  have hv := stm_write_value_word s 0x40 v (by decide)
  have ha : (0x40 : Nat) >>> 2 = 16 := by decide
  unfold tricore_stm_write stm_write_switch
  rw [hv, ha]
  simp [STM.CLC, STM.ID, STM.TIM0, STM.TIM1, STM.TIM2, STM.TIM3, STM.TIM4, STM.TIM5, STM.TIM6,
    STM.CAP, STM.CMP0, STM.CMP1, STM.ICR, STM.TIM0SV, STM.CAPSV, STM.OCS, STM.KRSTCLR,
    STM.KRST1, STM.KRST0, STM.ACCEN1, STM.ACCEN0, STM.CMCON, STM.ISCR]

/-- C16: a word write of v to ISCR (offset 0x40), for every 32-bit ICR value.
Per compare channel the clear-request bit is applied first and the
set-request bit second: afterwards CMP0IR (ICR bit 1) is set if v has CMP0IRS
(bit 1), also when CMP0IRR (bit 0) is set as well, clear if v has only
CMP0IRR, and unchanged if neither; the same holds for CMP1IR (ICR bit 5) with
CMP1IRS (bit 3) and CMP1IRR (bit 2). Every other bit of ICR, the enable bits
0 and 4 among them, and every other register are unchanged. -/
theorem tricore_stm_write_iscr_protocol (inexact : Nat → Nat → Nat) (s : TriCoreSTMState)
    (now v : Nat) (hICR : s.regs STM.ICR < 2 ^ 32) :
    ∃ s', tricore_stm_write inexact s now 0x40 v 4 = some s' ∧
      ((s'.regs STM.ICR).testBit 1 =
        if v.testBit 1 = true then true
        else if v.testBit 0 = true then false else (s.regs STM.ICR).testBit 1) ∧
      ((s'.regs STM.ICR).testBit 5 =
        if v.testBit 3 = true then true
        else if v.testBit 2 = true then false else (s.regs STM.ICR).testBit 5) ∧
      (∀ i, i ≠ 1 → i ≠ 5 → (s'.regs STM.ICR).testBit i = (s.regs STM.ICR).testBit i) ∧
      (∀ r, r ≠ STM.ICR → s'.regs r = s.regs r) := by
  have hb : ∀ j, j < 64 → (v % 2 ^ 64).testBit j = v.testBit j := by
    intro j hj
    rw [Nat.testBit_mod_two_pow]
    simp [hj]
  refine ⟨_, tricore_stm_write_at_iscr inexact s now v, ?_, ?_, ?_, ?_⟩
  · rw [(tricore_stm_update_irqs_regs _).1, stm_write_iscr_bits s _ 1 hICR,
      hb 0 (by decide), hb 1 (by decide)]
    rfl
  · rw [(tricore_stm_update_irqs_regs _).1, stm_write_iscr_bits s _ 5 hICR,
      hb 2 (by decide), hb 3 (by decide)]
    rfl
  · intro i i1 i5
    rw [(tricore_stm_update_irqs_regs _).1, stm_write_iscr_bits s _ i hICR, if_neg i1, if_neg i5]
  · intro r hr
    rw [(tricore_stm_update_irqs_regs _).1, stm_write_iscr_regs s _ r hr]

theorem tricore_stm_write_iscr_protocol_witness :
    ∃ s', tricore_stm_write (fun _ _ => 0) stm_armed 0 0x40 0x3 4 = some s' ∧
      (s'.regs STM.ICR).testBit 1 = true ∧ (s'.regs STM.ICR).testBit 0 = true :=
  Exists.elim (tricore_stm_write_iscr_protocol (fun _ _ => 0) stm_armed 0 0x3 (by decide))
    (fun s' h =>
    ⟨s', h.1, h.2.1.trans (by decide), (h.2.2.2.1 0 (by decide) (by decide)).trans (by decide)⟩)


theorem stm_shifts_to_right (x : Nat) :
    ((x &&& MASK_CMCON_MSTART0) >>> 8) + ((x &&& MASK_CMCON_MSIZE0) >>> 8) = reg_field x 8 5 := by
  have m1 : MASK_CMCON_MSTART0 = (2 ^ 5 - 1) <<< 8 := by decide
  have m2 : MASK_CMCON_MSIZE0 = 2 ^ 5 - 1 := by decide
  have h := reg_field_lt x 0 5
  rw [m1, m2, and_mask_shiftRight, and_mask_low, Nat.shiftRight_eq_div_pow]
  have : reg_field x 0 5 / 2 ^ 8 = 0 := Nat.div_eq_of_lt (by omega)
  omega

theorem tricore_stm_get_tim_no_update (s : TriCoreSTMState) (now timshift : Nat)
    (hf0 : 0 < s.freq_hz) (hf1 : s.freq_hz ≤ 1000000000) :
    tricore_stm_get_tim_update_regs s now timshift false =
      some (s, (stm_counter s.freq_hz now % 2 ^ 64) / 2 ^ timshift % 2 ^ 32) := by
  have h1 : ¬ s.freq_hz = 0 := by omega
  have h2 : ¬ 1000000000 / s.freq_hz = 0 := by
    have := Nat.div_pos hf1 hf0
    omega
  unfold tricore_stm_get_tim_update_regs stm_counter
  rw [if_neg h1, if_neg h2]
  simp [Nat.shiftRight_eq_div_pow]

theorem tricore_stm_get_tim_none (s : TriCoreSTMState) (now timshift : Nat) (b : Bool)
    (hf : s.freq_hz = 0 ∨ 1000000000 < s.freq_hz) :
    tricore_stm_get_tim_update_regs s now timshift b = none := by
  unfold tricore_stm_get_tim_update_regs
  rcases hf with hf | hf
  · rw [if_pos hf]
  · have : 1000000000 / s.freq_hz = 0 := Nat.div_eq_of_lt hf
    rw [if_pos this]
    split_ifs <;> rfl

theorem tricore_stm_timer_start_disabled (inexact : Nat → Nat → Nat) (s : TriCoreSTMState)
    (now : Nat) (hen : (s.regs STM.ICR).testBit 0 = false) :
    tricore_stm_timer_start inexact s now = some { s with ptimer := ptimer_stop s.ptimer } := by
  have h : ¬ s.regs STM.ICR &&& MASK_ICR_CMP0EN ≠ 0 := by
    rw [stm_cmp0en_iff, hen]; decide
  unfold tricore_stm_timer_start
  simp only [if_pos h]

theorem tricore_stm_timer_start_enabled (inexact : Nat → Nat → Nat) (s : TriCoreSTMState)
    (now : Nat) (hen : (s.regs STM.ICR).testBit 0 = true)
    (hf0 : 0 < s.freq_hz) (hf1 : s.freq_hz ≤ 1000000000) :
    tricore_stm_timer_start inexact s now =
      some { s with
        ptimer := ptimer_run (ptimer_set_limit (ptimer_stop s.ptimer)
          (scale_ticks inexact
            (sub64 (s.regs STM.CMP0)
              ((stm_counter s.freq_hz now % 2 ^ 64) / 2 ^ reg_field (s.regs STM.CMCON) 8 5
                % 2 ^ 32))
            (reg_field (s.regs STM.CMCON) 8 5)) 1) 1 } := by
  have h : s.regs STM.ICR &&& MASK_ICR_CMP0EN ≠ 0 := (stm_cmp0en_iff _).2 hen
  unfold tricore_stm_timer_start
  simp only [if_neg (not_not.mpr h), stm_shifts_to_right]
  rw [tricore_stm_get_tim_no_update { s with ptimer := ptimer_stop s.ptimer } now _ hf0 hf1]

theorem tricore_stm_timer_start_none (inexact : Nat → Nat → Nat) (s : TriCoreSTMState)
    (now : Nat) (hen : (s.regs STM.ICR).testBit 0 = true)
    (hf : s.freq_hz = 0 ∨ 1000000000 < s.freq_hz) :
    tricore_stm_timer_start inexact s now = none := by
  have h : s.regs STM.ICR &&& MASK_ICR_CMP0EN ≠ 0 := (stm_cmp0en_iff _).2 hen
  unfold tricore_stm_timer_start
  simp only [if_neg (not_not.mpr h)]
  rw [tricore_stm_get_tim_none { s with ptimer := ptimer_stop s.ptimer } now _ false hf]

theorem tricore_stm_write_at_cmcon (inexact : Nat → Nat → Nat) (s : TriCoreSTMState)
    (now v : Nat) :
    tricore_stm_write inexact s now 0x38 v 4 =
      (tricore_stm_timer_start inexact
        { s with regs := Function.update s.regs STM.CMCON (v % 2 ^ 64 % 2 ^ 32) } now).map
        tricore_stm_update_irqs := by
  have hv := stm_write_value_word s 0x38 v (by decide)
  have ha : (0x38 : Nat) >>> 2 = 14 := by decide
  unfold tricore_stm_write stm_write_switch
  rw [hv, ha]
  simp [STM.CLC, STM.ID, STM.TIM0, STM.TIM1, STM.TIM2, STM.TIM3, STM.TIM4, STM.TIM5, STM.TIM6,
    STM.CAP, STM.CMP0, STM.CMP1, STM.ICR, STM.TIM0SV, STM.CAPSV, STM.OCS, STM.KRSTCLR,
    STM.KRST1, STM.KRST0, STM.ACCEN1, STM.ACCEN0, STM.CMCON, STM.ISCR]


theorem stm_cmcon_write_icr (s : TriCoreSTMState) (x : Nat) :
    ({ s with regs := Function.update s.regs STM.CMCON x } : TriCoreSTMState).regs STM.ICR
      = s.regs STM.ICR :=
  Function.update_noteq (show STM.ICR ≠ STM.CMCON by decide) x s.regs

/-- A word write to CMCON (offset 0x38) on the states where it returns: with
ICR.CMP0EN (bit 0) clear the alarm is `ptimer_stop` of the previous one, and
with CMP0EN set a one-shot alarm is armed (`ptimer_set_limit` with reload,
then `ptimer_run` one-shot). The write returns when CMP0EN is clear, and when
CMP0EN is set and the frequency snapshot is between 1 Hz and 10^9 Hz, where
the tick length is not zero. -/
theorem tricore_stm_write_cmcon_cancels_then_arms (inexact : Nat → Nat → Nat)
    (s : TriCoreSTMState) (now v : Nat) :
    (∀ s', tricore_stm_write inexact s now 0x38 v 4 = some s' →
      ((s.regs STM.ICR).testBit 0 = false →
        s'.ptimer = ptimer_stop s.ptimer ∧ s'.ptimer.enabled = 0) ∧
      ((s.regs STM.ICR).testBit 0 = true →
        ∃ T, s'.ptimer = ptimer_run (ptimer_set_limit (ptimer_stop s.ptimer) T 1) 1 ∧
          s'.ptimer.enabled = 2 ∧ s'.ptimer.delta = T)) ∧
    ((s.regs STM.ICR).testBit 0 = false →
      ∃ s', tricore_stm_write inexact s now 0x38 v 4 = some s') ∧
    ((s.regs STM.ICR).testBit 0 = true → 0 < s.freq_hz → s.freq_hz ≤ 1000000000 →
      ∃ s', tricore_stm_write inexact s now 0x38 v 4 = some s') := by
  rw [tricore_stm_write_at_cmcon]
  have hicr : ∀ b, (s.regs STM.ICR).testBit 0 = b →
      (({ s with regs := Function.update s.regs STM.CMCON (v % 2 ^ 64 % 2 ^ 32) } :
        TriCoreSTMState).regs STM.ICR).testBit 0 = b := by
    intro b hb
    rw [stm_cmcon_write_icr]; exact hb
  refine ⟨?_, ?_, ?_⟩
  · intro s' hs'
    constructor
    · intro hen
      rw [tricore_stm_timer_start_disabled inexact
        { s with regs := Function.update s.regs STM.CMCON (v % 2 ^ 64 % 2 ^ 32) } now
        (hicr _ hen)] at hs'
      simp only [Option.map_some', Option.some.injEq] at hs'
      subst hs'
      rw [(tricore_stm_update_irqs_regs _).2.1]
      exact ⟨rfl, rfl⟩
    · intro hen
      by_cases hf : 0 < s.freq_hz ∧ s.freq_hz ≤ 1000000000
      · rw [tricore_stm_timer_start_enabled inexact
          { s with regs := Function.update s.regs STM.CMCON (v % 2 ^ 64 % 2 ^ 32) } now
          (hicr _ hen) hf.1 hf.2] at hs'
        simp only [Option.map_some', Option.some.injEq] at hs'
        subst hs'
        rw [(tricore_stm_update_irqs_regs _).2.1]
        exact ⟨_, rfl, rfl, rfl⟩
      · have hf2 : s.freq_hz = 0 ∨ 1000000000 < s.freq_hz := by omega
        rw [tricore_stm_timer_start_none inexact
          { s with regs := Function.update s.regs STM.CMCON (v % 2 ^ 64 % 2 ^ 32) } now
          (hicr _ hen) hf2] at hs'
        simp at hs'
  · intro hen
    rw [tricore_stm_timer_start_disabled inexact
      { s with regs := Function.update s.regs STM.CMCON (v % 2 ^ 64 % 2 ^ 32) } now
      (hicr _ hen)]
    exact ⟨_, rfl⟩
  · intro hen hf0 hf1
    rw [tricore_stm_timer_start_enabled inexact
      { s with regs := Function.update s.regs STM.CMCON (v % 2 ^ 64 % 2 ^ 32) } now
      (hicr _ hen) hf0 hf1]
    exact ⟨_, rfl⟩

theorem tricore_stm_write_cmcon_cancels_then_arms_witness :
    (∃ s', tricore_stm_write (fun _ _ => 0) stm_armed 100000 0x38 0 4 = some s' ∧
      s'.ptimer.enabled = 2) ∧
    (∃ s', tricore_stm_write (fun _ _ => 0) stm_disabled 100000 0x38 0 4 = some s' ∧
      s'.ptimer.enabled = 0) :=
  have h1 := tricore_stm_write_cmcon_cancels_then_arms (fun _ _ => 0) stm_armed 100000 0
  have h2 := tricore_stm_write_cmcon_cancels_then_arms (fun _ _ => 0) stm_disabled 100000 0
  ⟨Exists.elim (h1.2.2 (by decide) (by decide) (by decide)) (fun s' hs' =>
      ⟨s', hs', Exists.elim ((h1.1 s' hs').2 (by decide)) (fun _ hT => hT.2.1)⟩),
    Exists.elim (h2.2.1 (by decide)) (fun s' hs' =>
      ⟨s', hs', ((h2.1 s' hs').1 (by decide)).2⟩)⟩

/-- C12: evaluation of a word write to CMCON (offset 0x38) with ICR.CMP0EN
set on a timer state a guest reaches. The clock unit is programmed from
`tricore_scu_init` to 2.56 GHz (`scu_fast_pll_writes`); on the timer
`stm_disabled` (the periodic alarm of `tricore_stm_realize` running) a read of
CMP0 (offset 0x30) takes the frequency snapshot 2560000000 and returns, and a
word write of 1 to ICR (offset 0x3C) sets CMP0EN; the alarm is still the
periodic one. The write of 0 to CMCON then has no result:
`tricore_stm_timer_start` divides the host time by the tick length
`1000000000 / freq_hz`, which is 0, before any alarm is armed. -/
theorem stm_write_cmcon_divides_by_zero :
    (scu_writes tricore_scu_init scu_fast_pll_writes).bind
        (fun scu => (tricore_stm_read stm_disabled scu 1000 0x30 4).bind
          (fun r => (tricore_stm_write (fun _ _ => 0) r.1 2000 0x3C 1 4).map
            (fun t => (t.freq_hz, (t.regs STM.ICR).testBit 0, t.ptimer.enabled,
              (tricore_stm_write (fun _ _ => 0) t 3000 0x38 0 4).isSome)))) =
      some (2560000000, true, 1, false) := by
  decide

/-- C13 fails on the code: the CMP0 case of `tricore_stm_write` only stores
the value, where the CMCON case calls `tricore_stm_timer_start`. With
compare-enable set, CMP0 = 6000 and a one-shot alarm armed with 1000 ticks to
go (host time 100000 ns at 50 MHz, counter 5000), a word write of 9000 to CMP0
(offset 0x30) stores 9000 and leaves the alarm as it was: still 1000 ticks,
not the 4000 of the new compare value. -/
theorem tricore_stm_write_cmp0_keeps_alarm :
    stm_armed.ptimer = { freq := 50000000, limit := 1000, delta := 1000, enabled := 2 } ∧
    stm_counter stm_armed.freq_hz 100000 = 5000 ∧
    (tricore_stm_write (fun _ _ => 0) stm_armed 100000 0x30 9000 4).map
      (fun s' => (s'.regs STM.CMP0, s'.ptimer))
      = some (9000, { freq := 50000000, limit := 1000, delta := 1000, enabled := 2 }) ∧
    (tricore_stm_write (fun _ _ => 0) stm_armed 100000 0x38 0 4).map
      (fun s' => s'.ptimer)
      = some { freq := 50000000, limit := 1000, delta := 1000, enabled := 2 } ∧
    (tricore_stm_timer_start (fun _ _ => 0)
      { stm_armed with regs := Function.update stm_armed.regs STM.CMP0 9000 } 100000).map
      (fun s' => s'.ptimer)
      = some { freq := 50000000, limit := 4000, delta := 4000, enabled := 2 } := by
  decide


/-- C14: `tricore_stm_timer_start` with compare-enable set (ICR bit 0), tap
shift 0 (CMCON.MSTART0, bits 8-12, zero), a frequency snapshot F between 1 Hz
and 10^9 Hz, the current 32-bit counter value c and CMP0 = c + N with
c + N < 2^32. The alarm is armed one-shot with a timeout of exactly N ticks
(`delta` and `limit` are N), at the tick frequency the alarm already had; it
fires once: the first expiry calls the handler and disarms it, a second
expiry does not occur. The registers are unchanged. -/
theorem tricore_stm_timer_start_delay (inexact : Nat → Nat → Nat) (s : TriCoreSTMState)
    (now N : Nat)
    (hen : (s.regs STM.ICR).testBit 0 = true)
    (hshift : reg_field (s.regs STM.CMCON) 8 5 = 0)
    (hf0 : 0 < s.freq_hz) (hf1 : s.freq_hz ≤ 1000000000)
    (hcmp : s.regs STM.CMP0 = stm_counter s.freq_hz now % 2 ^ 32 + N)
    (hN : stm_counter s.freq_hz now % 2 ^ 32 + N < 2 ^ 32) :
    ∃ s', tricore_stm_timer_start inexact s now = some s' ∧
      s'.ptimer.enabled = 2 ∧ s'.ptimer.delta = N ∧ s'.ptimer.limit = N ∧
      s'.ptimer.freq = s.ptimer.freq ∧
      (ptimer_tick s'.ptimer).2 = true ∧
      (ptimer_tick (ptimer_tick s'.ptimer).1).2 = false ∧
      s'.regs = s.regs := by
  have hT : scale_ticks inexact
      (sub64 (s.regs STM.CMP0)
        ((stm_counter s.freq_hz now % 2 ^ 64) / 2 ^ reg_field (s.regs STM.CMCON) 8 5 % 2 ^ 32))
      (reg_field (s.regs STM.CMCON) 8 5) = N := by
    rw [hshift, hcmp]
    have hd : sub64 (stm_counter s.freq_hz now % 2 ^ 32 + N)
        ((stm_counter s.freq_hz now % 2 ^ 64) / 2 ^ 0 % 2 ^ 32) = N := by
      unfold sub64
      omega
    rw [hd]
    unfold scale_ticks
    rw [if_pos ⟨by omega, by omega⟩]
    omega
  rw [tricore_stm_timer_start_enabled inexact s now hen hf0 hf1, hT]
  exact ⟨_, rfl, rfl, rfl, rfl, rfl, rfl, rfl, rfl⟩

theorem tricore_stm_timer_start_delay_witness :
    ∃ s', tricore_stm_timer_start (fun _ _ => 0) stm_compare_ahead 2000 = some s' ∧
      s'.ptimer.enabled = 2 ∧ s'.ptimer.delta = 5000 :=
  Exists.elim
    (tricore_stm_timer_start_delay (fun _ _ => 0) stm_compare_ahead 2000 5000
      (by decide) (by decide) (by decide) (by decide) (by decide) (by decide))
    (fun s' h => ⟨s', h.1, h.2.1, h.2.2.1⟩)


theorem tricore_stm_get_tim_update (s : TriCoreSTMState) (now timshift : Nat)
    (hf0 : 0 < s.freq_hz) (hf1 : s.freq_hz ≤ 1000000000) :
    ∃ s', tricore_stm_get_tim_update_regs s now timshift true =
      some (s', (stm_counter s.freq_hz now % 2 ^ 64) / 2 ^ timshift % 2 ^ 32) := by
  have h1 : ¬ s.freq_hz = 0 := by omega
  have h2 : ¬ 1000000000 / s.freq_hz = 0 := by
    have := Nat.div_pos hf1 hf0
    omega
  unfold tricore_stm_get_tim_update_regs stm_counter
  rw [if_neg h1, if_neg h2]
  simp [Nat.shiftRight_eq_div_pow]

theorem uart_update_irq_fields (s : TriCoreASCLINState) :
    (uart_update_irq s).regs = s.regs ∧
    (uart_update_irq s).rxbufreadidx = s.rxbufreadidx ∧
    (uart_update_irq s).rxbufwriteidx = s.rxbufwriteidx := by
  unfold uart_update_irq
  dsimp only
  split_ifs <;> exact ⟨rfl, rfl, rfl⟩

theorem uart_update_irq_lines (s : TriCoreASCLINState) : lines_recomputed (uart_update_irq s) := by
  have e1 : s.regs FLAGSENABLE &&& MASK_FLAGSENABLE_RFLE ≠ 0 ↔
      (s.regs FLAGSENABLE).testBit 28 = true := and_one_shiftLeft_ne_zero _ 28
  have e2 : s.regs FLAGSENABLE &&& MASK_FLAGSENABLE_TFLE ≠ 0 ↔
      (s.regs FLAGSENABLE).testBit 31 = true := and_one_shiftLeft_ne_zero _ 31
  have e3 : s.regs FLAGS &&& MASK_FLAGS_RFL ≠ 0 ↔ (s.regs FLAGS).testBit 28 = true :=
    and_one_shiftLeft_ne_zero _ 28
  have e4 : s.regs FLAGS &&& MASK_FLAGS_TFL ≠ 0 ↔ (s.regs FLAGS).testBit 31 = true :=
    and_one_shiftLeft_ne_zero _ 31
  unfold lines_recomputed uart_update_irq
  simp only [e1, e2, e3, e4]
  by_cases h1 : (s.regs FLAGSENABLE).testBit 28 = true ∧ (s.regs FLAGS).testBit 28 = true <;>
    by_cases h2 : (s.regs FLAGSENABLE).testBit 31 = true ∧ (s.regs FLAGS).testBit 31 = true <;>
    simp [h1, h2]

theorem uart_update_flags_lines (s : TriCoreASCLINState) :
    lines_recomputed (uart_update_flags s) := by
  unfold uart_update_flags
  exact uart_update_irq_lines _

/-- C20: after every `uart_read` and every `uart_write`, for any offset, any
size, any written value and any answer of the backend, in the resulting state
the RX line is raised if and only if FLAGSENABLE.RFLE and FLAGS.RFL are both
set, and the TX line is raised if and only if FLAGSENABLE.TFLE and FLAGS.TFL
are both set; a line is a Boolean level, so it is lowered otherwise. -/
theorem uart_access_recomputes_lines (s : TriCoreASCLINState) (chr : CharBackend)
    (offset value size : Nat) :
    lines_recomputed (uart_read s offset size).1 ∧
    lines_recomputed (uart_write s chr offset value size) :=
  ⟨uart_update_flags_lines _, uart_update_irq_lines _⟩


theorem uart_update_flags_regs_flags (s : TriCoreASCLINState) :
    (uart_update_flags s).regs FLAGS =
      (if s.rxbufreadidx ≠ s.rxbufwriteidx then s.regs FLAGS ||| MASK_FLAGS_RFL
        else s.regs FLAGS &&& not32 MASK_FLAGS_RFL) ||| MASK_FLAGS_TFL := by
  unfold uart_update_flags
  rw [(uart_update_irq_fields _).1]
  dsimp only
  split_ifs <;> simp [Function.update_same]

theorem uart_update_flags_canonical (s : TriCoreASCLINState) :
    flags_canonical (uart_update_flags s) ((uart_update_flags s).regs FLAGS) := by
  have hc := uart_update_flags_cursors s
  have sR : ∀ r j, (r ||| MASK_FLAGS_RFL).testBit j = (r.testBit j || decide (28 = j)) :=
    fun r j => testBit_set_bit r 28 j
  have sT : ∀ r j, (r ||| MASK_FLAGS_TFL).testBit j = (r.testBit j || decide (31 = j)) :=
    fun r j => testBit_set_bit r 31 j
  have kR : ∀ r j, (r &&& not32 MASK_FLAGS_RFL).testBit j =
      (r.testBit j && (decide (j < 32) && !decide (28 = j))) :=
    fun r j => testBit_clear_bit r 28 j
  unfold flags_canonical
  rw [uart_update_flags_regs_flags, hc.1, hc.2.1]
  by_cases h : s.rxbufreadidx ≠ s.rxbufwriteidx
  · rw [if_pos h]
    simp [sR, sT, h]
  · rw [if_neg h]
    simp [sT, kR, h]

theorem flags_canonical_of_eq (s t : TriCoreASCLINState)
    (h1 : t.regs FLAGS = s.regs FLAGS) (h2 : t.rxbufreadidx = s.rxbufreadidx)
    (h3 : t.rxbufwriteidx = s.rxbufwriteidx) (h : flags_canonical s (s.regs FLAGS)) :
    flags_canonical t (t.regs FLAGS) := by
  unfold flags_canonical at *
  rw [h1, h2, h3]
  exact h

theorem uart_accept_input_canonical (s : TriCoreASCLINState) (chr : CharBackend)
    (h : flags_canonical s (s.regs FLAGS)) :
    flags_canonical (uart_accept_input s chr) ((uart_accept_input s chr).regs FLAGS) := by
  unfold uart_accept_input
  generalize chr.accept_input = l
  induction l generalizing s with
  | nil => exact h
  | cons b bs ih =>
    simp only [List.foldl_cons]
    exact ih _ (uart_update_flags_canonical _)

theorem uart_transmit_canonical (s : TriCoreASCLINState) (chr : CharBackend)
    (h : flags_canonical s (s.regs FLAGS)) :
    flags_canonical (uart_transmit s chr) ((uart_transmit s chr).regs FLAGS) := by
  unfold uart_transmit uart_buffer_drained
  dsimp only
  split_ifs
  · exact uart_update_flags_canonical _
  · exact flags_canonical_of_eq s _ rfl rfl rfl h
  · exact uart_update_flags_canonical _

theorem uart_transmit_block_canonical (s : TriCoreASCLINState) (chr : CharBackend) (n : Nat)
    (h : flags_canonical s (s.regs FLAGS)) :
    flags_canonical (uart_transmit_block s chr n) ((uart_transmit_block s chr n).regs FLAGS) := by
  unfold uart_transmit_block uart_buffer_drained
  dsimp only
  split_ifs
  · exact uart_update_flags_canonical _
  · exact flags_canonical_of_eq s _ rfl rfl rfl h
  · exact uart_update_flags_canonical _

theorem uart_write_switch_canonical (s : TriCoreASCLINState) (chr : CharBackend)
    (reg_addr value : Nat)
    (hn : ¬ (reg_addr = FLAGS ∨ reg_addr = FLAGSSET ∨ reg_addr = FLAGSCLEAR))
    (h : flags_canonical s (s.regs FLAGS)) :
    flags_canonical (uart_write_switch s chr reg_addr value)
      ((uart_write_switch s chr reg_addr value).regs FLAGS) := by
  have hF : FLAGS ≠ reg_addr := fun hc => hn (Or.inl hc.symm)
  have hS : ¬ reg_addr = FLAGSSET := fun hc => hn (Or.inr (Or.inl hc))
  have hC : ¬ reg_addr = FLAGSCLEAR := fun hc => hn (Or.inr (Or.inr hc))
  have hF2 : ¬ reg_addr = FLAGS := fun hc => hF hc.symm
  have hupd : ∀ x, flags_canonical
      ({ s with regs := Function.update s.regs reg_addr x } : TriCoreASCLINState)
      (({ s with regs := Function.update s.regs reg_addr x } : TriCoreASCLINState).regs FLAGS) :=
    fun x => flags_canonical_of_eq s _ (Function.update_noteq hF x s.regs) rfl rfl h
  unfold uart_write_switch
  by_cases c1 : reg_addr = CLC ∨ reg_addr = IOCR ∨ reg_addr = ID ∨ reg_addr = TXFIFOCON
  · rw [if_pos c1]; exact hupd _
  rw [if_neg c1]
  by_cases c2 : reg_addr = RXFIFOCON
  · rw [if_pos c2]
    dsimp only
    by_cases cf : (value &&& MASK_RXFIFOCON_FLUSH) >>> 0 ≠ 0
    · rw [if_pos cf]
      by_cases ce : (value &&& MASK_RXFIFOCON_ENI) >>> 1 ≠ 0
      · rw [if_pos ce]
        exact uart_accept_input_canonical _ chr (uart_update_flags_canonical _)
      · rw [if_neg ce]; exact uart_update_flags_canonical _
    · rw [if_neg cf]
      by_cases ce : (value &&& MASK_RXFIFOCON_ENI) >>> 1 ≠ 0
      · rw [if_pos ce]; exact uart_accept_input_canonical _ chr (hupd _)
      · rw [if_neg ce]; exact hupd _
  rw [if_neg c2]
  by_cases c3 : reg_addr = BITCON
  · rw [if_pos c3]; exact hupd _
  rw [if_neg c3]
  by_cases c4 : reg_addr = FRAMECON ∨ reg_addr = DATCON ∨ reg_addr = BRG ∨ reg_addr = BRD ∨
      reg_addr = LINCON ∨ reg_addr = LINBTIMER
  · rw [if_pos c4]; exact h
  rw [if_neg c4]
  by_cases c5 : reg_addr = LINHTIMER
  · rw [if_pos c5]; exact h
  rw [if_neg c5, if_neg hF2, if_neg hS, if_neg hC]
  by_cases c6 : reg_addr = FLAGSENABLE
  · rw [if_pos c6]; exact hupd _
  rw [if_neg c6]
  by_cases c7 : reg_addr = TXDATA
  · rw [if_pos c7]
    exact uart_transmit_canonical _ chr (flags_canonical_of_eq s _ rfl rfl rfl h)
  rw [if_neg c7]
  by_cases c8 : reg_addr = RXDATA ∨ reg_addr = CSR
  · rw [if_pos c8]; exact hupd _
  rw [if_neg c8]
  by_cases c9 : reg_addr = RXDATAD
  · rw [if_pos c9]; exact h
  rw [if_neg c9]
  by_cases c10 : reg_addr = 0x60 / 4
  · rw [if_pos c10]; exact hupd _
  rw [if_neg c10]
  by_cases c11 : reg_addr = 0x64 / 4
  · rw [if_pos c11]; exact uart_transmit_block_canonical _ chr _ h
  rw [if_neg c11]
  exact flags_canonical_of_eq s _ rfl rfl rfl h


theorem uart_read_flags_value (s : TriCoreASCLINState) :
    (uart_read s 0x34 4).2 = s.regs FLAGS := by
  have ha : (0x34 : Nat) >>> 2 = 13 := by decide
  have hb : (0x34 : Nat) &&& 0x3 = 0 := by decide
  unfold uart_read
  simp only [ha, hb]
  simp [CLC, IOCR, ID, TXFIFOCON, RXFIFOCON, BITCON, FRAMECON, DATCON, BRG, BRD, LINCON,
    LINBTIMER, LINHTIMER, FLAGSENABLE, FLAGS]

theorem uart_access_canonical (s : TriCoreASCLINState) (a : AsclinAccess)
    (h : reads_or_receives a ∨ (¬ writes_flags a ∧ flags_canonical s (s.regs FLAGS))) :
    flags_canonical (uart_access s a) ((uart_access s a).regs FLAGS) := by
  cases a with
  | read offset size => exact uart_update_flags_canonical _
  | rx buf => exact uart_update_flags_canonical _
  | write chr offset value size =>
    rcases h with h | ⟨hn, hc⟩
    · exact absurd h (by simp [reads_or_receives])
    · unfold uart_access uart_write
      have hf := uart_update_irq_fields
        (uart_write_switch s chr (offset >>> 2) (uart_write_value s offset value size))
      exact flags_canonical_of_eq _ _ (by rw [hf.1]) hf.2.1 hf.2.2
        (uart_write_switch_canonical s chr _ _ hn hc)

theorem uart_run_canonical (rest : List AsclinAccess) (s : TriCoreASCLINState)
    (hrest : ∀ b, b ∈ rest → ¬ writes_flags b) (h : flags_canonical s (s.regs FLAGS)) :
    flags_canonical (uart_run s rest) ((uart_run s rest).regs FLAGS) := by
  induction rest generalizing s with
  | nil => exact h
  | cons b bs ih =>
    unfold uart_run
    exact ih _ (fun c hc => hrest c (List.mem_cons_of_mem _ hc))
      (uart_access_canonical s b (Or.inr ⟨hrest b (List.mem_cons_self _ _), h⟩))

/-- C19 as stated fails: a read of FLAGS returns the stored word, and a write
to FLAGS, FLAGSSET or FLAGSCLEAR stores what the guest writes. From device
creation, after a receive burst of one byte (read cursor 0, write cursor 1)
and a word write of 0x90000000 to FLAGSCLEAR, a read of FLAGS returns 0: RFL
is clear although the cursors differ, and TFL is clear. In the creation state
itself a read of FLAGS returns 0 as well. -/
theorem uart_flags_read_counterexample :
    (uart_run asclin_uart_init
      [AsclinAccess.rx [0x41], AsclinAccess.write ⟨1, 0, []⟩ 0x3C 0x90000000 4]).rxbufreadidx = 0 ∧
    (uart_run asclin_uart_init
      [AsclinAccess.rx [0x41], AsclinAccess.write ⟨1, 0, []⟩ 0x3C 0x90000000 4]).rxbufwriteidx = 1 ∧
    (uart_read (uart_run asclin_uart_init
      [AsclinAccess.rx [0x41], AsclinAccess.write ⟨1, 0, []⟩ 0x3C 0x90000000 4]) 0x34 4).2 = 0 ∧
    (uart_read asclin_uart_init 0x34 4).2 = 0 ∧
    Nat.testBit 0 28 = false ∧ Nat.testBit 0 31 = false := by
  decide

/-- C19, amended: in every state reached by a register read or a receive
burst followed by any sequence of register accesses and receive bursts that
does not write FLAGS, FLAGSSET or FLAGSCLEAR, the value returned by a word
read of FLAGS (offset 0x34) has RFL (bit 28) set if and only if the read
cursor differs from the write cursor, and has TFL (bit 31) set. -/
theorem uart_flags_read_canonical (s : TriCoreASCLINState) (a : AsclinAccess)
    (rest : List AsclinAccess) (ha : reads_or_receives a)
    (hrest : ∀ b, b ∈ rest → ¬ writes_flags b) :
    (((uart_read (uart_run (uart_access s a) rest) 0x34 4).2).testBit 28 = true ↔
      (uart_run (uart_access s a) rest).rxbufreadidx ≠
        (uart_run (uart_access s a) rest).rxbufwriteidx) ∧
    ((uart_read (uart_run (uart_access s a) rest) 0x34 4).2).testBit 31 = true := by
  rw [uart_read_flags_value]
  exact uart_run_canonical rest _ hrest (uart_access_canonical s a (Or.inl ha))

theorem uart_flags_read_canonical_witness :
    ((uart_read (uart_run (uart_access asclin_uart_init (AsclinAccess.rx [0x41]))
      [AsclinAccess.write ⟨1, 0, []⟩ 0x44 0x41 1, AsclinAccess.read 0x48 1]) 0x34 4).2).testBit 31
      = true :=
  (uart_flags_read_canonical asclin_uart_init (AsclinAccess.rx [0x41])
    [AsclinAccess.write ⟨1, 0, []⟩ 0x44 0x41 1, AsclinAccess.read 0x48 1]
    trivial
    (by
      intro b hb
      simp only [List.mem_cons, List.mem_singleton, List.not_mem_nil, or_false] at hb
      rcases hb with hb | hb <;> subst hb <;> simp [writes_flags, FLAGS, FLAGSSET, FLAGSCLEAR])).2


/-! ## Theorems: undeclared registers, peek register -/

/-- C30: a configuration write to an offset whose word index is none of the
nine declared source-control registers (0x20, 0x21, 0x22, 0x124 to 0x129),
with any value and any size, reports an error and returns the state
unchanged: all source registers, ICR and the output line. -/
theorem irbus_write_unknown_rejected (s : TriCoreIRBUSState) (offset value size : Nat)
    (h : offset / 4 ≠ 0x20 ∧ offset / 4 ≠ 0x21 ∧ offset / 4 ≠ 0x22 ∧ offset / 4 ≠ 0x124 ∧
      offset / 4 ≠ 0x125 ∧ offset / 4 ≠ 0x126 ∧ offset / 4 ≠ 0x127 ∧ offset / 4 ≠ 0x128 ∧
      offset / 4 ≠ 0x129) :
    tricore_irbus_srvcontrolregs_write s offset value size = some (s, true) := by
  obtain ⟨h0, h1, h2, h3, h4, h5, h6, h7, h8⟩ := h
  have ha : offset >>> 2 = offset / 4 := by rw [Nat.shiftRight_eq_div_pow]
  have hn : irbus_srcnum (offset / 4) = none := by
    unfold irbus_srcnum
    rw [if_neg h0, if_neg h1, if_neg h2, if_neg h3, if_neg h4, if_neg h5, if_neg h6, if_neg h7,
      if_neg h8]
  unfold tricore_irbus_srvcontrolregs_write
  simp only [ha, hn]

theorem irbus_write_unknown_rejected_witness :
    tricore_irbus_srvcontrolregs_write irbus_two_pending 0x8C 0x04000405 4
      = some (irbus_two_pending, true) :=
  irbus_write_unknown_rejected irbus_two_pending 0x8C 0x04000405 4 (by decide)

theorem uart_read_at_rxdatad (s : TriCoreASCLINState) (offset size : Nat)
    (hoff : offset / 4 = 20) :
    uart_read s offset size = (uart_update_flags s, s.rxbuf s.rxbufreadidx) := by
  have haddr : offset >>> 2 = 20 := by
    rw [Nat.shiftRight_eq_div_pow]; exact hoff
  simp only [uart_read, haddr, CLC, IOCR, ID, TXFIFOCON, RXFIFOCON, BITCON, FRAMECON, DATCON,
    BRG, BRD, LINCON, LINBTIMER, LINHTIMER, FLAGSENABLE, FLAGS, FLAGSSET, FLAGSCLEAR, TXDATA,
    RXDATA, CSR, RXDATAD]
  norm_num

/-- C23: for every UART state, a read of RXDATAD (word index 20, any byte
offset and size) returns the byte `rxbuf[read]` that a read of RXDATA (word
index 18) in that state returns, and leaves the read cursor, the write cursor
and the ring-buffer contents unchanged. -/
theorem uart_peek_same_byte (s : TriCoreASCLINState) (offd sized offr sizer : Nat)
    (hd : offd / 4 = 20) (hr : offr / 4 = 18) :
    (uart_read s offd sized).2 = (uart_read s offr sizer).2 ∧
    (uart_read s offd sized).2 = s.rxbuf s.rxbufreadidx ∧
    (uart_read s offd sized).1.rxbufreadidx = s.rxbufreadidx ∧
    (uart_read s offd sized).1.rxbufwriteidx = s.rxbufwriteidx ∧
    (uart_read s offd sized).1.rxbuf = s.rxbuf := by
  have hf := uart_update_flags_cursors s
  rw [uart_read_at_rxdatad s offd sized hd, uart_read_at_rxdata s offr sizer hr]
  refine ⟨?_, rfl, hf.1, hf.2.1, hf.2.2.1⟩
  split_ifs <;> rfl

theorem uart_peek_same_byte_witness :
    (uart_read asclin_three_buffered 80 1).2 = 0x61 ∧
    (uart_read asclin_three_buffered 80 1).1.rxbufreadidx = 8190 :=
  have h := uart_peek_same_byte asclin_three_buffered 80 1 72 1 (by decide) (by decide)
  ⟨h.2.1, h.2.2.1⟩


theorem uart_write_switch_undeclared (s : TriCoreASCLINState) (chr : CharBackend)
    (reg_addr value : Nat) (h : (21 ≤ reg_addr ∧ reg_addr ≤ 23) ∨ 26 ≤ reg_addr) :
    uart_write_switch s chr reg_addr value =
      { s with reports := s.reports ++ [AsclinReport.write_unknown (reg_addr <<< 2)] } := by
  have key : ∀ n, (n ≤ 20 ∨ n = 24 ∨ n = 25) → ¬ reg_addr = n := by
    intro n hn; omega
  have c1 : ¬ (reg_addr = CLC ∨ reg_addr = IOCR ∨ reg_addr = ID ∨ reg_addr = TXFIFOCON) := by
    rintro (hc | hc | hc | hc) <;> exact key _ (by decide) hc
  have c4 : ¬ (reg_addr = FRAMECON ∨ reg_addr = DATCON ∨ reg_addr = BRG ∨ reg_addr = BRD ∨
      reg_addr = LINCON ∨ reg_addr = LINBTIMER) := by
    rintro (hc | hc | hc | hc | hc | hc) <;> exact key _ (by decide) hc
  have c11 : ¬ (reg_addr = RXDATA ∨ reg_addr = CSR) := by
    rintro (hc | hc) <;> exact key _ (by decide) hc
  unfold uart_write_switch
  rw [if_neg c1, if_neg (key RXFIFOCON (by decide)), if_neg (key BITCON (by decide)), if_neg c4,
    if_neg (key LINHTIMER (by decide)), if_neg (key FLAGS (by decide)),
    if_neg (key FLAGSSET (by decide)), if_neg (key FLAGSCLEAR (by decide)),
    if_neg (key FLAGSENABLE (by decide)), if_neg (key TXDATA (by decide)), if_neg c11,
    if_neg (key RXDATAD (by decide)), if_neg (key (0x60 / 4) (by decide)),
    if_neg (key (0x64 / 4) (by decide))]

theorem uart_read_undeclared (s : TriCoreASCLINState) (offset size : Nat)
    (h : (21 ≤ offset / 4 ∧ offset / 4 ≤ 23) ∨ 26 ≤ offset / 4) :
    (uart_read s offset size).2 = 0 := by
  have ha : offset >>> 2 = offset / 4 := by rw [Nat.shiftRight_eq_div_pow]
  have key : ∀ n, n ≤ 20 → ¬ offset / 4 = n := by
    intro n hn; omega
  have c1 : ¬ (offset / 4 = CLC ∨ offset / 4 = IOCR ∨ offset / 4 = ID ∨ offset / 4 = TXFIFOCON ∨
      offset / 4 = RXFIFOCON ∨ offset / 4 = BITCON ∨ offset / 4 = FRAMECON ∨
      offset / 4 = DATCON ∨ offset / 4 = BRG ∨ offset / 4 = BRD ∨ offset / 4 = LINCON ∨
      offset / 4 = LINBTIMER ∨ offset / 4 = LINHTIMER ∨ offset / 4 = FLAGSENABLE ∨
      offset / 4 = FLAGS) := by
    rintro (hc | hc | hc | hc | hc | hc | hc | hc | hc | hc | hc | hc | hc | hc | hc) <;>
      exact key _ (by decide) hc
  have c2 : ¬ (offset / 4 = FLAGSSET ∨ offset / 4 = FLAGSCLEAR) := by
    rintro (hc | hc) <;> exact key _ (by decide) hc
  unfold uart_read
  simp only [ha]
  rw [if_neg c1, if_neg c2, if_neg (key TXDATA (by decide)), if_neg (key RXDATA (by decide)),
    if_neg (key CSR (by decide)), if_neg (key RXDATAD (by decide))]

/-- C29: for every offset of the UART window whose word index has no declared
register (21 to 23, and 26 upwards), a word write of any value followed by a
read of that offset returns zero, and the write leaves every register word,
the pending transmit byte and the ring buffer with both cursors unchanged. -/
theorem uart_undeclared_write_ignored (s : TriCoreASCLINState) (chr : CharBackend)
    (offset value size : Nat)
    (h : (21 ≤ offset / 4 ∧ offset / 4 ≤ 23) ∨ 26 ≤ offset / 4) :
    (uart_read (uart_write s chr offset value 4) offset size).2 = 0 ∧
    (uart_write s chr offset value 4).regs = s.regs ∧
    (uart_write s chr offset value 4).txbuf = s.txbuf ∧
    (uart_write s chr offset value 4).rxbuf = s.rxbuf ∧
    (uart_write s chr offset value 4).rxbufreadidx = s.rxbufreadidx ∧
    (uart_write s chr offset value 4).rxbufwriteidx = s.rxbufwriteidx := by
  have ha : offset >>> 2 = offset / 4 := by rw [Nat.shiftRight_eq_div_pow]
  refine ⟨uart_read_undeclared _ offset size h, ?_⟩
  unfold uart_write
  rw [ha, uart_write_switch_undeclared s chr _ _ h]
  unfold uart_update_irq
  dsimp only
  split_ifs <;> exact ⟨rfl, rfl, rfl, rfl, rfl⟩

theorem uart_undeclared_write_ignored_witness :
    (uart_read (uart_write asclin_three_buffered ⟨1, 0, []⟩ 0x54 0xFFFFFFFF 4) 0x54 4).2 = 0 ∧
    (uart_write asclin_three_buffered ⟨1, 0, []⟩ 0x54 0xFFFFFFFF 4).regs
      = asclin_three_buffered.regs :=
  have h := uart_undeclared_write_ignored asclin_three_buffered ⟨1, 0, []⟩ 0x54 0xFFFFFFFF 4
    (by decide)
  ⟨h.1, h.2.1⟩


/-! ## Theorems: UART transmit, flush and byte lanes -/

theorem uart_write_at (s : TriCoreASCLINState) (chr : CharBackend) (offset value size r : Nat)
    (hoff : offset / 4 = r) :
    uart_write s chr offset value size =
      uart_update_irq (uart_write_switch s chr r (uart_write_value s offset value size)) := by
  unfold uart_write
  rw [Nat.shiftRight_eq_div_pow]
  exact congrArg (fun x => uart_update_irq (uart_write_switch s chr x _)) hoff

theorem uart_write_switch_txdata (s : TriCoreASCLINState) (chr : CharBackend) (value : Nat) :
    uart_write_switch s chr TXDATA value =
      uart_transmit { s with txbuf := value % 2 ^ 32 } chr := by
  unfold uart_write_switch
  rw [if_neg (by decide), if_neg (by decide), if_neg (by decide), if_neg (by decide),
    if_neg (by decide), if_neg (by decide), if_neg (by decide), if_neg (by decide),
    if_neg (by decide), if_pos rfl]

theorem uart_update_flags_tc (s : TriCoreASCLINState) (h : (s.regs FLAGS).testBit 17 = true) :
    ((uart_update_flags s).regs FLAGS).testBit 17 = true := by
  have sR : ∀ r j, (r ||| MASK_FLAGS_RFL).testBit j = (r.testBit j || decide (28 = j)) :=
    fun r j => testBit_set_bit r 28 j
  have sT : ∀ r j, (r ||| MASK_FLAGS_TFL).testBit j = (r.testBit j || decide (31 = j)) :=
    fun r j => testBit_set_bit r 31 j
  have kR : ∀ r j, (r &&& not32 MASK_FLAGS_RFL).testBit j =
      (r.testBit j && (decide (j < 32) && !decide (28 = j))) :=
    fun r j => testBit_clear_bit r 28 j
  rw [uart_update_flags_regs_flags]
  split_ifs <;> simp [sR, sT, kR, h]

theorem uart_buffer_drained_tc (s : TriCoreASCLINState) :
    ((uart_buffer_drained s).regs FLAGS).testBit 17 = true ∧
    (uart_buffer_drained s).watch_tag = s.watch_tag ∧
    (uart_buffer_drained s).txbuf = s.txbuf := by
  have sC : ∀ r j, (r ||| MASK_FLAGS_TC).testBit j = (r.testBit j || decide (17 = j)) :=
    fun r j => testBit_set_bit r 17 j
  unfold uart_buffer_drained
  refine ⟨uart_update_flags_tc _ ?_, ?_, ?_⟩
  · simp [Function.update_same, sC]
  · simp only [uart_update_flags, uart_update_irq]; split_ifs <;> rfl
  · simp only [uart_update_flags, uart_update_irq]; split_ifs <;> rfl

/-- C24: a write to TXDATA (word index 17), with the answers of the transport
as a parameter. If the transport accepts the byte (`qemu_chr_fe_write_all`
returns a positive value), or the write fails and no watch can be registered
(`qemu_chr_fe_add_watch` returns 0), then after the write FLAGS.TC (bit 17)
is set and no retry is pending (the watch tag is 0). If the write fails and a
watch is registered, the retry is pending (the watch tag is the registered
one, not 0) and the register file, FLAGS.TC with it, is as before the
write. -/
theorem uart_write_txdata_outcomes (s : TriCoreASCLINState) (chr : CharBackend)
    (offset value size : Nat) (hoff : offset / 4 = 17) :
    ((0 < chr.write_all ∨ (chr.write_all ≤ 0 ∧ chr.add_watch = 0)) →
      ((uart_write s chr offset value size).regs FLAGS).testBit 17 = true ∧
      (uart_write s chr offset value size).watch_tag = 0) ∧
    ((chr.write_all ≤ 0 ∧ chr.add_watch ≠ 0) →
      (uart_write s chr offset value size).watch_tag = chr.add_watch ∧
      (uart_write s chr offset value size).watch_tag ≠ 0 ∧
      (uart_write s chr offset value size).regs = s.regs) := by
  have hw : ∀ t : TriCoreASCLINState, (uart_update_irq t).regs = t.regs ∧
      (uart_update_irq t).watch_tag = t.watch_tag := by
    intro t
    unfold uart_update_irq
    dsimp only
    split_ifs <;> exact ⟨rfl, rfl⟩
  rw [uart_write_at s chr offset value size 17 hoff]
  have ht : uart_write_switch s chr 17 (uart_write_value s offset value size) =
      uart_transmit { s with txbuf := uart_write_value s offset value size % 2 ^ 32 } chr :=
    uart_write_switch_txdata s chr _
  rw [ht, (hw _).1, (hw _).2]
  unfold uart_transmit
  dsimp only
  constructor
  · rintro (hacc | ⟨hfail, hnow⟩)
    · rw [if_neg (by omega)]
      exact ⟨(uart_buffer_drained_tc _).1, (uart_buffer_drained_tc _).2.1⟩
    · rw [if_pos hfail, if_pos hnow]
      refine ⟨(uart_buffer_drained_tc _).1, ?_⟩
      rw [(uart_buffer_drained_tc _).2.1]
      exact hnow
  · rintro ⟨hfail, hw0⟩
    rw [if_pos hfail, if_neg hw0]
    exact ⟨rfl, hw0, rfl⟩

theorem uart_write_txdata_outcomes_witness :
    ((uart_write asclin_uart_init ⟨1, 0, []⟩ 0x44 0x41 1).regs FLAGS).testBit 17 = true ∧
    (uart_write asclin_uart_init ⟨0, 0, []⟩ 0x44 0x41 1).watch_tag = 0 ∧
    (uart_write asclin_uart_init ⟨0, 7, []⟩ 0x44 0x41 1).watch_tag = 7 :=
  ⟨((uart_write_txdata_outcomes asclin_uart_init ⟨1, 0, []⟩ 0x44 0x41 1 (by decide)).1
      (Or.inl (by decide))).1,
    ((uart_write_txdata_outcomes asclin_uart_init ⟨0, 0, []⟩ 0x44 0x41 1 (by decide)).1
      (Or.inr ⟨by decide, rfl⟩)).2,
    ((uart_write_txdata_outcomes asclin_uart_init ⟨0, 7, []⟩ 0x44 0x41 1 (by decide)).2
      ⟨by decide, by decide⟩).1⟩


theorem rxfifocon_eni_iff (value : Nat) :
    (value &&& MASK_RXFIFOCON_ENI) >>> 1 ≠ 0 ↔ value.testBit 1 = true := by
  have e : MASK_RXFIFOCON_ENI = (2 ^ 1 - 1) <<< 1 := by decide
  rw [e, and_mask_shiftRight, reg_field_one_bit]
  by_cases h : value.testBit 1 = true
  · simp [h]
  · simp [h]

theorem uart_write_switch_flush (s : TriCoreASCLINState) (chr : CharBackend) (value : Nat)
    (h : value.testBit 0 = true)
    (hq : value.testBit 1 = false ∨ chr.accept_input = []) :
    uart_write_switch s chr RXFIFOCON value =
      asclin_buffer_reset
        { s with regs := Function.update s.regs RXFIFOCON (value % 2 ^ 32) } := by
  have hf : (value &&& MASK_RXFIFOCON_FLUSH) >>> 0 ≠ 0 := by
    rw [Nat.shiftRight_zero]
    exact (and_one_shiftLeft_ne_zero value 0).2 h
  unfold uart_write_switch
  rw [if_neg (by decide), if_pos rfl]
  dsimp only
  rw [if_pos hf]
  by_cases ce : (value &&& MASK_RXFIFOCON_ENI) >>> 1 ≠ 0
  · rw [if_pos ce]
    rcases hq with hq | hq
    · have := (rxfifocon_eni_iff value).1 ce
      rw [hq] at this
      exact absurd this (by decide)
    · unfold uart_accept_input
      rw [hq]
      rfl
  · rw [if_neg ce]

theorem asclin_buffer_reset_empty (s : TriCoreASCLINState) :
    (asclin_buffer_reset s).rxbufreadidx = 0 ∧ (asclin_buffer_reset s).rxbufwriteidx = 0 ∧
    ((asclin_buffer_reset s).regs FLAGS).testBit 28 = false ∧
    ((asclin_buffer_reset s).regs FLAGS).testBit 31 = true := by
  unfold asclin_buffer_reset
  have hc := uart_update_flags_cursors
    { s with
      rxbuf := fun i => if i < ASCLIN_RX_BUFFER then 0 else s.rxbuf i
      rxbufreadidx := 0
      rxbufwriteidx := 0 }
  have hk := uart_update_flags_canonical
    { s with
      rxbuf := fun i => if i < ASCLIN_RX_BUFFER then 0 else s.rxbuf i
      rxbufreadidx := 0
      rxbufwriteidx := 0 }
  unfold flags_canonical at hk
  rw [hc.1, hc.2.1] at hk
  refine ⟨hc.1, hc.2.1, ?_, hk.2⟩
  have hn := hk.1
  simp only [ne_eq, not_true_eq_false, iff_false, Bool.not_eq_true] at hn
  exact hn

/-- C22 as stated fails: the RXFIFOCON case calls `qemu_chr_fe_accept_input`
after the flush when the written ENI bit (bit 1) is set, and the backend may
hand a waiting byte to `uart_rx` inside that call. On `asclin_three_buffered`
the word write of 0x3 (flush and ENI) to offset 0x10 with a backend that has
the byte 0x41 waiting leaves the read cursor at 0 and the write cursor at 1,
used() = 1 and FLAGS.RFL set, and the following read of RXDATA returns 0x41
and advances the read cursor to 1. At the point of the call `uart_can_rx`
answers 1: it does so in the state the same write leaves when the backend
hands over nothing. -/
theorem uart_flush_input_counterexample :
    (uart_write asclin_three_buffered ⟨1, 0, [[0x41]]⟩ 0x10 0x3 4).rxbufreadidx = 0 ∧
    (uart_write asclin_three_buffered ⟨1, 0, [[0x41]]⟩ 0x10 0x3 4).rxbufwriteidx = 1 ∧
    asclin_buffer_used (uart_write asclin_three_buffered ⟨1, 0, [[0x41]]⟩ 0x10 0x3 4) = 1 ∧
    ((uart_write asclin_three_buffered ⟨1, 0, [[0x41]]⟩ 0x10 0x3 4).regs FLAGS).testBit 28
      = true ∧
    (uart_read (uart_write asclin_three_buffered ⟨1, 0, [[0x41]]⟩ 0x10 0x3 4) 72 4).2 = 0x41 ∧
    (uart_read (uart_write asclin_three_buffered ⟨1, 0, [[0x41]]⟩ 0x10 0x3 4) 72 4).1.rxbufreadidx
      = 1 ∧
    uart_can_rx (uart_write asclin_three_buffered ⟨1, 0, []⟩ 0x10 0x3 4) = 1 := by
  decide

/-- C22, amended: a write to RXFIFOCON (word index 4) whose merged value has
the flush bit (bit 0) set, from every UART state, when the backend hands over
no received byte inside the write (the merged ENI bit, bit 1, is clear, or the
backend has nothing waiting): afterwards the read cursor and the write cursor
are both 0, so the ring buffer is empty and used() is 0, FLAGS.RFL (bit 28) is
clear and FLAGS.TFL (bit 31) is set, and a following read of RXDATA leaves the
read cursor where it is. For a word write the merged value is the written
value. -/
theorem uart_write_flush_empties (s : TriCoreASCLINState) (chr : CharBackend)
    (offset value size rsize : Nat) (hoff : offset / 4 = 4)
    (hflush : (uart_write_value s offset value size).testBit 0 = true)
    (hquiet : (uart_write_value s offset value size).testBit 1 = false ∨
      chr.accept_input = []) :
    (uart_write s chr offset value size).rxbufreadidx = 0 ∧
    (uart_write s chr offset value size).rxbufwriteidx = 0 ∧
    asclin_buffer_used (uart_write s chr offset value size) = 0 ∧
    ((uart_write s chr offset value size).regs FLAGS).testBit 28 = false ∧
    ((uart_write s chr offset value size).regs FLAGS).testBit 31 = true ∧
    (uart_read (uart_write s chr offset value size) 72 rsize).1.rxbufreadidx = 0 ∧
    (size = 4 → offset % 4 = 0 → uart_write_value s offset value size = value % 2 ^ 64) := by
  have hf := uart_update_irq_fields
    (uart_write_switch s chr 4 (uart_write_value s offset value size))
  have he := asclin_buffer_reset_empty
    { s with
      regs := Function.update s.regs RXFIFOCON (uart_write_value s offset value size % 2 ^ 32) }
  have hs : uart_write_switch s chr 4 (uart_write_value s offset value size) =
      asclin_buffer_reset
        { s with
          regs := Function.update s.regs RXFIFOCON
            (uart_write_value s offset value size % 2 ^ 32) } :=
    uart_write_switch_flush s chr _ hflush hquiet
  have hr : (uart_write s chr offset value size).rxbufreadidx = 0 := by
    rw [uart_write_at s chr offset value size 4 hoff, hf.2.1, hs]; exact he.1
  have hw : (uart_write s chr offset value size).rxbufwriteidx = 0 := by
    rw [uart_write_at s chr offset value size 4 hoff, hf.2.2, hs]; exact he.2.1
  have hfl : (uart_write s chr offset value size).regs FLAGS =
      (asclin_buffer_reset
        { s with
          regs := Function.update s.regs RXFIFOCON
            (uart_write_value s offset value size % 2 ^ 32) }).regs FLAGS := by
    rw [uart_write_at s chr offset value size 4 hoff, hf.1, hs]
  refine ⟨hr, hw, ?_, ?_, ?_, ?_, ?_⟩
  · unfold asclin_buffer_used
    rw [hr, hw]
    decide
  · rw [hfl]; exact he.2.2.1
  · rw [hfl]; exact he.2.2.2
  · rw [uart_read_at_rxdata _ 72 rsize (by decide), if_neg (by rw [hr, hw]; simp)]
    rw [(uart_update_flags_cursors _).1]
    exact hr
  · intro h4 h0
    subst h4
    have h3 : offset &&& 0x3 = 0 := by
      have := Nat.and_pow_two_sub_one_eq_mod offset 2
      simpa [h0] using this
    simp [uart_write_value, h3]

theorem uart_write_flush_empties_witness :
    ((uart_write asclin_three_buffered ⟨1, 0, [[0x41]]⟩ 0x10 0x1 4).rxbufreadidx = 0 ∧
      (uart_write asclin_three_buffered ⟨1, 0, [[0x41]]⟩ 0x10 0x1 4).rxbufwriteidx = 0 ∧
      ((uart_write asclin_three_buffered ⟨1, 0, [[0x41]]⟩ 0x10 0x1 4).regs FLAGS).testBit 28
        = false) ∧
    ((uart_write asclin_three_buffered ⟨1, 0, []⟩ 0x10 0x3 4).rxbufreadidx = 0 ∧
      (uart_write asclin_three_buffered ⟨1, 0, []⟩ 0x10 0x3 4).rxbufwriteidx = 0 ∧
      ((uart_write asclin_three_buffered ⟨1, 0, []⟩ 0x10 0x3 4).regs FLAGS).testBit 28
        = false) :=
  have h1 := uart_write_flush_empties asclin_three_buffered ⟨1, 0, [[0x41]]⟩ 0x10 0x1 4 4
    (by decide) (by decide) (Or.inl (by decide))
  have h2 := uart_write_flush_empties asclin_three_buffered ⟨1, 0, []⟩ 0x10 0x3 4 4
    (by decide) (by decide) (Or.inr rfl)
  ⟨⟨h1.1, h1.2.1, h1.2.2.2.1⟩, ⟨h2.1, h2.2.1, h2.2.2.2.1⟩⟩


theorem uart_update_flags_regs_other (s : TriCoreASCLINState) (r : Nat) (hr : r ≠ FLAGS) :
    (uart_update_flags s).regs r = s.regs r := by
  unfold uart_update_flags
  rw [(uart_update_irq_fields _).1]
  dsimp only
  split_ifs <;> simp [Function.update_noteq hr]

theorem uart_rx_loop_regs (buf : List Nat) (n : Nat) (s : TriCoreASCLINState) :
    (uart_rx_loop s buf n).regs = s.regs := by
  induction n generalizing s with
  | zero => rfl
  | succ k ih =>
    simp only [uart_rx_loop]
    split_ifs
    · rfl
    · exact ih _

theorem uart_accept_input_regs_other (s : TriCoreASCLINState) (chr : CharBackend) (r : Nat)
    (hr : r ≠ FLAGS) : (uart_accept_input s chr).regs r = s.regs r := by
  unfold uart_accept_input
  generalize chr.accept_input = l
  induction l generalizing s with
  | nil => rfl
  | cons b bs ih =>
    simp only [List.foldl_cons]
    rw [ih]
    unfold uart_rx
    rw [uart_update_flags_regs_other _ _ hr, uart_rx_loop_regs]

theorem uart_write_switch_stores (s : TriCoreASCLINState) (chr : CharBackend) (reg value : Nat)
    (hreg : reg = CLC ∨ reg = IOCR ∨ reg = ID ∨ reg = TXFIFOCON ∨ reg = RXFIFOCON ∨
      reg = FLAGS ∨ reg = FLAGSENABLE ∨ reg = RXDATA ∨ reg = CSR ∨ reg = 0x60 / 4) :
    (uart_write_switch s chr reg value).regs reg = value % 2 ^ 32 := by
  rcases hreg with h | h | h | h | h | h | h | h | h | h <;> subst h
  · unfold uart_write_switch; rw [if_pos (by decide)]; simp only [Function.update_same]
  · unfold uart_write_switch; rw [if_pos (by decide)]; simp only [Function.update_same]
  · unfold uart_write_switch; rw [if_pos (by decide)]; simp only [Function.update_same]
  · unfold uart_write_switch; rw [if_pos (by decide)]; simp only [Function.update_same]
  · unfold uart_write_switch
    rw [if_neg (by decide), if_pos rfl]
    dsimp only
    have hreset : ∀ t : TriCoreASCLINState,
        (asclin_buffer_reset t).regs RXFIFOCON = t.regs RXFIFOCON := by
      intro t
      unfold asclin_buffer_reset
      rw [uart_update_flags_regs_other _ _ (by decide)]
    by_cases cf : (value &&& MASK_RXFIFOCON_FLUSH) >>> 0 ≠ 0
    · rw [if_pos cf]
      by_cases ce : (value &&& MASK_RXFIFOCON_ENI) >>> 1 ≠ 0
      · rw [if_pos ce, uart_accept_input_regs_other _ _ _ (by decide), hreset]
        simp only [Function.update_same]
      · rw [if_neg ce, hreset]
        simp only [Function.update_same]
    · rw [if_neg cf]
      by_cases ce : (value &&& MASK_RXFIFOCON_ENI) >>> 1 ≠ 0
      · rw [if_pos ce, uart_accept_input_regs_other _ _ _ (by decide)]
        simp only [Function.update_same]
      · rw [if_neg ce]
        simp only [Function.update_same]
  · unfold uart_write_switch
    rw [if_neg (by decide), if_neg (by decide), if_neg (by decide), if_neg (by decide),
      if_neg (by decide), if_pos rfl]
    simp only [Function.update_same]
  · unfold uart_write_switch
    rw [if_neg (by decide), if_neg (by decide), if_neg (by decide), if_neg (by decide),
      if_neg (by decide), if_neg (by decide), if_neg (by decide), if_neg (by decide),
      if_pos rfl]
    simp only [Function.update_same]
  · unfold uart_write_switch
    rw [if_neg (by decide), if_neg (by decide), if_neg (by decide), if_neg (by decide),
      if_neg (by decide), if_neg (by decide), if_neg (by decide), if_neg (by decide),
      if_neg (by decide), if_neg (by decide), if_pos (by decide)]
    simp only [Function.update_same]
  · unfold uart_write_switch
    rw [if_neg (by decide), if_neg (by decide), if_neg (by decide), if_neg (by decide),
      if_neg (by decide), if_neg (by decide), if_neg (by decide), if_neg (by decide),
      if_neg (by decide), if_neg (by decide), if_pos (by decide)]
    simp only [Function.update_same]
  · unfold uart_write_switch
    rw [if_neg (by decide), if_neg (by decide), if_neg (by decide), if_neg (by decide),
      if_neg (by decide), if_neg (by decide), if_neg (by decide), if_neg (by decide),
      if_neg (by decide), if_neg (by decide), if_neg (by decide), if_neg (by decide),
      if_pos (by decide)]
    simp only [Function.update_same]

theorem uart_write_value_byte (s : TriCoreASCLINState) (reg k b : Nat) (hk : k < 4) :
    uart_write_value s (4 * reg + k) b 1 =
      (b <<< (k * 8)) % 2 ^ 64 ||| (s.regs reg &&& not32 (0xFF <<< (k * 8))) := by
  have ha : (4 * reg + k) >>> 2 = reg := by
    rw [Nat.shiftRight_eq_div_pow]; omega
  have hb : (4 * reg + k) &&& 3 = k := by
    have := Nat.and_pow_two_sub_one_eq_mod (4 * reg + k) 2
    have h4 : (4 * reg + k) % 2 ^ 2 = k := by omega
    rw [h4] at this
    exact this
  unfold uart_write_value
  simp only [ha, hb, if_true, if_neg (show ¬ (1 = 2) by decide)]

theorem testBit_byte_high (b j : Nat) (hb : b < 256) (hj : ¬ j < 8) : b.testBit j = false :=
  Nat.testBit_lt_two_pow (lt_of_lt_of_le hb
    (Nat.pow_le_pow_right (show 0 < 2 by decide) (show 8 ≤ j by omega)))

theorem byte_lane_merge_bits (old b k i : Nat) (hk : k < 4) (hb : b < 256)
    (hold : old < 2 ^ 32) :
    (((b <<< (k * 8)) % 2 ^ 64 ||| (old &&& not32 (0xFF <<< (k * 8)))) % 2 ^ 32).testBit i =
      if 8 * k ≤ i ∧ i < 8 * k + 8 then b.testBit (i - 8 * k) else old.testBit i := by
  have hFF : (0xFF : Nat) = 2 ^ 8 - 1 := by decide
  rw [Nat.testBit_mod_two_pow, Nat.testBit_or, Nat.testBit_mod_two_pow, Nat.testBit_shiftLeft,
    Nat.testBit_and, testBit_not32, Nat.testBit_shiftLeft, hFF, Nat.testBit_two_pow_sub_one]
  have e : i - k * 8 = i - 8 * k := by omega
  rw [e]
  by_cases h1 : 8 * k ≤ i
  · by_cases h2 : i < 8 * k + 8
    · have a1 : i < 32 := by omega
      have a2 : i < 64 := by omega
      have a3 : i ≥ k * 8 := by omega
      have a4 : i - 8 * k < 8 := by omega
      simp [h1, h2, a1, a2, a3, a4]
    · have a3 : i ≥ k * 8 := by omega
      have a4 : ¬ i - 8 * k < 8 := by omega
      have hz := testBit_byte_high b (i - 8 * k) hb a4
      by_cases a1 : i < 32
      · simp [h2, a1, a3, a4, hz]
      · have ho := testBit_of_lt_two_pow_32 old i hold a1
        simp [h2, a1, a3, a4, hz, ho]
  · have a3 : ¬ i ≥ k * 8 := by omega
    have a1 : i < 32 := by omega
    simp [h1, a1, a3]

/-- C21: for every UART register that stores its written value (CLC, IOCR,
ID, TXFIFOCON, RXFIFOCON, FLAGS, FLAGSENABLE, RXDATA, CSR and the block-length
word 0x60), every lane k from 0 to 3 and every byte b, a 1-byte write of b to
byte offset k of the word sets bits 8k to 8k+7 of the word to b and leaves
every other bit of the word as it was; with k = 1 these are bits 8-15, and
bits 0-7 and 16-31 are unchanged. -/
theorem uart_write_byte_lane (s : TriCoreASCLINState) (chr : CharBackend) (reg k b : Nat)
    (hreg : reg = CLC ∨ reg = IOCR ∨ reg = ID ∨ reg = TXFIFOCON ∨ reg = RXFIFOCON ∨
      reg = FLAGS ∨ reg = FLAGSENABLE ∨ reg = RXDATA ∨ reg = CSR ∨ reg = 0x60 / 4)
    (hk : k < 4) (hb : b < 256) (hold : s.regs reg < 2 ^ 32) :
    ∀ i, ((uart_write s chr (4 * reg + k) b 1).regs reg).testBit i =
      if 8 * k ≤ i ∧ i < 8 * k + 8 then b.testBit (i - 8 * k) else (s.regs reg).testBit i := by
  intro i
  rw [uart_write_at s chr (4 * reg + k) b 1 reg (by omega), (uart_update_irq_fields _).1,
    uart_write_switch_stores s chr reg _ hreg, uart_write_value_byte s reg k b hk]
  exact byte_lane_merge_bits (s.regs reg) b k i hk hb hold

theorem uart_write_byte_lane_witness :
    ((uart_write asclin_three_buffered ⟨1, 0, []⟩ (4 * FLAGSENABLE + 1) 0xA5 1).regs
      FLAGSENABLE).testBit 8 = true ∧
    ((uart_write asclin_three_buffered ⟨1, 0, []⟩ (4 * FLAGS + 1) 0xA5 1).regs
      FLAGS).testBit 31 = true :=
  ⟨(uart_write_byte_lane asclin_three_buffered ⟨1, 0, []⟩ FLAGSENABLE 1 0xA5
      (by decide) (by decide) (by decide) (by decide) 8).trans (by decide),
    (uart_write_byte_lane asclin_three_buffered ⟨1, 0, []⟩ FLAGS 1 0xA5
      (by decide) (by decide) (by decide) (by decide) 31).trans (by decide)⟩


/-! ## Theorems: clock unit register window -/

theorem memcpy_word_full (old value : Nat) : memcpy_word old value 0 4 = some (value % 2 ^ 32) := by
  simp [memcpy_word, not32]

theorem scu_clear_up_bit (x : Nat) : (x &&& not32 MASK_CCUCON0_UP).testBit 30 = false := by
  rw [show MASK_CCUCON0_UP = 1 <<< 30 from by decide, testBit_clear_bit]
  simp

theorem scu_clear_up_other (x i : Nat) (hi : i < 32) (h30 : i ≠ 30) :
    (x &&& not32 MASK_CCUCON0_UP).testBit i = x.testBit i := by
  rw [show MASK_CCUCON0_UP = 1 <<< 30 from by decide, testBit_clear_bit]
  have h : ¬ 30 = i := fun h => h30 h.symm
  simp [hi, h]

theorem scu_up_clear_of_and_eq_zero (x : Nat) (h : ¬ x &&& MASK_CCUCON0_UP ≠ 0) :
    x.testBit 30 = false := by
  by_contra hb
  exact h ((and_one_shiftLeft_ne_zero x 30).2 (by simpa using hb))

theorem scu_establish_CCUCON (s : TriCoreSCUState)
    (h : s.CCUCON 0 &&& MASK_CCUCON0_UP ≠ 0 ∨ s.CCUCON 1 &&& MASK_CCUCON1_UP ≠ 0
      ∨ s.CCUCON 5 &&& MASK_CCUCON5_UP ≠ 0) (k : Nat) :
    (tricore_scu_establish_configuration s).CCUCON k =
      if k = 0 ∨ k = 1 ∨ k = 5 then s.CCUCON k &&& not32 MASK_CCUCON0_UP else s.CCUCON k := by
  unfold tricore_scu_establish_configuration
  rw [if_pos h]
  have e1 : MASK_CCUCON1_UP = MASK_CCUCON0_UP := rfl
  have e5 : MASK_CCUCON5_UP = MASK_CCUCON0_UP := rfl
  rw [e1, e5]
  by_cases k5 : k = 5
  · subst k5
    simp [Function.update]
  · by_cases k1 : k = 1
    · subst k1
      simp [Function.update]
    · by_cases k0 : k = 0
      · subst k0
        simp [Function.update]
      · simp [Function.update, k5, k1, k0]

theorem scu_establish_latch (s : TriCoreSCUState) :
    ((tricore_scu_establish_configuration s).CCUCON 0).testBit 30 = false ∧
    ((tricore_scu_establish_configuration s).CCUCON 1).testBit 30 = false ∧
    ((tricore_scu_establish_configuration s).CCUCON 5).testBit 30 = false ∧
    ∀ k i, i < 32 → i ≠ 30 →
      ((tricore_scu_establish_configuration s).CCUCON k).testBit i = (s.CCUCON k).testBit i := by
  by_cases h : s.CCUCON 0 &&& MASK_CCUCON0_UP ≠ 0 ∨ s.CCUCON 1 &&& MASK_CCUCON1_UP ≠ 0
      ∨ s.CCUCON 5 &&& MASK_CCUCON5_UP ≠ 0
  · refine ⟨?_, ?_, ?_, ?_⟩
    · rw [scu_establish_CCUCON s h 0, if_pos (by decide)]
      exact scu_clear_up_bit _
    · rw [scu_establish_CCUCON s h 1, if_pos (by decide)]
      exact scu_clear_up_bit _
    · rw [scu_establish_CCUCON s h 5, if_pos (by decide)]
      exact scu_clear_up_bit _
    · intro k i hi h30
      rw [scu_establish_CCUCON s h k]
      by_cases hk : k = 0 ∨ k = 1 ∨ k = 5
      · rw [if_pos hk]
        exact scu_clear_up_other _ _ hi h30
      · rw [if_neg hk]
  · unfold tricore_scu_establish_configuration
    rw [if_neg h]
    have e1 : MASK_CCUCON1_UP = MASK_CCUCON0_UP := rfl
    have e5 : MASK_CCUCON5_UP = MASK_CCUCON0_UP := rfl
    rw [e1, e5] at h
    refine ⟨?_, ?_, ?_, fun _ _ _ _ => rfl⟩
    · exact scu_up_clear_of_and_eq_zero _ (fun hc => h (Or.inl hc))
    · exact scu_up_clear_of_and_eq_zero _ (fun hc => h (Or.inr (Or.inl hc)))
    · exact scu_up_clear_of_and_eq_zero _ (fun hc => h (Or.inr (Or.inr hc)))

theorem scu_update_mode_CCUCON (s : TriCoreSCUState) :
    (tricore_scu_update_mode s).1.CCUCON = s.CCUCON := by
  unfold tricore_scu_update_mode
  split_ifs <;> rfl

theorem scu_write_switch_ccucon0 (s : TriCoreSCUState) (value : Nat) :
    scu_write_switch s 0x30 value 4 =
      some (scu_raise_lock (tricore_scu_establish_configuration
        { s with CCUCON := Function.update s.CCUCON 0 (value % 2 ^ 32) })) := by
  have e : (0x30 : Nat) &&& 3 = 0 := by decide
  simp [scu_write_switch, scu_memcpy, scu_block_get, scu_block_set, memcpy_word_full, e]

theorem scu_write_switch_ccucon1 (s : TriCoreSCUState) (value : Nat) :
    scu_write_switch s 0x34 value 4 =
      some (scu_raise_lock (tricore_scu_establish_configuration
        { s with CCUCON := Function.update s.CCUCON 1 (value % 2 ^ 32) })) := by
  have e : (0x34 : Nat) &&& 3 = 0 := by decide
  simp [scu_write_switch, scu_memcpy, scu_block_get, scu_block_set, memcpy_word_full, e]

theorem scu_write_switch_ccucon5 (s : TriCoreSCUState) (value : Nat) :
    scu_write_switch s 0x4C value 4 =
      some (scu_raise_lock (tricore_scu_establish_configuration
        { s with CCUCON := Function.update s.CCUCON 5 (value % 2 ^ 32) })) := by
  have e : (0x4C : Nat) &&& 3 = 0 := by decide
  simp [scu_write_switch, scu_memcpy, scu_block_get, scu_block_set, memcpy_word_full, e]

theorem scu_write_ccucon_word (s : TriCoreSCUState) (offset k value : Nat)
    (hreg : (offset = 0x30 ∧ k = 0) ∨ (offset = 0x34 ∧ k = 1) ∨ (offset = 0x4C ∧ k = 5)) :
    tricore_scu_write s offset value 4 =
      some (tricore_scu_update_mode (scu_raise_lock (tricore_scu_establish_configuration
        { s with CCUCON := Function.update s.CCUCON k (value % 2 ^ 32) }))) := by
  unfold tricore_scu_write
  rcases hreg with ⟨rfl, rfl⟩ | ⟨rfl, rfl⟩ | ⟨rfl, rfl⟩
  · rw [scu_write_switch_ccucon0]; rfl
  · rw [scu_write_switch_ccucon1]; rfl
  · rw [scu_write_switch_ccucon5]; rfl

/-- C25: a word write (four bytes) of any value to CCUCON0 (0x30), CCUCON1
(0x34) or CCUCON5 (0x4C) returns; afterwards the update latch (bit 30) is
clear in each of CCUCON0, CCUCON1 and CCUCON5, and every other bit of the
written register (bits 0 to 31 except bit 30) holds the bit of the written
value. Here `k` is the index of the written register in the CCUCON array. -/
theorem scu_write_ccucon_establishes (s : TriCoreSCUState) (offset k value : Nat)
    (hreg : (offset = 0x30 ∧ k = 0) ∨ (offset = 0x34 ∧ k = 1) ∨ (offset = 0x4C ∧ k = 5)) :
    ∃ t reports, tricore_scu_write s offset value 4 = some (t, reports) ∧
      (t.CCUCON 0).testBit 30 = false ∧ (t.CCUCON 1).testBit 30 = false ∧
      (t.CCUCON 5).testBit 30 = false ∧
      ∀ i, i < 32 → i ≠ 30 → (t.CCUCON k).testBit i = value.testBit i := by
  refine ⟨(tricore_scu_update_mode (scu_raise_lock (tricore_scu_establish_configuration
    { s with CCUCON := Function.update s.CCUCON k (value % 2 ^ 32) }))).1,
    (tricore_scu_update_mode (scu_raise_lock (tricore_scu_establish_configuration
    { s with CCUCON := Function.update s.CCUCON k (value % 2 ^ 32) }))).2,
    scu_write_ccucon_word s offset k value hreg, ?_⟩
  rw [scu_update_mode_CCUCON]
  obtain ⟨h0, h1, h5, hother⟩ := scu_establish_latch
    { s with CCUCON := Function.update s.CCUCON k (value % 2 ^ 32) }
  refine ⟨h0, h1, h5, ?_⟩
  intro i hi h30
  have := hother k i hi h30
  simp only [scu_raise_lock]
  rw [this]
  simp only [Function.update_same]
  rw [Nat.testBit_mod_two_pow]
  simp [hi]

theorem scu_write_ccucon_establishes_witness :
    ∃ t reports, tricore_scu_write tricore_scu_init 0x34 0x50000100 4 = some (t, reports) ∧
      (t.CCUCON 0).testBit 30 = false ∧ (t.CCUCON 1).testBit 30 = false ∧
      (t.CCUCON 5).testBit 30 = false ∧
      ∀ i, i < 32 → i ≠ 30 → (t.CCUCON 1).testBit i = (0x50000100 : Nat).testBit i :=
  scu_write_ccucon_establishes tricore_scu_init 0x34 1 0x50000100 (by decide)


/-! ## Theorems: clock modes and derived clocks on states a guest reaches -/

/-- C26: evaluation of `tricore_scu_get_fPLL` after the guest requested
free-running mode on the external oscillator (`scu_freerun_writes` applied to
the state after `tricore_scu_init`). In the state reached PLLSTAT is 0x3C: the
bypass status (bit 0) is clear and FINDIS (bit 3) is set, and INSEL selects
the external oscillator; the query takes the Normal branch and returns
125000000 (100 * 20 MHz / 16) with no diagnostic, not 0 with the
free-running diagnostic. -/
theorem scu_fPLL_freerunning_taken_as_normal :
    (scu_writes tricore_scu_init scu_freerun_writes).map
        (fun t => (t.PLLSTAT, t.PLLSTAT &&& MASK_PLLSTAT_VCOBYST,
          (t.PLLSTAT &&& MASK_PLLSTAT_FINDIS) >>> 3, t.CCUCON 1 &&& MASK_CCUCON1_INSEL,
          tricore_scu_get_fPLL t)) =
      some (0x3C, 0x0, 0x1, MASK_CCUCON1_INSEL_OSC0, (some 125000000, [])) := by
  rfl

/-- C27: evaluation of the three derived-clock queries after the guest wrote
the word 0 to CCUCON0 and to CCUCON1 (`scu_zero_divider_writes` applied to the
state after `tricore_scu_init`). The divider fields STMDIV, SPBDIV and SRIDIV
read 0, no diagnostic is emitted for them, and each of
`tricore_scu_get_stmclock`, `tricore_scu_get_spbclock` and
`tricore_scu_get_sri_clock` divides the PLL frequency (100 MHz, back-up clock)
by zero: none has a value. -/
theorem scu_derived_clock_zero_divider :
    (scu_writes tricore_scu_init scu_zero_divider_writes).map
        (fun t => (tricore_scu_get_fPLL t,
          tricore_scu_get_stmdiv t, tricore_scu_get_spbdiv t, tricore_scu_get_sridiv t,
          (tricore_scu_get_stmclock t).1, (tricore_scu_get_spbclock t).1,
          (tricore_scu_get_sri_clock t).1)) =
      some ((some 100000000, []), (0, []), (0, []), (0, []), none, none, none) := by
  rfl

/-- C28: evaluation of a read of the tap register TIM0 (offset 0x10, four
bytes) at host time 1000 ns on two clock states a guest reaches from
`tricore_scu_init`. With the reserved clock input selected
(`scu_unknown_input_writes`) the clock unit reports 0 Hz; with the PLL at
128 * 20 MHz (`scu_fast_pll_writes`) it reports 2560000000 Hz, whose tick
length `1000000000 / freq_hz` is 0. In both the read divides by zero and
returns no value. -/
theorem stm_read_tap_divides_by_zero :
    (scu_writes tricore_scu_init scu_unknown_input_writes).map
        (fun scu => ((tricore_scu_get_stmclock scu).1,
          (tricore_stm_read stm_disabled scu 1000 0x10 4).isSome)) =
      some (some 0, false) ∧
    (scu_writes tricore_scu_init scu_fast_pll_writes).map
        (fun scu => ((tricore_scu_get_stmclock scu).1,
          (tricore_stm_read stm_disabled scu 1000 0x10 4).isSome)) =
      some (some 2560000000, false) := by
  constructor <;> decide


/-! ## Theorems: narrow writes and register round trips -/

/-- C32: evaluation of a 1-byte write of 0x01 to address 0x35 (byte offset 1
of CCUCON1, the byte holding STMDIV) on the state after `tricore_scu_init`.
The write adds `offset & 3` to a word pointer, so the byte lands in the low
byte of CCUCON2: CCUCON1 keeps 0x00002211 (bits 8 to 15 still 0x22) and
CCUCON2 changes from 0x00000002 to 0x00000001. Likewise a 1-byte write of 0xAB
to address 0x1D (byte offset 1 of PLLCON1) leaves PLLCON1 at 0x0002020F and
puts 0xAB in PLLCON2, and a 1-byte write to address 0x101 (byte offset 1 of
WDTCPU0CON0, the last field) has its destination past the structure. -/
theorem scu_write_narrow_hits_next_word :
    (tricore_scu_write tricore_scu_init 0x35 0x01 1).map
        (fun r => (r.1.CCUCON 1, r.1.CCUCON 2)) = some (0x00002211, 0x00000001) ∧
    (tricore_scu_init.CCUCON 1, tricore_scu_init.CCUCON 2) = (0x00002211, 0x00000002) ∧
    (tricore_scu_write tricore_scu_init 0x1D 0xAB 1).map
        (fun r => (r.1.PLLCON 1, r.1.PLLCON 2)) = some (0x0002020F, 0x000000AB) ∧
    (tricore_scu_write tricore_scu_init 0x101 0xAB 1).isNone = true := by
  refine ⟨rfl, rfl, rfl, rfl⟩

set_option maxRecDepth 100000 in
/-- C35: evaluation of two configuration writes. On `irbus_pending_disabled`
(source 10 pending, not enabled, line lowered) the 2-byte write of 0x0405 to
offset 0x84 enables the source: the register becomes 0x01000405, but the line
stays lowered and ICR stays 0, where `irq_evaluate` on the same registers
raises the line and puts priority 5 in ICR.PIPN. On the state after source 10
of `irbus_configured` was raised (line raised) the 2-byte write of 0x0005
disables the source: the register becomes 0x01000005 and the line stays
raised, where `irq_evaluate` lowers it. -/
theorem irbus_write_keeps_line :
    (tricore_irbus_srvcontrolregs_write irbus_pending_disabled 0x84 0x0405 2).map
        (fun r => (r.1.src_control_reg 10, r.1.parent_irq, r.1.ICR,
          (irq_evaluate r.1).parent_irq, (irq_evaluate r.1).ICR)) =
      some (0x01000405, false, 0, true, 0x00050000) ∧
    ((irq_handler irbus_configured 10 1).src_control_reg 10,
      (irq_handler irbus_configured 10 1).parent_irq) = (0x01000405, true) ∧
    (tricore_irbus_srvcontrolregs_write (irq_handler irbus_configured 10 1) 0x84 0x0005 2).map
        (fun r => (r.1.src_control_reg 10, r.1.parent_irq, (irq_evaluate r.1).parent_irq)) =
      some (0x01000005, true, false) := by
  refine ⟨by decide, by decide, by decide⟩

/-- C36: evaluation of a word write followed by a word read of the same
offset, on the router after reset. The write of 0x00000405 to offset 0x80
(word index 0x20) is stored in source register 9 (`IR_SRC_ASCLIN0TX`); the
read of offset 0x80 returns element 0x20 of the array, which is 0. For offset
0x490 (word index 0x124) the write is stored in source register 103 and the
read indexes element 0x124 of an array of 256: it has no result. -/
theorem irbus_read_other_slot :
    (tricore_irbus_srvcontrolregs_write irbus_reset 0x80 0x00000405 4).map
        (fun r => (r.1.src_control_reg 9, r.1.src_control_reg 0x20,
          tricore_irbus_srvcontrolregs_read r.1 0x80 4)) =
      some (0x00000405, 0, some 0) ∧
    (tricore_irbus_srvcontrolregs_write irbus_reset 0x490 0x00000405 4).map
        (fun r => (r.1.src_control_reg 103, tricore_irbus_srvcontrolregs_read r.1 0x490 4)) =
      some (0x00000405, none) := by
  refine ⟨by decide, by decide⟩

/-- C40: evaluation of a 1-byte write of 0xAB at byte offset 1 of word 0x40
(offset 0x101) of the zero register file, followed by a 1-byte read at the
same offset. The write stores 0x0000AB00; the read shifts the stored word left
by 8 and keeps the low byte, so it returns 0, not 0xAB. The same write and
read at byte offset 0 (offset 0x100) return 0xAB, and a word write of
0x12345678 followed by a word read at offset 0x100 returns 0x12345678. -/
theorem sfr_byte_read_shifts_left :
    (tricore_sfr_write sfr_zero 0x101 0xAB 1).regs 0x40 = 0x0000AB00 ∧
    tricore_sfr_read (tricore_sfr_write sfr_zero 0x101 0xAB 1) 0x101 1 = 0 ∧
    tricore_sfr_read (tricore_sfr_write sfr_zero 0x100 0xAB 1) 0x100 1 = 0xAB ∧
    tricore_sfr_read (tricore_sfr_write sfr_zero 0x100 0x12345678 4) 0x100 4 = 0x12345678 := by
  refine ⟨by decide, by decide, by decide, by decide⟩


/-! ## Theorems: back-up clock, stored words, flag set and clear -/

theorem insel_backup (x : Nat) (hsel : reg_field x 28 2 = 0) :
    x &&& MASK_CCUCON1_INSEL = MASK_CCUCON1_INSEL_BACKUP := by
  have hm : MASK_CCUCON1_INSEL = (2 ^ 2 - 1) <<< 28 := by decide
  rw [hm, and_mask_eq, hsel]
  decide

theorem scu_get_fPLL_backup (s : TriCoreSCUState) (hsel : reg_field (s.CCUCON 1) 28 2 = 0) :
    tricore_scu_get_fPLL s = (some 100000000, []) := by
  have h := insel_backup (s.CCUCON 1) hsel
  unfold tricore_scu_get_fPLL tricore_scu_get_fOsc
  rw [if_pos h]
  simp only [if_pos h]
  rfl

/-- C38: whenever the input-select field CCUCON1.INSEL (bits 28 and 29) is 0,
`tricore_scu_get_fPLL` returns 100,000,000 with no diagnostic, whatever
PLLSTAT, OSCCON and the PLL divider fields hold; after `tricore_scu_reset`
CCUCON1 is 0x00002211 and `tricore_scu_get_stmclock` returns 50,000,000. -/
theorem scu_backup_clock_bypass (s s0 : TriCoreSCUState)
    (hsel : reg_field (s.CCUCON 1) 28 2 = 0) :
    tricore_scu_get_fPLL s = (some 100000000, []) ∧
    (tricore_scu_reset s0).CCUCON 1 = 0x00002211 ∧
    tricore_scu_get_stmclock (tricore_scu_reset s0) = (some 50000000, []) := by
  have hc : (tricore_scu_reset s0).CCUCON 1 = 0x00002211 := rfl
  have hf := scu_get_fPLL_backup (tricore_scu_reset s0) (by rw [hc]; decide)
  refine ⟨scu_get_fPLL_backup s hsel, hc, ?_⟩
  unfold tricore_scu_get_stmclock tricore_scu_get_stmdiv
  rw [hf, hc]
  rfl

theorem scu_backup_clock_bypass_witness :
    tricore_scu_get_fPLL scu_prescaler_backup = (some 100000000, []) ∧
    (tricore_scu_reset scu_normal).CCUCON 1 = 0x00002211 ∧
    tricore_scu_get_stmclock (tricore_scu_reset scu_normal) = (some 50000000, []) :=
  scu_backup_clock_bypass scu_prescaler_backup scu_normal (by decide)

theorem mul_four_shiftRight (r : Nat) : (4 * r) >>> 2 = r := by
  rw [Nat.shiftRight_eq_div_pow]
  exact Nat.mul_div_cancel_left r (by decide)

theorem uart_write_value_word (s : TriCoreASCLINState) (offset v : Nat) (h : offset % 4 = 0) :
    uart_write_value s offset v 4 = v % 2 ^ 64 := by
  have h3 : offset &&& 0x3 = 0 := by
    have := Nat.and_pow_two_sub_one_eq_mod offset 2
    simpa [h] using this
  simp [uart_write_value, h3]

theorem uart_write_switch_flagsset (s : TriCoreASCLINState) (chr : CharBackend) (value : Nat) :
    uart_write_switch s chr FLAGSSET value =
      { s with regs := Function.update s.regs FLAGS (s.regs FLAGS ||| value % 2 ^ 32) } := by
  unfold uart_write_switch
  rw [if_neg (by decide), if_neg (by decide), if_neg (by decide), if_neg (by decide),
    if_neg (by decide), if_neg (by decide), if_pos rfl]

theorem uart_write_switch_flagsclear (s : TriCoreASCLINState) (chr : CharBackend) (value : Nat) :
    uart_write_switch s chr FLAGSCLEAR value =
      { s with regs := Function.update s.regs FLAGS (s.regs FLAGS &&& not32 value) } := by
  unfold uart_write_switch
  rw [if_neg (by decide), if_neg (by decide), if_neg (by decide), if_neg (by decide),
    if_neg (by decide), if_neg (by decide), if_neg (by decide), if_pos rfl]

theorem uart_read_flagsset_flagsclear (s : TriCoreASCLINState) (offset size : Nat)
    (h : offset / 4 = FLAGSSET ∨ offset / 4 = FLAGSCLEAR) :
    (uart_read s offset size).2 = 0 := by
  have ha : offset >>> 2 = offset / 4 := by rw [Nat.shiftRight_eq_div_pow]
  have key : ∀ n, n ≤ 13 ∨ n = 16 → ¬ offset / 4 = n := by
    intro n hn
    have e14 : FLAGSSET = 14 := rfl
    have e15 : FLAGSCLEAR = 15 := rfl
    rw [e14, e15] at h
    omega
  have c1 : ¬ (offset / 4 = CLC ∨ offset / 4 = IOCR ∨ offset / 4 = ID ∨ offset / 4 = TXFIFOCON ∨
      offset / 4 = RXFIFOCON ∨ offset / 4 = BITCON ∨ offset / 4 = FRAMECON ∨
      offset / 4 = DATCON ∨ offset / 4 = BRG ∨ offset / 4 = BRD ∨ offset / 4 = LINCON ∨
      offset / 4 = LINBTIMER ∨ offset / 4 = LINHTIMER ∨ offset / 4 = FLAGSENABLE ∨
      offset / 4 = FLAGS) := by
    rintro (hc | hc | hc | hc | hc | hc | hc | hc | hc | hc | hc | hc | hc | hc | hc) <;>
      exact key _ (by decide) hc
  unfold uart_read
  simp only [ha]
  rw [if_neg c1, if_pos h]

/-- C33: for every UART state with FLAGS value f and every written word v, a
word write of v to FLAGSSET (offset 0x38) leaves FLAGS = f OR v, and a word
write of v to FLAGSCLEAR (offset 0x3C) leaves FLAGS = f AND NOT v (bit i of
the result is bit i of f and not bit i of v); in both cases a bit where v is 0
keeps its value; and a read of FLAGSSET or FLAGSCLEAR (word index 14 or 15,
any byte offset and size) returns 0. -/
theorem uart_write_flags_set_clear (s : TriCoreASCLINState) (chr : CharBackend)
    (v offset size : Nat) (hv : v < 2 ^ 32) (hf : s.regs FLAGS < 2 ^ 32)
    (hoff : offset / 4 = FLAGSSET ∨ offset / 4 = FLAGSCLEAR) :
    (uart_write s chr 0x38 v 4).regs FLAGS = s.regs FLAGS ||| v ∧
    (∀ i, ((uart_write s chr 0x3C v 4).regs FLAGS).testBit i =
      ((s.regs FLAGS).testBit i && !v.testBit i)) ∧
    (∀ i, v.testBit i = false →
      ((uart_write s chr 0x38 v 4).regs FLAGS).testBit i = (s.regs FLAGS).testBit i ∧
      ((uart_write s chr 0x3C v 4).regs FLAGS).testBit i = (s.regs FLAGS).testBit i) ∧
    (uart_read s offset size).2 = 0 := by
  have hv64 : v % 2 ^ 64 = v := Nat.mod_eq_of_lt (lt_trans hv (by decide))
  have hv32 : v % 2 ^ 32 = v := Nat.mod_eq_of_lt hv
  have hset : (uart_write s chr 0x38 v 4).regs FLAGS = s.regs FLAGS ||| v := by
    rw [uart_write_at s chr 0x38 v 4 FLAGSSET (by decide), (uart_update_irq_fields _).1,
      uart_write_value_word s 0x38 v (by decide), hv64, uart_write_switch_flagsset, hv32]
    simp only [Function.update_same]
  have hclr : ∀ i, ((uart_write s chr 0x3C v 4).regs FLAGS).testBit i =
      ((s.regs FLAGS).testBit i && !v.testBit i) := by
    intro i
    rw [uart_write_at s chr 0x3C v 4 FLAGSCLEAR (by decide), (uart_update_irq_fields _).1,
      uart_write_value_word s 0x3C v (by decide), hv64, uart_write_switch_flagsclear]
    simp only [Function.update_same]
    rw [Nat.testBit_and, testBit_not32]
    by_cases h32 : i < 32
    · simp [h32]
    · have : (s.regs FLAGS).testBit i = false := testBit_of_lt_two_pow_32 _ i hf h32
      simp [this]
  refine ⟨hset, hclr, ?_, uart_read_flagsset_flagsclear s offset size hoff⟩
  intro i hi
  constructor
  · rw [hset, Nat.testBit_or, hi]
    simp
  · rw [hclr i, hi]
    simp

theorem uart_write_flags_set_clear_witness :
    (uart_write asclin_three_buffered ⟨1, 0, []⟩ 0x38 0x00020001 4).regs FLAGS =
      asclin_three_buffered.regs FLAGS ||| 0x00020001 ∧
    (∀ i, ((uart_write asclin_three_buffered ⟨1, 0, []⟩ 0x3C 0x00020001 4).regs FLAGS).testBit i =
      ((asclin_three_buffered.regs FLAGS).testBit i && !(0x00020001 : Nat).testBit i)) ∧
    (∀ i, (0x00020001 : Nat).testBit i = false →
      ((uart_write asclin_three_buffered ⟨1, 0, []⟩ 0x38 0x00020001 4).regs FLAGS).testBit i =
        (asclin_three_buffered.regs FLAGS).testBit i ∧
      ((uart_write asclin_three_buffered ⟨1, 0, []⟩ 0x3C 0x00020001 4).regs FLAGS).testBit i =
        (asclin_three_buffered.regs FLAGS).testBit i) ∧
    (uart_read asclin_three_buffered 0x3A 2).2 = 0 :=
  uart_write_flags_set_clear asclin_three_buffered ⟨1, 0, []⟩ 0x00020001 0x3A 2 (by decide)
    (by decide) (by decide)


/-! ## Theorems: timer register read-back -/

theorem tricore_stm_write_plain (inexact : Nat → Nat → Nat) (s : TriCoreSTMState)
    (now reg v : Nat)
    (hreg : reg = STM.CLC ∨ reg = STM.ID ∨ reg = STM.CMP0 ∨ reg = STM.CMP1 ∨ reg = STM.ICR) :
    tricore_stm_write inexact s now (4 * reg) v 4 =
      some (tricore_stm_update_irqs
        { s with regs := Function.update s.regs reg (v % 2 ^ 64 % 2 ^ 32) }) := by
  unfold tricore_stm_write
  rw [mul_four_shiftRight, stm_write_value_word s (4 * reg) v (Nat.mul_mod_right 4 reg)]
  unfold stm_write_switch
  rcases hreg with rfl | rfl | rfl | rfl | rfl <;> rw [if_pos (by decide)] <;> rfl

theorem stm_read_unimplemented (t : TriCoreSTMState) (scu : TriCoreSCUState) (now reg F : Nat)
    (hF : (tricore_scu_get_stmclock scu).1 = some F)
    (hreg : reg = STM.CMP0 ∨ reg = STM.CMP1 ∨ reg = STM.CMCON ∨ reg = STM.ICR) :
    tricore_stm_read t scu now (4 * reg) 4 =
      some ({ t with freq_hz := F, ptimer := ptimer_set_freq t.ptimer F }, 0) := by
  unfold tricore_stm_read tricore_stm_update_freq
  rw [mul_four_shiftRight]
  simp only [hF]
  rcases hreg with rfl | rfl | rfl | rfl <;>
    rw [if_neg (by decide), if_neg (by decide), if_neg (by decide), if_neg (by decide),
      if_neg (by decide), if_neg (by decide), if_neg (by decide), if_neg (by decide),
      if_neg (by decide), if_pos (by decide)]

theorem stm_read_clc_id (t : TriCoreSTMState) (scu : TriCoreSCUState) (now reg F : Nat)
    (hF : (tricore_scu_get_stmclock scu).1 = some F) (hF0 : 0 < F) (hF1 : F ≤ 1000000000)
    (hreg : reg = STM.CLC ∨ reg = STM.ID) :
    ∃ t', tricore_stm_read t scu now (4 * reg) 4 =
      some (t', now / (1000000000 / F) % 2 ^ 32) := by
  obtain ⟨t', ht'⟩ := tricore_stm_get_tim_update
    { t with freq_hz := F, ptimer := ptimer_set_freq t.ptimer F } now 0 hF0 hF1
  refine ⟨t', ?_⟩
  have e : (stm_counter F now % 2 ^ 64) / 2 ^ 0 % 2 ^ 32 = now / (1000000000 / F) % 2 ^ 32 := by
    unfold stm_counter
    rw [Nat.pow_zero, Nat.div_one]
    exact Nat.mod_mod_of_dvd _ (Nat.pow_dvd_pow 2 (by decide))
  rw [e] at ht'
  unfold tricore_stm_read tricore_stm_update_freq
  rw [mul_four_shiftRight]
  simp only [hF]
  rcases hreg with rfl | rfl <;> rw [if_pos (by decide)] <;> exact ht'

/-- C39: evaluation of a word write followed by a word read of the same
register, with the clock unit in its reset state (50 MHz) and the timer state
`stm_armed`. The write of 9000 to CMP0 (offset 0x30) stores 9000, and the read
of offset 0x30 at host time 2000 ns returns 0; the same holds for CMP1 (0x34),
CMCON (0x38) and ICR (0x3C) with the value 1. The write of 5 to CLC (offset
0x0) stores 5 and the read of offset 0x0 returns the running counter 100; the
write of 0xC000 to ID (offset 0x8) stores 0xC000 and the read returns 100. A
register whose read case returns `regs[reg_addr]`, OCS (offset 0xE8), reads
back the written 5. -/
theorem stm_read_back_lost :
    (tricore_stm_write (fun _ _ => 0) stm_armed 2000 0x30 9000 4).bind
        (fun t => (tricore_stm_read t tricore_scu_init 2000 0x30 4).map
          (fun r => (t.regs STM.CMP0, r.2))) = some (9000, 0) ∧
    (tricore_stm_write (fun _ _ => 0) stm_armed 2000 0x34 1 4).bind
        (fun t => (tricore_stm_read t tricore_scu_init 2000 0x34 4).map
          (fun r => (t.regs STM.CMP1, r.2))) = some (1, 0) ∧
    (tricore_stm_write (fun _ _ => 0) stm_armed 2000 0x38 1 4).bind
        (fun t => (tricore_stm_read t tricore_scu_init 2000 0x38 4).map
          (fun r => (t.regs STM.CMCON, r.2))) = some (1, 0) ∧
    (tricore_stm_write (fun _ _ => 0) stm_armed 2000 0x3C 1 4).bind
        (fun t => (tricore_stm_read t tricore_scu_init 2000 0x3C 4).map
          (fun r => (t.regs STM.ICR, r.2))) = some (1, 0) ∧
    (tricore_stm_write (fun _ _ => 0) stm_armed 2000 0x0 5 4).bind
        (fun t => (tricore_stm_read t tricore_scu_init 2000 0x0 4).map
          (fun r => (t.regs STM.CLC, r.2))) = some (5, 100) ∧
    (tricore_stm_write (fun _ _ => 0) stm_armed 2000 0x8 0xC000 4).bind
        (fun t => (tricore_stm_read t tricore_scu_init 2000 0x8 4).map
          (fun r => (t.regs STM.ID, r.2))) = some (0xC000, 100) ∧
    (tricore_stm_write (fun _ _ => 0) stm_armed 2000 0xE8 5 4).bind
        (fun t => (tricore_stm_read t tricore_scu_init 2000 0xE8 4).map
          (fun r => (t.regs STM.OCS, r.2))) = some (5, 5) := by
  refine ⟨by decide, by decide, by decide, by decide, by decide, by decide, by decide⟩


/-! ## Theorems: UART cursor invariant -/

theorem cursors_ok_of_eq (s t : TriCoreASCLINState) (hr : t.rxbufreadidx = s.rxbufreadidx)
    (hw : t.rxbufwriteidx = s.rxbufwriteidx) (h : cursors_ok s) : cursors_ok t := by
  unfold cursors_ok at *
  rw [hr, hw]
  exact h

theorem cursors_ok_update_flags (s : TriCoreASCLINState) (h : cursors_ok s) :
    cursors_ok (uart_update_flags s) :=
  cursors_ok_of_eq s _ (uart_update_flags_cursors s).1 (uart_update_flags_cursors s).2.1 h

theorem cursors_ok_update_irq (s : TriCoreASCLINState) (h : cursors_ok s) :
    cursors_ok (uart_update_irq s) :=
  cursors_ok_of_eq s _ (uart_update_irq_fields s).2.1 (uart_update_irq_fields s).2.2 h

theorem cursors_ok_buffer_reset (s : TriCoreASCLINState) : cursors_ok (asclin_buffer_reset s) := by
  have h := asclin_buffer_reset_empty s
  unfold cursors_ok
  rw [h.1, h.2.1]
  exact ⟨by decide, by decide⟩

theorem cursors_ok_transmit (s : TriCoreASCLINState) (chr : CharBackend) (h : cursors_ok s) :
    cursors_ok (uart_transmit s chr) := by
  unfold uart_transmit uart_buffer_drained
  dsimp only
  split_ifs
  · exact cursors_ok_update_flags _ (cursors_ok_of_eq s _ rfl rfl h)
  · exact cursors_ok_of_eq s _ rfl rfl h
  · exact cursors_ok_update_flags _ (cursors_ok_of_eq s _ rfl rfl h)

theorem cursors_ok_transmit_block (s : TriCoreASCLINState) (chr : CharBackend) (n : Nat)
    (h : cursors_ok s) : cursors_ok (uart_transmit_block s chr n) := by
  unfold uart_transmit_block uart_buffer_drained
  dsimp only
  split_ifs
  · exact cursors_ok_update_flags _ (cursors_ok_of_eq s _ rfl rfl h)
  · exact cursors_ok_of_eq s _ rfl rfl h
  · exact cursors_ok_update_flags _ (cursors_ok_of_eq s _ rfl rfl h)

theorem cursors_ok_rx_loop (buf : List Nat) (n : Nat) (s : TriCoreASCLINState)
    (h : cursors_ok s) : cursors_ok (uart_rx_loop s buf n) := by
  induction n generalizing s with
  | zero => exact h
  | succ k ih =>
    have hc3 : cursors_ok
        { s with
          rxbuf := Function.update s.rxbuf s.rxbufwriteidx (buf.headD 0)
          rxbufwriteidx := (s.rxbufwriteidx + 1) % 2 ^ 32 % ASCLIN_RX_BUFFER } := by
      constructor
      · exact h.1
      · show (s.rxbufwriteidx + 1) % 2 ^ 32 % ASCLIN_RX_BUFFER < 8192
        exact Nat.mod_lt _ (by decide)
    simp only [uart_rx_loop]
    split_ifs with hfree
    · exact cursors_ok_of_eq _ _ rfl rfl hc3
    · exact ih _ hc3

theorem cursors_ok_accept_input (s : TriCoreASCLINState) (chr : CharBackend)
    (h : cursors_ok s) : cursors_ok (uart_accept_input s chr) := by
  unfold uart_accept_input
  generalize chr.accept_input = l
  induction l generalizing s with
  | nil => exact h
  | cons b bs ih =>
    simp only [List.foldl_cons]
    exact ih _ (cursors_ok_update_flags _ (cursors_ok_rx_loop b _ s h))

theorem cursors_ok_write_switch (s : TriCoreASCLINState) (chr : CharBackend)
    (reg_addr value : Nat) (h : cursors_ok s) :
    cursors_ok (uart_write_switch s chr reg_addr value) := by
  have hupd : ∀ r x, cursors_ok
      ({ s with regs := Function.update s.regs r x } : TriCoreASCLINState) :=
    fun _ _ => cursors_ok_of_eq s _ rfl rfl h
  unfold uart_write_switch
  by_cases c1 : reg_addr = CLC ∨ reg_addr = IOCR ∨ reg_addr = ID ∨ reg_addr = TXFIFOCON
  · rw [if_pos c1]; exact hupd _ _
  rw [if_neg c1]
  by_cases c2 : reg_addr = RXFIFOCON
  · rw [if_pos c2]
    dsimp only
    by_cases cf : (value &&& MASK_RXFIFOCON_FLUSH) >>> 0 ≠ 0
    · rw [if_pos cf]
      by_cases ce : (value &&& MASK_RXFIFOCON_ENI) >>> 1 ≠ 0
      · rw [if_pos ce]; exact cursors_ok_accept_input _ chr (cursors_ok_buffer_reset _)
      · rw [if_neg ce]; exact cursors_ok_buffer_reset _
    · rw [if_neg cf]
      by_cases ce : (value &&& MASK_RXFIFOCON_ENI) >>> 1 ≠ 0
      · rw [if_pos ce]; exact cursors_ok_accept_input _ chr (hupd _ _)
      · rw [if_neg ce]; exact hupd _ _
  rw [if_neg c2]
  by_cases c3 : reg_addr = BITCON
  · rw [if_pos c3]; exact hupd _ _
  rw [if_neg c3]
  by_cases c4 : reg_addr = FRAMECON ∨ reg_addr = DATCON ∨ reg_addr = BRG ∨ reg_addr = BRD ∨
      reg_addr = LINCON ∨ reg_addr = LINBTIMER
  · rw [if_pos c4]; exact h
  rw [if_neg c4]
  by_cases c5 : reg_addr = LINHTIMER
  · rw [if_pos c5]; exact h
  rw [if_neg c5]
  by_cases c5a : reg_addr = FLAGS
  · rw [if_pos c5a]; exact hupd _ _
  rw [if_neg c5a]
  by_cases c5b : reg_addr = FLAGSSET
  · rw [if_pos c5b]; exact hupd _ _
  rw [if_neg c5b]
  by_cases c5c : reg_addr = FLAGSCLEAR
  · rw [if_pos c5c]; exact hupd _ _
  rw [if_neg c5c]
  by_cases c6 : reg_addr = FLAGSENABLE
  · rw [if_pos c6]; exact hupd _ _
  rw [if_neg c6]
  by_cases c7 : reg_addr = TXDATA
  · rw [if_pos c7]
    exact cursors_ok_transmit _ chr (cursors_ok_of_eq s _ rfl rfl h)
  rw [if_neg c7]
  by_cases c8 : reg_addr = RXDATA ∨ reg_addr = CSR
  · rw [if_pos c8]; exact hupd _ _
  rw [if_neg c8]
  by_cases c9 : reg_addr = RXDATAD
  · rw [if_pos c9]; exact h
  rw [if_neg c9]
  by_cases c10 : reg_addr = 0x60 / 4
  · rw [if_pos c10]; exact hupd _ _
  rw [if_neg c10]
  by_cases c11 : reg_addr = 0x64 / 4
  · rw [if_pos c11]; exact cursors_ok_transmit_block _ chr _ h
  rw [if_neg c11]
  exact cursors_ok_of_eq s _ rfl rfl h

theorem cursors_ok_read (s : TriCoreASCLINState) (offset size : Nat) (h : cursors_ok s) :
    cursors_ok (uart_read s offset size).1 := by
  unfold uart_read
  dsimp only
  apply cursors_ok_update_flags
  by_cases c1 : offset >>> 2 = CLC ∨ offset >>> 2 = IOCR ∨ offset >>> 2 = ID ∨
      offset >>> 2 = TXFIFOCON ∨ offset >>> 2 = RXFIFOCON ∨ offset >>> 2 = BITCON ∨
      offset >>> 2 = FRAMECON ∨ offset >>> 2 = DATCON ∨ offset >>> 2 = BRG ∨
      offset >>> 2 = BRD ∨ offset >>> 2 = LINCON ∨ offset >>> 2 = LINBTIMER ∨
      offset >>> 2 = LINHTIMER ∨ offset >>> 2 = FLAGSENABLE ∨ offset >>> 2 = FLAGS
  · rw [if_pos c1]; exact h
  rw [if_neg c1]
  by_cases c2 : offset >>> 2 = FLAGSSET ∨ offset >>> 2 = FLAGSCLEAR
  · rw [if_pos c2]; exact h
  rw [if_neg c2]
  by_cases c3 : offset >>> 2 = TXDATA
  · rw [if_pos c3]; exact cursors_ok_of_eq s _ rfl rfl h
  rw [if_neg c3]
  by_cases c4 : offset >>> 2 = RXDATA
  · rw [if_pos c4]
    by_cases c5 : s.rxbufreadidx ≠ s.rxbufwriteidx
    · rw [if_pos c5]
      constructor
      · show (s.rxbufreadidx + 1) % 2 ^ 32 % ASCLIN_RX_BUFFER < 8192
        exact Nat.mod_lt _ (by decide)
      · exact h.2
    · rw [if_neg c5]; exact cursors_ok_of_eq s _ rfl rfl h
  rw [if_neg c4]
  by_cases c6 : offset >>> 2 = CSR
  · rw [if_pos c6]; exact h
  rw [if_neg c6]
  by_cases c7 : offset >>> 2 = RXDATAD
  · rw [if_pos c7]; exact h
  rw [if_neg c7]
  exact cursors_ok_of_eq s _ rfl rfl h

theorem cursors_ok_access (s : TriCoreASCLINState) (a : AsclinAccess) (h : cursors_ok s) :
    cursors_ok (uart_access s a) := by
  cases a with
  | read offset size => exact cursors_ok_read s offset size h
  | rx buf => exact cursors_ok_update_flags _ (cursors_ok_rx_loop buf _ s h)
  | write chr offset value size =>
    exact cursors_ok_update_irq _ (cursors_ok_write_switch s chr _ _ h)

theorem cursors_ok_run (accesses : List AsclinAccess) (s : TriCoreASCLINState)
    (h : cursors_ok s) : cursors_ok (uart_run s accesses) := by
  induction accesses generalizing s with
  | nil => exact h
  | cons a rest ih =>
    unfold uart_run
    exact ih _ (cursors_ok_access s a h)

/-- C34: in every state reached from device creation (`asclin_uart_init`) by
a sequence of register reads, register writes (a flush is a write to
RXFIFOCON) and receive bursts, the read cursor and the write cursor are both
below 8192, so every access `rxbuf[cursor]` is inside the ring buffer, and
`asclin_buffer_used` equals (write - read) mod 8192 and lies between 0 and
8191. -/
theorem uart_run_cursors_in_bounds (accesses : List AsclinAccess) :
    (uart_run asclin_uart_init accesses).rxbufreadidx < ASCLIN_RX_BUFFER ∧
    (uart_run asclin_uart_init accesses).rxbufwriteidx < ASCLIN_RX_BUFFER ∧
    asclin_buffer_used (uart_run asclin_uart_init accesses) =
      used_spec (uart_run asclin_uart_init accesses) ∧
    asclin_buffer_used (uart_run asclin_uart_init accesses) ≤ 8191 := by
  have h0 : cursors_ok asclin_uart_init := by decide
  have h := cursors_ok_run accesses asclin_uart_init h0
  refine ⟨h.1, h.2, asclin_buffer_used_eq _ h, ?_⟩
  have := asclin_buffer_used_lt (uart_run asclin_uart_init accesses)
  omega


/-! ## Theorems: clock status invariant -/

theorem scu_block_get_some (t : TriCoreSCUState) (k : Nat) (hk : k ≤ 21) :
    ∃ old, scu_block_get t k = some old := by
  interval_cases k <;> exact ⟨_, rfl⟩

theorem scu_block_set_PLLSTAT (t : TriCoreSCUState) (k v : Nat) (hk : 2 ≤ k) (hk2 : k ≤ 21) :
    ∃ u, scu_block_set t k v = some u ∧ u.PLLSTAT = t.PLLSTAT := by
  interval_cases k <;> exact ⟨_, rfl, rfl⟩

theorem memcpy_word_some (old value size : Nat) (h : size ≤ 4) :
    ∃ w, memcpy_word old value 0 size = some w := by
  unfold memcpy_word
  rw [if_neg (by omega)]
  exact ⟨_, rfl⟩

theorem scu_memcpy_PLLSTAT (t : TriCoreSCUState) (k value size : Nat) (hk : 2 ≤ k)
    (hk2 : k ≤ 21) (hsz : size ≤ 4) :
    ∃ u, scu_memcpy t k value size = some u ∧ u.PLLSTAT = t.PLLSTAT := by
  obtain ⟨old, hold⟩ := scu_block_get_some t k hk2
  obtain ⟨w, hw⟩ := memcpy_word_some old value size hsz
  obtain ⟨u, hu, hp⟩ := scu_block_set_PLLSTAT t k w hk hk2
  refine ⟨u, ?_, hp⟩
  unfold scu_memcpy
  rw [hold]
  dsimp only
  rw [hw]
  exact hu

theorem scu_status_ok_of_eq (s t : TriCoreSCUState) (h : t.PLLSTAT = s.PLLSTAT)
    (hs : scu_status_ok s) : scu_status_ok t := by
  unfold scu_status_ok at *
  rw [h]
  exact hs

theorem scu_status_ok_raise_lock (s : TriCoreSCUState) (hs : scu_status_ok s) :
    scu_status_ok (scu_raise_lock s) := by
  unfold scu_status_ok scu_raise_lock at *
  simp only [Nat.testBit_or, hs.1, hs.2, Bool.true_or]
  exact ⟨trivial, trivial⟩

theorem scu_establish_PLLSTAT (s : TriCoreSCUState) :
    (tricore_scu_establish_configuration s).PLLSTAT = s.PLLSTAT := by
  unfold tricore_scu_establish_configuration
  split_ifs <;> rfl

theorem scu_memcpy_lock_ok (t : TriCoreSCUState) (k value size : Nat) (hk : 2 ≤ k)
    (hk2 : k ≤ 21) (hsz : size ≤ 4) (hs : scu_status_ok t) :
    ∃ u, (scu_memcpy t k value size).map scu_raise_lock = some u ∧ scu_status_ok u := by
  obtain ⟨u, hu, hp⟩ := scu_memcpy_PLLSTAT t k value size hk hk2 hsz
  rw [hu]
  exact ⟨_, rfl, scu_status_ok_raise_lock _ (scu_status_ok_of_eq t u hp hs)⟩

theorem scu_memcpy_establish_ok (t : TriCoreSCUState) (k value size : Nat) (hk : 2 ≤ k)
    (hk2 : k ≤ 21) (hsz : size ≤ 4) (hs : scu_status_ok t) :
    ∃ u, (scu_memcpy t k value size).map
        (fun t => scu_raise_lock (tricore_scu_establish_configuration t)) = some u ∧
      scu_status_ok u := by
  obtain ⟨u, hu, hp⟩ := scu_memcpy_PLLSTAT t k value size hk hk2 hsz
  rw [hu]
  exact ⟨_, rfl, scu_status_ok_raise_lock _
    (scu_status_ok_of_eq t _ ((scu_establish_PLLSTAT u).trans hp) hs)⟩

theorem scu_memcpy_plain_ok (t : TriCoreSCUState) (k value size : Nat) (hk : 2 ≤ k)
    (hk2 : k ≤ 21) (hsz : size ≤ 4) (hs : scu_status_ok t) :
    ∃ u, scu_memcpy t k value size = some u ∧ scu_status_ok u := by
  obtain ⟨u, hu, hp⟩ := scu_memcpy_PLLSTAT t k value size hk hk2 hsz
  exact ⟨u, hu, scu_status_ok_of_eq t u hp hs⟩

theorem scu_findis_keeps_status (x : Nat) (h2 : x.testBit 2 = true) (h5 : x.testBit 5 = true) :
    ((x ||| MASK_PLLSTAT_FINDIS).testBit 2 = true ∧
      (x ||| MASK_PLLSTAT_FINDIS).testBit 5 = true) ∧
    ((x &&& not32 MASK_PLLSTAT_FINDIS).testBit 2 = true ∧
      (x &&& not32 MASK_PLLSTAT_FINDIS).testBit 5 = true) := by
  have e : MASK_PLLSTAT_FINDIS = 1 <<< 3 := by decide
  rw [e]
  refine ⟨⟨?_, ?_⟩, ⟨?_, ?_⟩⟩
  · rw [testBit_set_bit, h2]; rfl
  · rw [testBit_set_bit, h5]; rfl
  · rw [testBit_clear_bit, h2]; decide
  · rw [testBit_clear_bit, h5]; decide

theorem scu_write_switch_status (t : TriCoreSCUState) (offset value size : Nat)
    (ha : scu_aligned (offset, value, size)) (hs : scu_status_ok t) :
    ∃ u, scu_write_switch t offset value size = some u ∧ scu_status_ok u := by
  obtain ⟨hoff, hsize⟩ := ha
  have hoff' : offset % 4 = 0 := hoff
  have hsz : size ≤ 4 := by
    have : size = 1 ∨ size = 2 ∨ size = 4 := hsize
    omega
  have hj : offset &&& 0x3 = 0 := by
    have := Nat.and_pow_two_sub_one_eq_mod offset 2
    simpa [hoff'] using this
  unfold scu_write_switch
  dsimp only
  rw [hj]
  generalize (offset >>> 2) <<< 2 = ra
  by_cases c1 : ra = 0x18
  · rw [if_pos c1]
    obtain ⟨w, hw⟩ := memcpy_word_some (t.PLLCON 0) value size hsz
    rw [hw]
    dsimp only
    refine ⟨_, rfl, ?_⟩
    apply scu_status_ok_raise_lock
    have k1 := scu_findis_keeps_status t.PLLSTAT hs.1 hs.2
    by_cases cs : Function.update t.PLLCON 0 w 0 &&& MASK_PLLCON0_SETFINDIS ≠ 0
    · rw [if_pos cs]
      dsimp only
      have k2 := scu_findis_keeps_status (t.PLLSTAT ||| MASK_PLLSTAT_FINDIS) k1.1.1 k1.1.2
      by_cases cc : Function.update t.PLLCON 0 w 0 &&& MASK_PLLCON0_CLRFINDIS ≠ 0
      · rw [if_pos cc]; exact k2.2
      · rw [if_neg cc]; exact k1.1
    · rw [if_neg cs]
      by_cases cc : Function.update t.PLLCON 0 w 0 &&& MASK_PLLCON0_CLRFINDIS ≠ 0
      · rw [if_pos cc]; exact k1.2
      · rw [if_neg cc]; exact hs
  rw [if_neg c1]
  by_cases c2 : ra = 0x1C
  · rw [if_pos c2]; exact scu_memcpy_lock_ok t _ value size (by decide) (by decide) hsz hs
  rw [if_neg c2]
  by_cases c3 : ra = 0x20
  · rw [if_pos c3]; exact scu_memcpy_lock_ok t _ value size (by decide) (by decide) hsz hs
  rw [if_neg c3]
  by_cases c4 : ra = 0x30
  · rw [if_pos c4]; exact scu_memcpy_establish_ok t _ value size (by decide) (by decide) hsz hs
  rw [if_neg c4]
  by_cases c5 : ra = 0x34
  · rw [if_pos c5]; exact scu_memcpy_establish_ok t _ value size (by decide) (by decide) hsz hs
  rw [if_neg c5]
  by_cases c6 : ra = 0x40
  · rw [if_pos c6]; exact scu_memcpy_lock_ok t _ value size (by decide) (by decide) hsz hs
  rw [if_neg c6]
  by_cases c7 : ra = 0x44
  · rw [if_pos c7]; exact scu_memcpy_lock_ok t _ value size (by decide) (by decide) hsz hs
  rw [if_neg c7]
  by_cases c8 : ra = 0x48
  · rw [if_pos c8]; exact scu_memcpy_lock_ok t _ value size (by decide) (by decide) hsz hs
  rw [if_neg c8]
  by_cases c9 : ra = 0x4c
  · rw [if_pos c9]; exact scu_memcpy_establish_ok t _ value size (by decide) (by decide) hsz hs
  rw [if_neg c9]
  by_cases c10 : ra = 0x60
  · rw [if_pos c10]
    by_cases cv : value &&& 2 ≠ 0
    · rw [if_pos cv]; exact ⟨_, rfl, scu_status_ok_of_eq t _ rfl hs⟩
    · rw [if_neg cv]; exact ⟨_, rfl, hs⟩
  rw [if_neg c10]
  by_cases c11 : ra = 0x80
  · rw [if_pos c11]; exact scu_memcpy_lock_ok t _ value size (by decide) (by decide) hsz hs
  rw [if_neg c11]
  by_cases c12 : ra = 0x84
  · rw [if_pos c12]; exact scu_memcpy_lock_ok t _ value size (by decide) (by decide) hsz hs
  rw [if_neg c12]
  by_cases c13 : ra = 0x88
  · rw [if_pos c13]; exact scu_memcpy_lock_ok t _ value size (by decide) (by decide) hsz hs
  rw [if_neg c13]
  by_cases c14 : ra = 0xf0
  · rw [if_pos c14]; exact scu_memcpy_plain_ok t _ value size (by decide) (by decide) hsz hs
  rw [if_neg c14]
  by_cases c15 : ra = 0x100
  · rw [if_pos c15]; exact scu_memcpy_plain_ok t _ value size (by decide) (by decide) hsz hs
  rw [if_neg c15]
  exact ⟨_, rfl, hs⟩

theorem scu_update_mode_status (u : TriCoreSCUState) (hs : scu_status_ok u) :
    (tricore_scu_update_mode u).2 = [] ∧
    scu_status_ok (tricore_scu_update_mode u).1 ∧
    (tricore_scu_update_mode u).1.PLLSTAT.testBit 0 =
      ((tricore_scu_update_mode u).1.PLLCON 0).testBit 0 ∧
    (tricore_scu_update_mode u).1.mode =
      (if ((tricore_scu_update_mode u).1.PLLCON 0).testBit 0 = true then
        TriCore_SCU_Mode_Type.TRICORE_SCU_PRESCALER
      else TriCore_SCU_Mode_Type.TRICORE_SCU_NORMAL) := by
  have hb5 : (u.PLLSTAT &&& MASK_PLLCON0_CLRFINDIS) >>> 5 = 0x1 := by
    have e : MASK_PLLCON0_CLRFINDIS = (2 ^ 1 - 1) <<< 5 := by decide
    rw [e, and_mask_shiftRight, reg_field_one_bit, if_pos hs.2]
  have hb0 : u.PLLCON 0 &&& MASK_PLLCON0_VCOBYP =
      if (u.PLLCON 0).testBit 0 = true then 1 else 0 := by
    have e : MASK_PLLCON0_VCOBYP = 2 ^ 1 - 1 := by decide
    rw [e, and_mask_low, reg_field_one_bit]
  have e0 : MASK_PLLSTAT_VCOBYST = 1 <<< 0 := by decide
  unfold tricore_scu_update_mode
  by_cases hv : (u.PLLCON 0).testBit 0 = true
  · rw [if_pos hv] at hb0
    have c1 : ¬ (u.PLLCON 0 &&& MASK_PLLCON0_VCOBYP = 0x0
        ∧ (u.PLLSTAT &&& MASK_PLLCON0_CLRFINDIS) >>> 5 = 0x1) := by
      rw [hb0]
      exact fun h => absurd h.1 (by decide)
    rw [if_neg c1, if_pos hb0]
    refine ⟨rfl, ⟨?_, ?_⟩, ?_, ?_⟩
    · show (u.PLLSTAT ||| MASK_PLLSTAT_VCOBYST).testBit 2 = true
      rw [Nat.testBit_or, hs.1]; rfl
    · show (u.PLLSTAT ||| MASK_PLLSTAT_VCOBYST).testBit 5 = true
      rw [Nat.testBit_or, hs.2]; rfl
    · show (u.PLLSTAT ||| MASK_PLLSTAT_VCOBYST).testBit 0 = (u.PLLCON 0).testBit 0
      rw [e0, testBit_set_bit, hv]
      simp
    · show TriCore_SCU_Mode_Type.TRICORE_SCU_PRESCALER =
        if (u.PLLCON 0).testBit 0 = true then TriCore_SCU_Mode_Type.TRICORE_SCU_PRESCALER
        else TriCore_SCU_Mode_Type.TRICORE_SCU_NORMAL
      rw [if_pos hv]
  · rw [if_neg hv] at hb0
    have hv' : (u.PLLCON 0).testBit 0 = false := by
      cases hb : (u.PLLCON 0).testBit 0
      · rfl
      · exact absurd hb hv
    rw [if_pos ⟨hb0, hb5⟩]
    refine ⟨rfl, ⟨?_, ?_⟩, ?_, ?_⟩
    · show (u.PLLSTAT &&& not32 MASK_PLLSTAT_VCOBYST).testBit 2 = true
      rw [e0, testBit_clear_bit, hs.1]; decide
    · show (u.PLLSTAT &&& not32 MASK_PLLSTAT_VCOBYST).testBit 5 = true
      rw [e0, testBit_clear_bit, hs.2]; decide
    · show (u.PLLSTAT &&& not32 MASK_PLLSTAT_VCOBYST).testBit 0 = (u.PLLCON 0).testBit 0
      rw [e0, testBit_clear_bit, hv']
      simp
    · show TriCore_SCU_Mode_Type.TRICORE_SCU_NORMAL =
        if (u.PLLCON 0).testBit 0 = true then TriCore_SCU_Mode_Type.TRICORE_SCU_PRESCALER
        else TriCore_SCU_Mode_Type.TRICORE_SCU_NORMAL
      rw [if_neg hv]

theorem scu_write_status (t : TriCoreSCUState) (offset value size : Nat)
    (ha : scu_aligned (offset, value, size)) (hs : scu_status_ok t) :
    ∃ t', tricore_scu_write t offset value size = some (t', []) ∧ scu_status_ok t' ∧
      t'.PLLSTAT.testBit 0 = (t'.PLLCON 0).testBit 0 ∧
      t'.mode = (if (t'.PLLCON 0).testBit 0 = true then
          TriCore_SCU_Mode_Type.TRICORE_SCU_PRESCALER
        else TriCore_SCU_Mode_Type.TRICORE_SCU_NORMAL) := by
  obtain ⟨u, hu, hsu⟩ := scu_write_switch_status t offset value size ha hs
  obtain ⟨hr, hok, hby, hmode⟩ := scu_update_mode_status u hsu
  refine ⟨(tricore_scu_update_mode u).1, ?_, hok, hby, hmode⟩
  unfold tricore_scu_write
  rw [hu]
  show some (tricore_scu_update_mode u) = some ((tricore_scu_update_mode u).1, [])
  rw [← hr]

theorem scu_writes_status (ws : List (Nat × Nat × Nat)) (t : TriCoreSCUState)
    (hws : ∀ w ∈ ws, scu_aligned w) (hs : scu_status_ok t) :
    ∃ t', scu_writes t ws = some t' ∧ scu_status_ok t' := by
  induction ws generalizing t with
  | nil => exact ⟨t, rfl, hs⟩
  | cons w rest ih =>
    obtain ⟨offset, value, size⟩ := w
    obtain ⟨t1, h1, hs1, _, _⟩ := scu_write_status t offset value size
      (hws _ (List.mem_cons_self _ _)) hs
    obtain ⟨t', h', hs'⟩ := ih t1 (fun c hc => hws c (List.mem_cons_of_mem _ hc)) hs1
    refine ⟨t', ?_, hs'⟩
    unfold scu_writes
    rw [h1]
    exact h'

theorem scu_status_ok_reset (s0 : TriCoreSCUState) : scu_status_ok (tricore_scu_reset s0) := by
  have hp : (tricore_scu_reset s0).PLLSTAT =
      (((RESET_TRICORE_PLLSTAT &&& not32 MASK_PLLSTAT_VCOLOCK) ||| MASK_PLLSTAT_VCOLOCK)
        &&& not32 MASK_PLLSTAT_FINDIS) ||| 0x0 := rfl
  unfold scu_status_ok
  rw [hp]
  exact ⟨by decide, by decide⟩

/-- C37: every sequence of word-aligned guest writes (offset a multiple of 4,
size 1, 2 or 4) applied to the state after `tricore_scu_reset` returns, and in
the state reached PLLSTAT.VCOLOCK (bit 2) and PLLSTAT bit 5 are set. Every
further such write returns with no diagnostic (the Freerunning and illegal
branches of `tricore_scu_update_mode` are not taken); after it VCOLOCK and bit
5 are set, PLLSTAT.VCOBYST (bit 0) equals PLLCON0.VCOBYP (bit 0), and the
recorded mode is Prescaler when VCOBYP is set and Normal otherwise. -/
theorem scu_writes_keep_status (s0 : TriCoreSCUState) (ws : List (Nat × Nat × Nat))
    (hws : ∀ w ∈ ws, scu_aligned w) :
    ∃ t, scu_writes (tricore_scu_reset s0) ws = some t ∧
      t.PLLSTAT.testBit 2 = true ∧ t.PLLSTAT.testBit 5 = true ∧
      ∀ offset value size, scu_aligned (offset, value, size) →
        ∃ t', tricore_scu_write t offset value size = some (t', []) ∧
          t'.PLLSTAT.testBit 2 = true ∧ t'.PLLSTAT.testBit 5 = true ∧
          t'.PLLSTAT.testBit 0 = (t'.PLLCON 0).testBit 0 ∧
          t'.mode = (if (t'.PLLCON 0).testBit 0 = true then
              TriCore_SCU_Mode_Type.TRICORE_SCU_PRESCALER
            else TriCore_SCU_Mode_Type.TRICORE_SCU_NORMAL) := by
  obtain ⟨t, ht, hs⟩ := scu_writes_status ws (tricore_scu_reset s0) hws (scu_status_ok_reset s0)
  refine ⟨t, ht, hs.1, hs.2, ?_⟩
  intro offset value size ha
  obtain ⟨t', h', hs', hby, hmode⟩ := scu_write_status t offset value size ha hs
  exact ⟨t', h', hs'.1, hs'.2, hby, hmode⟩

theorem scu_writes_keep_status_witness :
    ∃ t, scu_writes (tricore_scu_reset scu_normal)
        [(0x18, 0x0001C611, 4), (0x34, 0x10002211, 4), (0x30, 0x48, 1)] = some t ∧
      t.PLLSTAT.testBit 2 = true ∧ t.PLLSTAT.testBit 5 = true ∧
      ∀ offset value size, scu_aligned (offset, value, size) →
        ∃ t', tricore_scu_write t offset value size = some (t', []) ∧
          t'.PLLSTAT.testBit 2 = true ∧ t'.PLLSTAT.testBit 5 = true ∧
          t'.PLLSTAT.testBit 0 = (t'.PLLCON 0).testBit 0 ∧
          t'.mode = (if (t'.PLLCON 0).testBit 0 = true then
              TriCore_SCU_Mode_Type.TRICORE_SCU_PRESCALER
            else TriCore_SCU_Mode_Type.TRICORE_SCU_NORMAL) :=
  scu_writes_keep_status scu_normal
    [(0x18, 0x0001C611, 4), (0x34, 0x10002211, 4), (0x30, 0x48, 1)] (by decide)

end TriCore
